import Mathlib

/-!
# FrameBufferObject attachment bookkeeping (inviwo, modules/opengl)

A shallow embedding of `modules/opengl/src/buffer/framebufferobject.cpp`.

* The C++ object is the structure `FrameBufferObject`; every member function
  becomes a function that takes the object and returns an `Outcome` carrying
  the object as it is when the call ends.
* A C++ `throw OpenGLException(...)` is `Outcome.thrown e fbo`, where `fbo` is
  the object at the point of the throw, so "the failed call changed nothing"
  is a statement about that field.
* Indexing a `std::array`/`std::vector` outside its bounds, or inserting at an
  iterator past the end, yields `Outcome.undefinedBehavior`.
* `GLuint`/`GLenum` are natural numbers, `GLint`/`int` are `Int`.  The one
  narrowing cast of the file (`static_cast<GLenum>`) is an explicit `% 2^32`.
* Native OpenGL calls that matter for the claims (`glFramebufferTexture`) are
  returned as a list of `GLCall`s.
* `IVW_ASSERT(isActive(), ...)` in the public entry points is a debug-build
  assertion on the global binding; the attachment functions of the first part
  take it as a precondition.
* The binding protocol (`activate`, `deactivate`, `setRead_Blit`,
  `setDraw_Blit`) runs against a `GLContext`: the two framebuffer binding
  points and the active render context.  A function that can stop in the
  `assertion(...)` of `checkContext` returns a `Checked`.
* `modules/opengl/image/imagegl.cpp` is embedded on top of this: `ImageGL`
  holds the layer references and the framebuffer object, and its functions
  return an `ImageOutcome` with the calls that the claims count.  There the
  `IVW_ASSERT(isActive(), ...)` of the attachment functions is evaluated
  (`FrameBufferObject.withActive`).
-/

namespace inviwo

abbrev GLuint := Nat
abbrev GLenum := Nat

/-- OpenGL registry value of `GL_COLOR_ATTACHMENT0`. -/
def GL_COLOR_ATTACHMENT0 : GLenum := 0x8CE0
/-- OpenGL registry value of `GL_DEPTH_ATTACHMENT`. -/
def GL_DEPTH_ATTACHMENT : GLenum := 0x8D00
/-- OpenGL registry value of `GL_STENCIL_ATTACHMENT`. -/
def GL_STENCIL_ATTACHMENT : GLenum := 0x8D20
/-- OpenGL registry value of `GL_DEPTH_STENCIL_ATTACHMENT`. -/
def GL_DEPTH_STENCIL_ATTACHMENT : GLenum := 0x821A

/-- The table `FrameBufferObject::colorAttachmentEnums_`:
`GL_COLOR_ATTACHMENT0 .. GL_COLOR_ATTACHMENT15`, consecutive registry values. -/
def colorAttachmentEnums_ : List GLenum :=
  [0x8CE0, 0x8CE1, 0x8CE2, 0x8CE3, 0x8CE4, 0x8CE5, 0x8CE6, 0x8CE7,
   0x8CE8, 0x8CE9, 0x8CEA, 0x8CEB, 0x8CEC, 0x8CED, 0x8CEE, 0x8CEF]

/-- The two messages with which the file throws `OpenGLException`:
"Maximum number of color attachments reached." (the spec's `ResourceExhausted`)
and "Invalid attachment id: {}" (the spec's `InvalidSlot`). -/
inductive OpenGLException where
  | maxColorAttachmentsReached
  | invalidAttachmentId (id : Int)
  deriving DecidableEq, Repr

/-- The data members of `FrameBufferObject`. -/
structure FrameBufferObject where
  id_ : GLuint
  attachedDepthId_ : GLuint
  attachedStencilId_ : GLuint
  attachedColorIds_ : List GLuint
  drawBuffers_ : List GLenum
  maxColorattachments_ : Int
  prevFbo_ : Int
  prevDrawFbo_ : Int
  prevReadFbo_ : Int
  creationContext_ : Nat
  deriving DecidableEq, Repr

/-- A native call `glFramebufferTexture(GL_FRAMEBUFFER, attachment, texture, 0)`. -/
inductive GLCall where
  | framebufferTexture (attachment : GLenum) (texture : GLuint)
  deriving DecidableEq, Repr

/-- How a member function ends: normally with a value, by throwing, or in
undefined behaviour. -/
inductive Outcome (α : Type) where
  | ok (val : α) (fbo : FrameBufferObject)
  | thrown (e : OpenGLException) (fbo : FrameBufferObject)
  | undefinedBehavior
  deriving DecidableEq, Repr

/-- Element `i` of a C++ array or vector, `none` when `i` is out of bounds. -/
def arrayAt {α : Type} (l : List α) (i : Int) : Option α :=
  if 0 ≤ i then l[i.toNat]? else none

/-- `std::vector::insert(begin() + pos, a)` for `pos` within `[0, size]`. -/
def vectorInsert (l : List GLenum) (pos : Nat) (a : GLenum) : List GLenum :=
  l.take pos ++ a :: l.drop pos

/-- `util::erase_remove(v, a)`, i.e. `v.erase(std::remove(v.begin(), v.end(), a), v.end())`. -/
def eraseRemove (l : List GLenum) (a : GLenum) : List GLenum :=
  l.filter (fun b => b != a)

namespace FrameBufferObject

/-- The constructor `FrameBufferObject()`: `handle` is the name returned by
`glGenFramebuffers`, `maxColorAttachments` the value of
`GL_MAX_COLOR_ATTACHMENTS` (never negative), `ctx` the active render
context. -/
def create (handle : GLuint) (maxColorAttachments : Int) (ctx : Nat) : FrameBufferObject :=
  { id_ := handle
    attachedDepthId_ := 0
    attachedStencilId_ := 0
    attachedColorIds_ := List.replicate maxColorAttachments.toNat 0
    drawBuffers_ := []
    maxColorattachments_ := maxColorAttachments
    prevFbo_ := 0
    prevDrawFbo_ := 0
    prevReadFbo_ := 0
    creationContext_ := ctx }

/-- `FrameBufferObject::validateAttachmentId`. -/
def validateAttachmentId (s : FrameBufferObject) (attachmentID : GLenum) : Outcome Unit :=
  match arrayAt colorAttachmentEnums_ 0 with
  | none => .undefinedBehavior
  | some first =>
    if attachmentID < first then
      .thrown (.invalidAttachmentId attachmentID) s
    else
      match arrayAt colorAttachmentEnums_ (s.maxColorattachments_ - 1) with
      | none => .undefinedBehavior
      | some last =>
        if attachmentID > last then
          .thrown (.invalidAttachmentId attachmentID) s
        else
          .ok () s

/-- `FrameBufferObject::performAttachTexture(GLenum, GLuint)`. -/
def performAttachTexture (s : FrameBufferObject) (attachmentID : GLenum) (texId : GLuint) :
    Outcome Unit :=
  if attachmentID = GL_DEPTH_ATTACHMENT then
    .ok () { s with attachedDepthId_ := texId }
  else if attachmentID = GL_STENCIL_ATTACHMENT then
    .ok () { s with attachedStencilId_ := texId }
  else if attachmentID = GL_DEPTH_STENCIL_ATTACHMENT then
    .ok () { s with attachedDepthId_ := texId, attachedStencilId_ := texId }
  else
    match validateAttachmentId s attachmentID with
    | .thrown e s1 => .thrown e s1
    | .undefinedBehavior => .undefinedBehavior
    | .ok _ s1 =>
      match arrayAt colorAttachmentEnums_ 0 with
      | none => .undefinedBehavior
      | some first =>
        let idx := attachmentID - first
        match s1.attachedColorIds_[idx]? with
        | none => .undefinedBehavior
        | some used =>
          if used = 0 then
            .ok () { s1 with
              drawBuffers_ := s1.drawBuffers_ ++ [attachmentID]
              attachedColorIds_ := s1.attachedColorIds_.set idx texId }
          else
            .ok () s1

/-- `FrameBufferObject::performAttachColorTexture(GLuint)`; `List.findIdx`
returns the length of the list when nothing is found, like `find_if`
returning `end()`. -/
def performAttachColorTexture (s : FrameBufferObject) (texId : GLuint) : Outcome GLenum :=
  let itUnUsed := s.attachedColorIds_.findIdx (fun used => used == 0)
  if itUnUsed = s.attachedColorIds_.length then
    .thrown .maxColorAttachmentsReached s
  else
    match arrayAt colorAttachmentEnums_ 0 with
    | none => .undefinedBehavior
    | some first =>
      let attachmentID : GLenum := (first + itUnUsed) % 2 ^ 32
      .ok attachmentID { s with
        drawBuffers_ := s.drawBuffers_ ++ [attachmentID]
        attachedColorIds_ := s.attachedColorIds_.set itUnUsed texId }

/-- `FrameBufferObject::performAttachColorTexture(GLuint, int, bool, int)`. -/
def performAttachColorTextureExplicit (s : FrameBufferObject) (texId : GLuint)
    (attachmentNumber : Int) (attachFromRear : Bool) (forcedLocation : Int) : Outcome GLenum :=
  if (s.drawBuffers_.length : Int) = s.maxColorattachments_ then
    .thrown .maxColorAttachmentsReached s
  else if attachmentNumber < 0 ∨ attachmentNumber > s.maxColorattachments_ - 1 then
    .thrown (.invalidAttachmentId attachmentNumber) s
  else
    let attachmentNumber : Int :=
      if attachFromRear then s.maxColorattachments_ - attachmentNumber - 1 else attachmentNumber
    match arrayAt colorAttachmentEnums_ attachmentNumber with
    | none => .undefinedBehavior
    | some attachmentID =>
      match arrayAt s.attachedColorIds_ attachmentNumber with
      | none => .undefinedBehavior
      | some used =>
        if used = 0 then
          let s1 := { s with
            attachedColorIds_ := s.attachedColorIds_.set attachmentNumber.toNat texId }
          if forcedLocation < 0 ∨ forcedLocation > (s1.drawBuffers_.length : Int) then
            .ok attachmentID { s1 with drawBuffers_ := s1.drawBuffers_ ++ [attachmentID] }
          else
            .ok attachmentID { s1 with
              drawBuffers_ := vectorInsert s1.drawBuffers_ forcedLocation.toNat attachmentID }
        else if forcedLocation > -1 ∧ forcedLocation < (s.drawBuffers_.length : Int) then
          match s.drawBuffers_[forcedLocation.toNat]? with
          | none => .undefinedBehavior
          | some b =>
            if b ≠ attachmentID then
              let erased := eraseRemove s.drawBuffers_ attachmentID
              if forcedLocation.toNat ≤ erased.length then
                .ok attachmentID { s with
                  drawBuffers_ := vectorInsert erased forcedLocation.toNat attachmentID }
              else
                .undefinedBehavior
            else
              .ok attachmentID s
        else
          .ok attachmentID s

/-- `FrameBufferObject::detachTexture`; the value is the native call issued
at the end of the function. -/
def detachTexture (s : FrameBufferObject) (attachmentID : GLenum) : Outcome (List GLCall) :=
  if attachmentID = GL_DEPTH_ATTACHMENT then
    .ok [.framebufferTexture attachmentID 0] { s with attachedDepthId_ := 0 }
  else if attachmentID = GL_STENCIL_ATTACHMENT then
    .ok [.framebufferTexture attachmentID 0] { s with attachedStencilId_ := 0 }
  else if attachmentID = GL_DEPTH_STENCIL_ATTACHMENT then
    .ok [.framebufferTexture attachmentID 0]
      { s with attachedDepthId_ := 0, attachedStencilId_ := 0 }
  else
    match validateAttachmentId s attachmentID with
    | .thrown e s1 => .thrown e s1
    | .undefinedBehavior => .undefinedBehavior
    | .ok _ s1 =>
      let s2 := { s1 with drawBuffers_ := eraseRemove s1.drawBuffers_ attachmentID }
      match arrayAt colorAttachmentEnums_ 0 with
      | none => .undefinedBehavior
      | some first =>
        let idx := attachmentID - first
        if idx < s2.attachedColorIds_.length then
          .ok [.framebufferTexture attachmentID 0]
            { s2 with attachedColorIds_ := s2.attachedColorIds_.set idx 0 }
        else
          .undefinedBehavior

/-- `FrameBufferObject::detachAllTextures`; the value is the list of native
calls in the order they are issued. -/
def detachAllTextures (s : FrameBufferObject) : Outcome (List GLCall) :=
  let s1 := { s with attachedDepthId_ := 0 }
  let s2 := { s1 with attachedStencilId_ := 0 }
  let calls :=
    [GLCall.framebufferTexture GL_DEPTH_ATTACHMENT 0,
     GLCall.framebufferTexture GL_STENCIL_ATTACHMENT 0]
      ++ s2.drawBuffers_.map (fun buffer => GLCall.framebufferTexture buffer 0)
  .ok calls { s2 with
    drawBuffers_ := []
    attachedColorIds_ := s2.attachedColorIds_.map (fun _ => 0) }

/-- `FrameBufferObject::getAttachmentLocation`. -/
def getAttachmentLocation (s : FrameBufferObject) (attachmentID : GLenum) : Int :=
  if attachmentID = GL_DEPTH_ATTACHMENT ∨ attachmentID = GL_STENCIL_ATTACHMENT ∨
      attachmentID = GL_DEPTH_STENCIL_ATTACHMENT then
    0
  else
    let it := s.drawBuffers_.findIdx (fun b => b == attachmentID)
    if it ≠ s.drawBuffers_.length then (it : Int) else -1

/-- The sizes as the constructor leaves them: the slot table has
`maxColorattachments_` entries, and that number lies between 1 and the 16
entries of `colorAttachmentEnums_`. -/
def WellFormed (s : FrameBufferObject) : Prop :=
  1 ≤ s.maxColorattachments_ ∧ s.maxColorattachments_ ≤ 16 ∧
  (s.attachedColorIds_.length : Int) = s.maxColorattachments_

instance (s : FrameBufferObject) : Decidable (WellFormed s) := by
  unfold WellFormed; infer_instance

/-- The bookkeeping invariant between the slot table and the draw-buffer
list: the list has no duplicates, each of its entries is the attachment id of
a non-empty slot, and the attachment id of every non-empty slot is in it. -/
def Consistent (s : FrameBufferObject) : Prop :=
  WellFormed s ∧ s.drawBuffers_.Nodup ∧
  (∀ a ∈ s.drawBuffers_, GL_COLOR_ATTACHMENT0 ≤ a ∧
    a - GL_COLOR_ATTACHMENT0 < s.attachedColorIds_.length ∧
    s.attachedColorIds_[a - GL_COLOR_ATTACHMENT0]? ≠ some 0) ∧
  (∀ i, i < s.attachedColorIds_.length → s.attachedColorIds_[i]? ≠ some 0 →
    GL_COLOR_ATTACHMENT0 + i ∈ s.drawBuffers_)

instance (s : FrameBufferObject) : Decidable (Consistent s) := by
  unfold Consistent; infer_instance

/-- The slot index that `performAttachColorTexture(GLuint, int, bool, int)`
addresses: `attachmentNumber` counted from the front, or from the rear. -/
def slotIndex (s : FrameBufferObject) (attachmentNumber : Int) (attachFromRear : Bool) : Nat :=
  (if attachFromRear then s.maxColorattachments_ - attachmentNumber - 1
    else attachmentNumber).toNat

/-- A caller attaching the textures `ts` one after the other with
`performAttachColorTexture`, collecting the returned attachment ids; the
sequence ends at the first call that does not return normally. -/
def attachColorTextures (s : FrameBufferObject) : List GLuint → Outcome (List GLenum)
  | [] => .ok [] s
  | t :: ts =>
    match performAttachColorTexture s t with
    | .thrown e s1 => .thrown e s1
    | .undefinedBehavior => .undefinedBehavior
    | .ok attachmentID s1 =>
      match attachColorTextures s1 ts with
      | .thrown e s2 => .thrown e s2
      | .undefinedBehavior => .undefinedBehavior
      | .ok ids s2 => .ok (attachmentID :: ids) s2

end FrameBufferObject

/-- One call of the attachment interface, with its arguments. -/
inductive Call where
  | attachColor (texId : GLuint)
  | attachColorExplicit (texId : GLuint) (attachmentNumber : Int) (attachFromRear : Bool)
      (forcedLocation : Int)
  | attachTexture (attachmentID : GLenum) (texId : GLuint)
  | detach (attachmentID : GLenum)
  | detachAll
  deriving DecidableEq, Repr

/-- The texture a call attaches, if it attaches one. -/
def Call.texture : Call → Option GLuint
  | .attachColor t => some t
  | .attachColorExplicit t _ _ _ => some t
  | .attachTexture _ t => some t
  | .detach _ => none
  | .detachAll => none

/-- The object after a call: the new object when the call returns, the
object at the throw when it throws (the caller may catch and go on), nothing
when the call is undefined behaviour. -/
def Call.after (s : FrameBufferObject) : Call → Option FrameBufferObject
  | .attachColor t =>
    match s.performAttachColorTexture t with
    | .ok _ s1 => some s1
    | .thrown _ s1 => some s1
    | .undefinedBehavior => none
  | .attachColorExplicit t n rear loc =>
    match s.performAttachColorTextureExplicit t n rear loc with
    | .ok _ s1 => some s1
    | .thrown _ s1 => some s1
    | .undefinedBehavior => none
  | .attachTexture a t =>
    match s.performAttachTexture a t with
    | .ok _ s1 => some s1
    | .thrown _ s1 => some s1
    | .undefinedBehavior => none
  | .detach a =>
    match s.detachTexture a with
    | .ok _ s1 => some s1
    | .thrown _ s1 => some s1
    | .undefinedBehavior => none
  | .detachAll =>
    match s.detachAllTextures with
    | .ok _ s1 => some s1
    | .thrown _ s1 => some s1
    | .undefinedBehavior => none

/-- The object after a sequence of calls, `none` once a call is undefined
behaviour. -/
def runCalls (s : FrameBufferObject) : List Call → Option FrameBufferObject
  | [] => some s
  | c :: cs =>
    match c.after s with
    | none => none
    | some s1 => runCalls s1 cs

/-! ## Binding protocol: the OpenGL context state the object talks to -/

/-- `static_cast<GLint>` of a `GLuint` (and what `glGetIntegerv` writes for an
unsigned binding): the value modulo `2^32`, read as a signed 32-bit number. -/
def toGLint (n : GLuint) : Int :=
  if n % 2 ^ 32 < 2 ^ 31 then ((n % 2 ^ 32 : Nat) : Int) else ((n % 2 ^ 32 : Nat) : Int) - 2 ^ 32

/-- `static_cast<GLuint>` of a `GLint` (also the implicit conversion when a
`GLint` is passed to `glBindFramebuffer`). -/
def toGLuint (i : Int) : GLuint :=
  (i % 2 ^ 32).toNat

/-- The part of the OpenGL state and of the render context that the file
reads and writes: the two framebuffer binding points
(`GL_FRAMEBUFFER_BINDING` is the draw binding), the id returned by
`RenderContext::getPtr()->activeContext()`, and the build-time constant
`cfg::assertions`. -/
structure GLContext where
  drawFramebufferBinding : GLuint
  readFramebufferBinding : GLuint
  activeContext : Nat
  cfgAssertions : Bool
  deriving DecidableEq, Repr

/-- How a binding member function ends: normally, or in the call of
`assertion(...)` made by `checkContext`; both carry the object and the
OpenGL state at that point. -/
inductive Checked (α : Type) where
  | done (val : α) (fbo : FrameBufferObject) (gl : GLContext)
  | assertionFailed (fbo : FrameBufferObject) (gl : GLContext)
  deriving DecidableEq, Repr

/-- `glBindFramebuffer(GL_FRAMEBUFFER, name)`: binds both binding points. -/
def GLContext.bindFramebuffer (gl : GLContext) (name : GLuint) : GLContext :=
  { gl with drawFramebufferBinding := name, readFramebufferBinding := name }

/-- `glBindFramebuffer(GL_READ_FRAMEBUFFER, name)`. -/
def GLContext.bindReadFramebuffer (gl : GLContext) (name : GLuint) : GLContext :=
  { gl with readFramebufferBinding := name }

/-- `glBindFramebuffer(GL_DRAW_FRAMEBUFFER, name)`. -/
def GLContext.bindDrawFramebuffer (gl : GLContext) (name : GLuint) : GLContext :=
  { gl with drawFramebufferBinding := name }

/-- `checkContext(error, org, loc)`: `true` when it reaches `assertion(...)`. -/
def checkContext (org : Nat) (gl : GLContext) : Bool :=
  gl.cfgAssertions && decide (org ≠ gl.activeContext)

namespace FrameBufferObject

/-- `FrameBufferObject::FrameBufferObject(FrameBufferObject&&)`: the new
object and `rhs` after the move; a moved-from `std::vector` is empty. -/
def moveConstruct (rhs : FrameBufferObject) : FrameBufferObject × FrameBufferObject :=
  ({ id_ := rhs.id_
     attachedDepthId_ := rhs.attachedDepthId_
     attachedStencilId_ := rhs.attachedStencilId_
     attachedColorIds_ := rhs.attachedColorIds_
     drawBuffers_ := rhs.drawBuffers_
     maxColorattachments_ := rhs.maxColorattachments_
     prevFbo_ := rhs.prevFbo_
     prevDrawFbo_ := rhs.prevDrawFbo_
     prevReadFbo_ := rhs.prevReadFbo_
     creationContext_ := rhs.creationContext_ },
   { rhs with
     attachedColorIds_ := []
     drawBuffers_ := []
     id_ := 0
     prevFbo_ := 0
     prevDrawFbo_ := 0
     prevReadFbo_ := 0 })

/-- `FrameBufferObject::operator=(FrameBufferObject&&)` for `this != &rhs`
(two distinct objects): `*this` and `rhs` after the assignment; the vector
move assignment leaves the source vector empty. -/
def moveAssign (_this rhs : FrameBufferObject) : FrameBufferObject × FrameBufferObject :=
  ({ _this with
     id_ := rhs.id_
     attachedDepthId_ := rhs.attachedDepthId_
     attachedStencilId_ := rhs.attachedStencilId_
     attachedColorIds_ := rhs.attachedColorIds_
     drawBuffers_ := rhs.drawBuffers_
     maxColorattachments_ := rhs.maxColorattachments_
     prevFbo_ := rhs.prevFbo_
     prevDrawFbo_ := rhs.prevDrawFbo_
     prevReadFbo_ := rhs.prevReadFbo_
     creationContext_ := rhs.creationContext_ },
   { rhs with
     attachedColorIds_ := []
     drawBuffers_ := []
     id_ := 0
     prevFbo_ := 0
     prevDrawFbo_ := 0
     prevReadFbo_ := 0 })

/-- `FrameBufferObject::activate`. -/
def activate (s : FrameBufferObject) (gl : GLContext) : Checked Unit :=
  let currentFbo : Int := toGLint gl.drawFramebufferBinding
  if toGLint s.id_ ≠ currentFbo then
    let s1 := { s with prevFbo_ := currentFbo }
    if checkContext s1.creationContext_ gl then
      .assertionFailed s1 gl
    else
      .done () s1 (gl.bindFramebuffer s1.id_)
  else
    .done () s gl

/-- `FrameBufferObject::isActive`. -/
def isActive (s : FrameBufferObject) (gl : GLContext) : Checked Bool :=
  if checkContext s.creationContext_ gl then
    .assertionFailed s gl
  else
    let currentFbo : Int := toGLint gl.drawFramebufferBinding
    .done (decide (toGLint s.id_ = currentFbo)) s gl

/-- `FrameBufferObject::deactivate`; `&&` evaluates `isActive()` only when
the first operand holds. -/
def deactivate (s : FrameBufferObject) (gl : GLContext) : Checked Unit :=
  if toGLuint s.prevFbo_ ≠ s.id_ then
    match isActive s gl with
    | .assertionFailed s1 gl1 => .assertionFailed s1 gl1
    | .done active s1 gl1 =>
      if active then
        .done () s1 (gl1.bindFramebuffer (toGLuint s1.prevFbo_))
      else
        .done () s1 gl1
  else
    .done () s gl

/-- `FrameBufferObject::deactivateFBO` (static). -/
def deactivateFBO (gl : GLContext) : GLContext :=
  gl.bindFramebuffer 0

/-- `FrameBufferObject::hasDepthAttachment`. -/
def hasDepthAttachment (s : FrameBufferObject) : Bool :=
  decide (s.attachedDepthId_ ≠ 0)

/-- `FrameBufferObject::hasStencilAttachment`. -/
def hasStencilAttachment (s : FrameBufferObject) : Bool :=
  decide (s.attachedStencilId_ ≠ 0)

/-- `FrameBufferObject::getMaxColorAttachments`. -/
def getMaxColorAttachments (s : FrameBufferObject) : Int :=
  s.maxColorattachments_

/-- `FrameBufferObject::setRead_Blit`. -/
def setRead_Blit (s : FrameBufferObject) (gl : GLContext) (set : Bool) : Checked Unit :=
  if set then
    let s1 := { s with prevReadFbo_ := toGLint gl.readFramebufferBinding }
    if checkContext s1.creationContext_ gl then
      .assertionFailed s1 gl
    else
      .done () s1 (gl.bindReadFramebuffer s1.id_)
  else
    let currentReadFbo : Int := toGLint gl.drawFramebufferBinding
    if currentReadFbo = s.prevReadFbo_ then
      .done () s (gl.bindReadFramebuffer (toGLuint s.prevFbo_))
    else
      .done () s gl

/-- `FrameBufferObject::setDraw_Blit`. -/
def setDraw_Blit (s : FrameBufferObject) (gl : GLContext) (set : Bool) : Checked Unit :=
  if set then
    let s1 := { s with prevDrawFbo_ := toGLint gl.drawFramebufferBinding }
    if checkContext s1.creationContext_ gl then
      .assertionFailed s1 gl
    else
      .done () s1 (gl.bindDrawFramebuffer s1.id_)
  else
    let currentDrawFbo : Int := toGLint gl.drawFramebufferBinding
    if currentDrawFbo = s.prevDrawFbo_ then
      .done () s (gl.bindDrawFramebuffer (toGLuint s.prevFbo_))
    else
      .done () s gl

end FrameBufferObject

/-! ## ImageGL: the composite render target (modules/opengl/image/imagegl.cpp)

The classes `Texture2D`, `LayerGL`, `Layer` and `Image` are not part of the
sources at hand; they are modelled by the members that `imagegl.cpp` reads
and writes.  A null pointer is `none`; dereferencing it is undefined
behaviour.  Calls that only touch texture units, shaders, the viewport or
the log (`bind`, `defineDrawBuffers`, `checkStatus`, `LGL_ERROR`) have no
effect on the modelled state and are left out. -/

/-- Modelled from the spec: `Texture2D`, the "bindable native texture handle,
width/height" of the GPU-layer contract (`getID`, `getWidth`, `getHeight`). -/
structure Texture2D where
  id : GLuint
  width : Nat
  height : Nat
  deriving DecidableEq, Repr

/-- Modelled from the spec: `LayerGL`, a layer representation with its
texture (`getTexture`, possibly null), `getDataFormat` and `getDimension`. -/
structure LayerGL where
  texture : Option Texture2D
  dataFormat : Nat
  dimension : Nat × Nat
  deriving DecidableEq, Repr

/-- Modelled from the spec: a `Layer` of the owning image, with the handles
returned by `getEditableRepresentation<LayerGL>()` and
`getRepresentation<LayerGL>()` and the metadata written by `setDataFormat`
and `setDimension`. -/
structure Layer where
  editableRepresentation : LayerGL
  representation : LayerGL
  dataFormat : Nat
  dimension : Nat × Nat
  deriving DecidableEq, Repr

/-- Modelled from the spec: the owning `Image` (`getNumberOfColorLayers`,
`getColorLayer(i)`, `getDepthLayer`, `getPickingLayer`). -/
structure Image where
  colorLayers : List Layer
  depthLayer : Option Layer
  pickingLayer : Option Layer
  deriving DecidableEq, Repr

/-- The data members of `ImageGL` used by the claims; `owner_`, `isValid()`
and `getDimension()` come from the base class `ImageRepresentation`, and
`frameBufferObject_` is the object created by `initialize()`. -/
structure ImageGL where
  owner_ : Image
  isValid : Bool
  dimensions_ : Nat × Nat
  colorLayersGL_ : List LayerGL
  depthLayerGL_ : Option LayerGL
  pickingLayerGL_ : Option LayerGL
  pickingAttachmentID_ : GLenum
  frameBufferObject_ : FrameBufferObject
  deriving DecidableEq, Repr

/-- What `imagegl.cpp` can throw: an `OpenGLException` coming out of the
framebuffer object, or `std::out_of_range` from `colorLayersGL_.at(idx)`. -/
inductive ImageException where
  | openGL (e : OpenGLException)
  | outOfRange
  deriving DecidableEq, Repr

/-- The calls recorded while an `ImageGL` member function runs:
`reAttachAllLayers(clearLayers)`, `glBlitFramebuffer` (source size, target
size, mask), `glReadBuffer`, `glDrawBuffer`, and
`target->loadFromPBO(source)` with the two texture ids. -/
inductive ImageCall where
  | reAttachAllLayers (clearLayers : Bool)
  | blitFramebuffer (srcWidth srcHeight dstWidth dstHeight : Nat) (mask : Nat)
  | readBuffer (buffer : GLenum)
  | drawBuffer (buffer : GLenum)
  | loadFromPBO (target source : GLuint)
  deriving DecidableEq, Repr

/-- How a public attach or detach function of the framebuffer object ends:
like `Outcome`, or in the `IVW_ASSERT(isActive(), ...)` at its head. -/
inductive FboResult (α : Type) where
  | ok (val : α) (fbo : FrameBufferObject)
  | thrown (e : OpenGLException) (fbo : FrameBufferObject)
  | assertionFailed (fbo : FrameBufferObject)
  | undefinedBehavior
  deriving DecidableEq, Repr

/-- How an `ImageGL` member function ends; every defined ending carries the
object, the OpenGL state and the calls recorded so far. -/
inductive ImageOutcome (α : Type) where
  | ok (val : α) (img : ImageGL) (gl : GLContext) (calls : List ImageCall)
  | thrown (e : ImageException) (img : ImageGL) (gl : GLContext) (calls : List ImageCall)
  | assertionFailed (img : ImageGL) (gl : GLContext) (calls : List ImageCall)
  | undefinedBehavior
  deriving DecidableEq, Repr

/-- The calls recorded in an outcome (none is known after undefined
behaviour). -/
def ImageOutcome.calls {α : Type} : ImageOutcome α → List ImageCall
  | .ok _ _ _ calls => calls
  | .thrown _ _ _ calls => calls
  | .assertionFailed _ _ calls => calls
  | .undefinedBehavior => []

/-- The object carried by an outcome. -/
def ImageOutcome.image {α : Type} : ImageOutcome α → Option ImageGL
  | .ok _ img _ _ => some img
  | .thrown _ img _ _ => some img
  | .assertionFailed img _ _ => some img
  | .undefinedBehavior => none

/-- Puts a call in front of the calls recorded by what follows it. -/
def ImageOutcome.after {α : Type} (c : ImageCall) : ImageOutcome α → ImageOutcome α
  | .ok v img gl calls => .ok v img gl (c :: calls)
  | .thrown e img gl calls => .thrown e img gl (c :: calls)
  | .assertionFailed img gl calls => .assertionFailed img gl (c :: calls)
  | .undefinedBehavior => .undefinedBehavior

namespace FrameBufferObject

/-- `IVW_ASSERT(isActive(), ...)`: `true` when the assertion stops the call.
The condition is evaluated only in builds with assertions (`cfg::assertions`
is set by the same switch as `IVW_ASSERT`). -/
def ivwAssertActive (s : FrameBufferObject) (gl : GLContext) : Bool :=
  gl.cfgAssertions &&
    match isActive s gl with
    | .assertionFailed _ _ => true
    | .done active _ _ => !active

/-- A public attach or detach function: `IVW_ASSERT(isActive(), ...)`, then
the bookkeeping `body`; the native call that follows does not change the
modelled state. -/
def withActive {α : Type} (s : FrameBufferObject) (gl : GLContext) (body : Outcome α) :
    FboResult α :=
  if ivwAssertActive s gl then
    .assertionFailed s
  else
    match body with
    | .ok v s1 => .ok v s1
    | .thrown e s1 => .thrown e s1
    | .undefinedBehavior => .undefinedBehavior

/-- `FrameBufferObject::attachColorTexture(Texture2D*)`. -/
def attachColorTexture (s : FrameBufferObject) (gl : GLContext) (texture : Texture2D) :
    FboResult GLenum :=
  withActive s gl (performAttachColorTexture s texture.id)

/-- `FrameBufferObject::attachColorTexture(Texture2D*, int, bool, int)`. -/
def attachColorTextureExplicit (s : FrameBufferObject) (gl : GLContext) (texture : Texture2D)
    (attachmentNumber : Int) (attachFromRear : Bool) (forcedLocation : Int) : FboResult GLenum :=
  withActive s gl
    (performAttachColorTextureExplicit s texture.id attachmentNumber attachFromRear forcedLocation)

/-- `FrameBufferObject::attachTexture(Texture2D*, GLenum)`. -/
def attachTexture (s : FrameBufferObject) (gl : GLContext) (texture : Texture2D)
    (attachmentID : GLenum) : FboResult Unit :=
  withActive s gl (performAttachTexture s attachmentID texture.id)

end FrameBufferObject

/-- OpenGL registry value of `GL_NONE`. -/
def GL_NONE : GLenum := 0
/-- OpenGL registry value of `GL_COLOR_BUFFER_BIT`. -/
def GL_COLOR_BUFFER_BIT : Nat := 0x4000
/-- OpenGL registry value of `GL_DEPTH_BUFFER_BIT`. -/
def GL_DEPTH_BUFFER_BIT : Nat := 0x100
/-- OpenGL registry value of `GL_STENCIL_BUFFER_BIT`. -/
def GL_STENCIL_BUFFER_BIT : Nat := 0x400

/-- The id of the texture of a layer representation, 0 when it has none. -/
def LayerGL.textureId (layer : LayerGL) : GLuint :=
  match layer.texture with
  | some texture => texture.id
  | none => 0

namespace ImageOutcome

/-- Sequencing of two steps of a member function: the second step runs on
the object and OpenGL state left by the first, every other ending of the
first step ends the function; recorded calls are concatenated. -/
def bind {α β : Type} (o : ImageOutcome α)
    (f : α → ImageGL → GLContext → ImageOutcome β) : ImageOutcome β :=
  match o with
  | .ok v img gl calls =>
    match f v img gl with
    | .ok w img1 gl1 calls1 => .ok w img1 gl1 (calls ++ calls1)
    | .thrown e img1 gl1 calls1 => .thrown e img1 gl1 (calls ++ calls1)
    | .assertionFailed img1 gl1 calls1 => .assertionFailed img1 gl1 (calls ++ calls1)
    | .undefinedBehavior => .undefinedBehavior
  | .thrown e img gl calls => .thrown e img gl calls
  | .assertionFailed img gl calls => .assertionFailed img gl calls
  | .undefinedBehavior => .undefinedBehavior

end ImageOutcome

namespace ImageGL

/-- The ending of a call on `frameBufferObject_`, seen from the `ImageGL`
that owns it. -/
def liftFbo {α : Type} (img : ImageGL) (gl : GLContext) : FboResult α → ImageOutcome α
  | .ok v fbo => .ok v { img with frameBufferObject_ := fbo } gl []
  | .thrown e fbo => .thrown (.openGL e) { img with frameBufferObject_ := fbo } gl []
  | .assertionFailed fbo => .assertionFailed { img with frameBufferObject_ := fbo } gl []
  | .undefinedBehavior => .undefinedBehavior

/-- The ending of a binding call on `frameBufferObject_`, seen from the
`ImageGL` that owns it. -/
def liftChecked {α : Type} (img : ImageGL) : Checked α → ImageOutcome α
  | .done v fbo gl => .ok v { img with frameBufferObject_ := fbo } gl []
  | .assertionFailed fbo gl => .assertionFailed { img with frameBufferObject_ := fbo } gl []

/-- The loop of `reAttachAllLayers` over `colorLayersGL_` (lines 96-103). -/
def attachColorLayers (fbo : FrameBufferObject) (gl : GLContext) :
    List LayerGL → FboResult Unit
  | [] => .ok () fbo
  | layer :: layers =>
    match layer.texture with
    | none => .undefinedBehavior
    | some texture =>
      match fbo.attachColorTexture gl texture with
      | .ok _ fbo1 => attachColorLayers fbo1 gl layers
      | .thrown e fbo1 => .thrown e fbo1
      | .assertionFailed fbo1 => .assertionFailed fbo1
      | .undefinedBehavior => .undefinedBehavior

/-- The depth part of `reAttachAllLayers` (lines 106-115). -/
def attachDepthLayer (img : ImageGL) (gl : GLContext) : ImageOutcome Unit :=
  match img.depthLayerGL_ with
  | none => .ok () img gl []
  | some layer =>
    match layer.texture with
    | none => .undefinedBehavior
    | some texture =>
      liftFbo img gl (img.frameBufferObject_.attachTexture gl texture GL_DEPTH_ATTACHMENT)

/-- The picking part of `reAttachAllLayers` (lines 118-125);
`forcedLocation` is the default argument of
`attachColorTexture(Texture2D*, int, bool, int)`, which is declared in a
header that is not among the sources. -/
def attachPickingLayer (img : ImageGL) (gl : GLContext) (forcedLocation : Int) :
    ImageOutcome Unit :=
  match img.pickingLayerGL_ with
  | none => .ok () img gl []
  | some layer =>
    match layer.texture with
    | none => .undefinedBehavior
    | some texture =>
      match img.frameBufferObject_.attachColorTextureExplicit gl texture 0 true forcedLocation with
      | .ok attachmentID fbo =>
        .ok () { img with frameBufferObject_ := fbo, pickingAttachmentID_ := attachmentID } gl []
      | .thrown e fbo => .thrown (.openGL e) { img with frameBufferObject_ := fbo } gl []
      | .assertionFailed fbo => .assertionFailed { img with frameBufferObject_ := fbo } gl []
      | .undefinedBehavior => .undefinedBehavior

/-- The attachment part of `reAttachAllLayers` (lines 91-125): detach
everything, forget the picking slot, attach the color layers, the depth layer
and the picking layer. -/
def attachAllLayers (img : ImageGL) (gl : GLContext) (forcedLocation : Int) :
    ImageOutcome Unit :=
  (liftFbo img gl
    (img.frameBufferObject_.withActive gl img.frameBufferObject_.detachAllTextures)).bind
      fun _ img gl =>
  (liftFbo { img with pickingAttachmentID_ := 0 } gl
    (attachColorLayers img.frameBufferObject_ gl img.colorLayersGL_)).bind fun _ img gl =>
  (attachDepthLayer img gl).bind fun _ img gl =>
  attachPickingLayer img gl forcedLocation

/-- `ImageGL::reAttachAllLayers(bool clearLayers)`: `activate()`, the
attachment part, `deactivate()`; `clearLayers` is only used in code that is
commented out. -/
def reAttachAllLayers (img : ImageGL) (gl : GLContext) (_clearLayers : Bool)
    (forcedLocation : Int) : ImageOutcome Unit :=
  (liftChecked img (img.frameBufferObject_.activate gl)).bind fun _ img gl =>
  (attachAllLayers img gl forcedLocation).bind fun _ img gl =>
  liftChecked img (img.frameBufferObject_.deactivate gl)

/-- The first part of `ImageGL::update(bool editable)` (lines 336-379): the
layer references are rebuilt from the owner and the owner's metadata is
refreshed.  The two branches of the source differ only in the getter used
(`getEditableRepresentation` or `getRepresentation`), here `rep`.
`getColorLayerGL()` is `colorLayersGL_.at(0)`, which throws
`std::out_of_range` on an empty list: the result is then `Except.error` with
the object at the throw. -/
def updateLayers (img : ImageGL) (editable : Bool) : Except ImageGL ImageGL :=
  let rep : Layer → LayerGL := fun layer =>
    if editable then layer.editableRepresentation else layer.representation
  let img1 : ImageGL :=
    { img with
      colorLayersGL_ := img.owner_.colorLayers.map rep
      depthLayerGL_ := img.owner_.depthLayer.map rep
      pickingLayerGL_ := none
      owner_ :=
        { img.owner_ with
          colorLayers := img.owner_.colorLayers.map fun layer =>
            { layer with dataFormat := (rep layer).dataFormat, dimension := (rep layer).dimension } } }
  match img1.owner_.pickingLayer with
  | none => .ok img1
  | some pickingLayer =>
    match img1.colorLayersGL_ with
    | [] => .error img1
    | colorLayer :: _ =>
      .ok
        { img1 with
          pickingLayerGL_ := some (rep pickingLayer)
          owner_ :=
            { img1.owner_ with
              pickingLayer := some
                { pickingLayer with
                  dataFormat := colorLayer.dataFormat, dimension := colorLayer.dimension } } }

/-- `ImageGL::update(bool editable)`: `reAttachTargets` is computed on entry
(line 335), the layers are rebuilt, and `reAttachAllLayers(true)` is called
if `reAttachTargets` holds (lines 382-383). -/
def update (img : ImageGL) (gl : GLContext) (editable : Bool) (forcedLocation : Int) :
    ImageOutcome Unit :=
  let reAttachTargets : Bool := !img.isValid || img.colorLayersGL_.isEmpty
  match updateLayers img editable with
  | .error img1 => .thrown .outOfRange img1 gl []
  | .ok img1 =>
    if reAttachTargets then
      (reAttachAllLayers img1 gl true forcedLocation).after (.reAttachAllLayers true)
    else
      .ok () img1 gl []

/-- The scale of `copyAndResizeRepresentation` (lines 153-160) from the
dimensions of source and target, with the `float` quotients taken as exact
rationals: the three arguments of `glm::vec3`. -/
def copyAndResizeScale (sourceDimension targetDimension : Nat × Nat) : ℚ × ℚ × ℚ :=
  let ratioSource : ℚ := (sourceDimension.1 : ℚ) / (sourceDimension.2 : ℚ)
  let ratioTarget : ℚ := (targetDimension.1 : ℚ) / (targetDimension.2 : ℚ)
  if ratioTarget < ratioSource then
    (1, ratioTarget / ratioSource, 1)
  else
    (ratioSource / ratioTarget, 1, 1)

/-- The blit mask of `updateFrom` (lines 196-202). -/
def blitMask (srcFBO tgtFBO : FrameBufferObject) : Nat :=
  let mask := GL_COLOR_BUFFER_BIT
  let mask :=
    if srcFBO.hasDepthAttachment && tgtFBO.hasDepthAttachment then
      mask ||| GL_DEPTH_BUFFER_BIT
    else mask
  let mask :=
    if srcFBO.hasStencilAttachment && tgtFBO.hasStencilAttachment then
      mask ||| GL_STENCIL_BUFFER_BIT
    else mask
  mask

/-- The loop of `updateFrom` over the remaining color attachments (lines
209-220), run over the indices `i`; the result is the recorded calls and
`pickingCopied`, or `none` when an array is read out of bounds. -/
def blitExtraColorAttachments (srcIDs targetIDs : List GLenum) (pickingAttachmentID : GLenum)
    (sTex tTex : Texture2D) : List Nat → Bool → Option (List ImageCall × Bool)
  | [], pickingCopied => some ([], pickingCopied)
  | i :: rest, pickingCopied =>
    match srcIDs[i]? with
    | none => none
    | some srcID =>
      if srcID ≠ GL_NONE then
        match targetIDs[i]? with
        | none => none
        | some targetID =>
          if srcID = targetID then
            match blitExtraColorAttachments srcIDs targetIDs pickingAttachmentID sTex tTex rest
                (if srcID = pickingAttachmentID then true else pickingCopied) with
            | none => none
            | some (calls, copied) =>
              some (ImageCall.readBuffer srcID :: ImageCall.drawBuffer targetID ::
                ImageCall.blitFramebuffer sTex.width sTex.height tTex.width tTex.height
                  GL_COLOR_BUFFER_BIT :: calls, copied)
          else
            blitExtraColorAttachments srcIDs targetIDs pickingAttachmentID sTex tTex rest
              pickingCopied
      else
        blitExtraColorAttachments srcIDs targetIDs pickingAttachmentID sTex tTex rest
          pickingCopied

/-- One of the two pixel-buffer copies at the end of `updateFrom` (lines
232-238 and 243-249): under `condition` the textures of both layers are
fetched and, if both are non-null, `tTex->loadFromPBO(sTex)` is called.
`none` when a layer pointer is null. -/
def fallbackCopy (condition : Bool) (sourceLayer targetLayer : Option LayerGL) :
    Option (List ImageCall) :=
  if condition then
    match sourceLayer, targetLayer with
    | some sLayer, some tLayer =>
      match sLayer.texture, tLayer.texture with
      | some sTex, some tTex => some [ImageCall.loadFromPBO tTex.id sTex.id]
      | _, _ => some []
    | _, _ => none
  else
    some []

/-- `ImageGL::updateFrom(const ImageGL* source)` for two distinct objects;
the value is the returned `bool` and the source object after the call (its
framebuffer object saves the read binding).  `srcIDs` and `targetIDs` are
the arrays that `getDrawBuffers()` of the two framebuffer objects point to;
that accessor is not in `framebufferobject.cpp`.  The calls without argument
`setRead_Blit()` and `setDraw_Blit()` pass the default `true`, and the static
`FrameBufferObject::deactivate()` is `deactivateFBO`. -/
def updateFrom (target source : ImageGL) (gl : GLContext) (srcIDs targetIDs : List GLenum) :
    ImageOutcome (Bool × ImageGL) :=
  match source.colorLayersGL_, target.colorLayersGL_ with
  | [], _ => .thrown .outOfRange target gl []
  | _ :: _, [] => .thrown .outOfRange target gl []
  | sLayer :: _, tLayer :: _ =>
    match source.frameBufferObject_.setRead_Blit gl true with
    | .assertionFailed _ gl1 => .assertionFailed target gl1 []
    | .done _ srcFBO1 gl1 =>
      match target.frameBufferObject_.setDraw_Blit gl1 true with
      | .assertionFailed tgtFBO1 gl2 =>
        .assertionFailed { target with frameBufferObject_ := tgtFBO1 } gl2 []
      | .done _ tgtFBO1 gl2 =>
        let mask := blitMask srcFBO1 tgtFBO1
        match sLayer.texture, tLayer.texture with
        | some sTex, some tTex =>
          match blitExtraColorAttachments srcIDs targetIDs target.pickingAttachmentID_ sTex tTex
              (List.range' 1 (srcFBO1.getMaxColorAttachments - 1).toNat) false with
          | none => .undefinedBehavior
          | some (loopCalls, pickingCopied) =>
            match srcFBO1.setRead_Blit gl2 false with
            | .assertionFailed _ gl3 =>
              .assertionFailed { target with frameBufferObject_ := tgtFBO1 } gl3 []
            | .done _ srcFBO2 gl3 =>
              match tgtFBO1.setDraw_Blit gl3 false with
              | .assertionFailed tgtFBO2 gl4 =>
                .assertionFailed { target with frameBufferObject_ := tgtFBO2 } gl4 []
              | .done _ tgtFBO2 gl4 =>
                let gl5 := FrameBufferObject.deactivateFBO gl4
                match fallbackCopy (decide (mask &&& GL_DEPTH_BUFFER_BIT = 0))
                    source.depthLayerGL_ target.depthLayerGL_ with
                | none => .undefinedBehavior
                | some depthCalls =>
                  match fallbackCopy
                      (!pickingCopied && decide (target.pickingAttachmentID_ ≠ 0))
                      source.pickingLayerGL_ target.pickingLayerGL_ with
                  | none => .undefinedBehavior
                  | some pickingCalls =>
                    .ok (true, { source with frameBufferObject_ := srcFBO2 })
                      { target with frameBufferObject_ := tgtFBO2 } gl5
                      (ImageCall.blitFramebuffer sTex.width sTex.height tTex.width tTex.height
                          mask :: loopCalls ++
                        [ImageCall.readBuffer GL_COLOR_ATTACHMENT0,
                         ImageCall.drawBuffer GL_COLOR_ATTACHMENT0] ++
                        depthCalls ++ pickingCalls)
        | _, _ => .undefinedBehavior

end ImageGL

/-- The conditions under which `reAttachAllLayers` runs through: the
framebuffer object has the constructor's sizes and is used on its creation
context (or assertions are compiled out), every color layer and the picking
layer have a texture with a non-zero id, the depth layer has a texture, and
the color layers together with the picking layer fit into the color slots. -/
def ImageGL.Attachable (img : ImageGL) (gl : GLContext) : Prop :=
  FrameBufferObject.WellFormed img.frameBufferObject_ ∧
  checkContext img.frameBufferObject_.creationContext_ gl = false ∧
  (∀ layer ∈ img.colorLayersGL_, layer.textureId ≠ 0) ∧
  (∀ d ∈ img.depthLayerGL_, d.texture ≠ none) ∧
  (∀ p ∈ img.pickingLayerGL_, p.textureId ≠ 0) ∧
  (img.colorLayersGL_.length : Int) + (if img.pickingLayerGL_.isSome then 1 else 0) ≤
    img.frameBufferObject_.maxColorattachments_

instance (img : ImageGL) (gl : GLContext) : Decidable (ImageGL.Attachable img gl) := by
  unfold ImageGL.Attachable; infer_instance

/-- An owner with two color layers, a depth layer and a picking layer; the
editable representation of layer `k` has texture `k`, the read-only one has
texture `k + 100`. -/
def exampleOwner : Image :=
  { colorLayers :=
      [{ editableRepresentation := ⟨some ⟨11, 64, 32⟩, 1, (64, 32)⟩
         representation := ⟨some ⟨111, 64, 32⟩, 1, (64, 32)⟩
         dataFormat := 0, dimension := (0, 0) },
       { editableRepresentation := ⟨some ⟨12, 64, 32⟩, 1, (64, 32)⟩
         representation := ⟨some ⟨112, 64, 32⟩, 1, (64, 32)⟩
         dataFormat := 0, dimension := (0, 0) }]
    depthLayer := some
      { editableRepresentation := ⟨some ⟨20, 64, 32⟩, 2, (64, 32)⟩
        representation := ⟨some ⟨120, 64, 32⟩, 2, (64, 32)⟩
        dataFormat := 0, dimension := (0, 0) }
    pickingLayer := some
      { editableRepresentation := ⟨some ⟨30, 64, 32⟩, 1, (64, 32)⟩
        representation := ⟨some ⟨130, 64, 32⟩, 1, (64, 32)⟩
        dataFormat := 0, dimension := (0, 0) } }

/-- A valid `ImageGL` of `exampleOwner` before its first `update`: no layer
references yet, and a fresh framebuffer object 3 with 8 color slots created
on context 7. -/
def exampleImage : ImageGL :=
  { owner_ := exampleOwner
    isValid := true
    dimensions_ := (64, 32)
    colorLayersGL_ := []
    depthLayerGL_ := none
    pickingLayerGL_ := none
    pickingAttachmentID_ := 0
    frameBufferObject_ := FrameBufferObject.create 3 8 7 }

/-- The default framebuffer bound on context 7, in a build with assertions. -/
def exampleContext : GLContext :=
  { drawFramebufferBinding := 0, readFramebufferBinding := 0, activeContext := 7,
    cfgAssertions := true }

/-- The example image with the layer references of its owner (editable
representations), as `update(true)` sets them before re-attaching. -/
def exampleImageWithLayers : ImageGL :=
  match ImageGL.updateLayers exampleImage true with
  | .ok img => img
  | .error img => img

/-- The example image after its first `update(true)`. -/
def exampleImageAfterUpdate : ImageGL :=
  ((ImageGL.update exampleImage exampleContext true (-1)).image).getD exampleImage


/-- Whether a recorded call is `Texture2D::loadFromPBO`. -/
def ImageCall.isLoadFromPBO : ImageCall → Bool
  | .loadFromPBO _ _ => true
  | _ => false

/-- A source for `updateFrom`: the example image after its update (textures
11, 12, depth 20, picking 30 in the last slot), whose depth texture is a
depth-stencil texture, so that it is recorded for stencil too. -/
def exampleBlitSource : ImageGL :=
  { exampleImageAfterUpdate with
    frameBufferObject_ :=
      { exampleImageAfterUpdate.frameBufferObject_ with attachedStencilId_ := 20 } }

/-- A target for `updateFrom`: a second image of the same owner on framebuffer
object 4, after `update(false)` (textures 111, 112, depth 120, picking 130 in
the last slot); it has a depth attachment and no stencil attachment. -/
def exampleBlitTarget : ImageGL :=
  ((ImageGL.update { exampleImage with frameBufferObject_ := FrameBufferObject.create 4 8 7 }
    exampleContext false (-1)).image).getD exampleImage

/-- A draw-buffer array of 8 entries with color attachments 0, 1 and 7. -/
def exampleDrawBuffers : List GLenum :=
  [GL_COLOR_ATTACHMENT0, GL_COLOR_ATTACHMENT0 + 1, 0, 0, 0, 0, 0, GL_COLOR_ATTACHMENT0 + 7]

/-- A valid `ImageGL` before its first `update` whose owner has a picking
layer and no color layer. -/
def examplePickingOnlyImage : ImageGL :=
  { exampleImage with
    owner_ := { colorLayers := [], depthLayer := none, pickingLayer := exampleOwner.pickingLayer } }
end inviwo

namespace inviwo

open FrameBufferObject

/-! ## Auxiliary facts about the list operations -/

theorem findIdx_unused_spec (l : List GLuint) (h : 0 ∈ l) :
    l.findIdx (fun used => used == 0) < l.length ∧
    l[l.findIdx (fun used => used == 0)]? = some 0 ∧
    ∀ j, j < l.findIdx (fun used => used == 0) → l[j]? ≠ some 0 := by
  have hlt : l.findIdx (fun used => used == 0) < l.length :=
    List.findIdx_lt_length_of_exists ⟨0, h, by simp⟩
  refine ⟨hlt, ?_, ?_⟩
  · have hp := @List.findIdx_getElem _ (fun used => used == 0) l hlt
    rw [List.getElem?_eq_getElem hlt]
    simpa using hp
  · intro j hj hsome
    have hjl : j < l.length := Nat.lt_trans hj hlt
    have hn := @List.not_of_lt_findIdx _ (fun used => used == 0) l j hj
    rw [List.getElem?_eq_getElem hjl] at hsome
    simp at hn hsome
    exact hn hsome

theorem colorAttachmentEnums_lookup (k : Nat) (hk : k < 16) :
    colorAttachmentEnums_[k]? = some (GL_COLOR_ATTACHMENT0 + k) := by
  have h : ∀ k, k < 16 → colorAttachmentEnums_[k]? = some (GL_COLOR_ATTACHMENT0 + k) := by
    decide
  exact h k hk

/-- C1: in a state with an empty color slot, `performAttachColorTexture(texId)`
returns the attachment id of the lowest-index empty slot `k`, stores `texId`
in slot `k`, appends that id to the draw-buffer order, and changes nothing
else: the other color slots, the existing draw buffers, the depth and
stencil slots and all remaining members are as before. -/
theorem performAttachColorTexture_first_unused (s : FrameBufferObject) (t : GLuint)
    (h : 0 ∈ s.attachedColorIds_) :
    ∃ k s1, k < s.attachedColorIds_.length ∧ s.attachedColorIds_[k]? = some 0 ∧
      (∀ j, j < k → s.attachedColorIds_[j]? ≠ some 0) ∧
      performAttachColorTexture s t = .ok ((GL_COLOR_ATTACHMENT0 + k) % 2 ^ 32) s1 ∧
      (k < 16 → colorAttachmentEnums_[k]? = some ((GL_COLOR_ATTACHMENT0 + k) % 2 ^ 32)) ∧
      s1.attachedColorIds_[k]? = some t ∧
      (∀ j, j ≠ k → s1.attachedColorIds_[j]? = s.attachedColorIds_[j]?) ∧
      s1.drawBuffers_ = s.drawBuffers_ ++ [(GL_COLOR_ATTACHMENT0 + k) % 2 ^ 32] ∧
      s1.attachedDepthId_ = s.attachedDepthId_ ∧
      s1.attachedStencilId_ = s.attachedStencilId_ ∧
      s1 = { s with
        drawBuffers_ := s.drawBuffers_ ++ [(GL_COLOR_ATTACHMENT0 + k) % 2 ^ 32]
        attachedColorIds_ := s.attachedColorIds_.set k t } := by
  obtain ⟨hlt, hzero, hmin⟩ := findIdx_unused_spec s.attachedColorIds_ h
  refine ⟨s.attachedColorIds_.findIdx (fun used => used == 0),
    { s with
      drawBuffers_ := s.drawBuffers_ ++
        [(GL_COLOR_ATTACHMENT0 + s.attachedColorIds_.findIdx (fun used => used == 0)) % 2 ^ 32]
      attachedColorIds_ :=
        s.attachedColorIds_.set (s.attachedColorIds_.findIdx (fun used => used == 0)) t },
    hlt, hzero, hmin, ?_, ?_, ?_, ?_, rfl, rfl, rfl, rfl⟩
  · unfold performAttachColorTexture
    simp only [Nat.ne_of_lt hlt, if_false]
    rfl
  · intro hk
    rw [colorAttachmentEnums_lookup _ hk]
    have hmod : (GL_COLOR_ATTACHMENT0 + s.attachedColorIds_.findIdx (fun used => used == 0))
        % 2 ^ 32 = GL_COLOR_ATTACHMENT0 + s.attachedColorIds_.findIdx (fun used => used == 0) := by
      apply Nat.mod_eq_of_lt
      simp only [GL_COLOR_ATTACHMENT0]
      norm_num
      omega
    rw [hmod]
  · simp [List.getElem?_set, hlt]
  · intro j hj
    simp [List.getElem?_set, Ne.symm hj]

/-- Witness for C1: a fresh 8-slot object attaching texture 5. -/
theorem performAttachColorTexture_first_unused_witness :
    ∃ k s1, k < (create 1 8 7).attachedColorIds_.length ∧
      (create 1 8 7).attachedColorIds_[k]? = some 0 ∧
      (∀ j, j < k → (create 1 8 7).attachedColorIds_[j]? ≠ some 0) ∧
      performAttachColorTexture (create 1 8 7) 5 = .ok ((GL_COLOR_ATTACHMENT0 + k) % 2 ^ 32) s1 ∧
      (k < 16 → colorAttachmentEnums_[k]? = some ((GL_COLOR_ATTACHMENT0 + k) % 2 ^ 32)) ∧
      s1.attachedColorIds_[k]? = some 5 ∧
      (∀ j, j ≠ k → s1.attachedColorIds_[j]? = (create 1 8 7).attachedColorIds_[j]?) ∧
      s1.drawBuffers_ = (create 1 8 7).drawBuffers_ ++ [(GL_COLOR_ATTACHMENT0 + k) % 2 ^ 32] ∧
      s1.attachedDepthId_ = (create 1 8 7).attachedDepthId_ ∧
      s1.attachedStencilId_ = (create 1 8 7).attachedStencilId_ ∧
      s1 = { create 1 8 7 with
        drawBuffers_ := (create 1 8 7).drawBuffers_ ++ [(GL_COLOR_ATTACHMENT0 + k) % 2 ^ 32]
        attachedColorIds_ := (create 1 8 7).attachedColorIds_.set k 5 } :=
  performAttachColorTexture_first_unused (create 1 8 7) 5 (by decide)

theorem findIdx_unused_append (pre rest : List GLuint) (hpre : ∀ x ∈ pre, x ≠ 0) :
    (pre ++ 0 :: rest).findIdx (fun used => used == 0) = pre.length := by
  induction pre with
  | nil => simp [List.findIdx_cons]
  | cons x xs ih =>
    have hx : x ≠ 0 := hpre x (List.mem_cons_self _ _)
    have hxs : ∀ y ∈ xs, y ≠ 0 := fun y hy => hpre y (List.mem_cons_of_mem _ hy)
    have hb : (x == 0) = false := by simpa using hx
    simp [List.findIdx_cons, hb, ih hxs]

theorem performAttachColorTexture_append (s : FrameBufferObject) (t : GLuint)
    (pre rest : List GLuint) (hs : s.attachedColorIds_ = pre ++ 0 :: rest)
    (hpre : ∀ x ∈ pre, x ≠ 0) :
    performAttachColorTexture s t =
      .ok ((GL_COLOR_ATTACHMENT0 + pre.length) % 2 ^ 32)
        { s with
          drawBuffers_ := s.drawBuffers_ ++ [(GL_COLOR_ATTACHMENT0 + pre.length) % 2 ^ 32]
          attachedColorIds_ := pre ++ t :: rest } := by
  unfold performAttachColorTexture
  have hk := findIdx_unused_append pre rest hpre
  simp only [hs, hk]
  have hne : pre.length ≠ (pre ++ 0 :: rest).length := by simp
  simp only [hne, if_false]
  have hset : (pre ++ 0 :: rest).set pre.length t = pre ++ t :: rest := by
    simp [List.set_append]
  rw [hset]
  rfl

theorem performAttachColorTexture_full (s : FrameBufferObject) (t : GLuint)
    (h : ∀ x ∈ s.attachedColorIds_, x ≠ 0) :
    performAttachColorTexture s t = .thrown .maxColorAttachmentsReached s := by
  unfold performAttachColorTexture
  have hk : s.attachedColorIds_.findIdx (fun used => used == 0) = s.attachedColorIds_.length := by
    rw [List.findIdx_eq_length]
    intro x hx
    simpa using h x hx
  simp [hk]

theorem attachColorTextures_append (ts : List GLuint) :
    ∀ (s : FrameBufferObject) (pre : List GLuint) (m : Nat),
      s.attachedColorIds_ = pre ++ List.replicate m 0 → (∀ x ∈ pre, x ≠ 0) →
      (∀ t ∈ ts, t ≠ 0) → ts.length ≤ m →
      attachColorTextures s ts =
        .ok ((List.range' pre.length ts.length).map
              (fun k => (GL_COLOR_ATTACHMENT0 + k) % 2 ^ 32))
          { s with
            drawBuffers_ := s.drawBuffers_ ++ (List.range' pre.length ts.length).map
              (fun k => (GL_COLOR_ATTACHMENT0 + k) % 2 ^ 32)
            attachedColorIds_ := pre ++ ts ++ List.replicate (m - ts.length) 0 } := by
  induction ts with
  | nil =>
    intro s pre m hs _ _ _
    simp [attachColorTextures, ← hs]
  | cons t ts ih =>
    intro s pre m hs hpre hts hlen
    obtain ⟨m1, rfl⟩ : ∃ m1, m = m1 + 1 := ⟨m - 1, by simp at hlen; omega⟩
    have hs1 : s.attachedColorIds_ = pre ++ 0 :: List.replicate m1 0 := by
      rw [hs, List.replicate_succ]
    have ht : t ≠ 0 := hts t (List.mem_cons_self _ _)
    have hts1 : ∀ x ∈ ts, x ≠ 0 := fun x hx => hts x (List.mem_cons_of_mem _ hx)
    have hpre1 : ∀ x ∈ pre ++ [t], x ≠ 0 := by
      intro x hx
      rcases List.mem_append.1 hx with h | h
      · exact hpre x h
      · simp at h; rw [h]; exact ht
    have hlen1 : ts.length ≤ m1 := by simp at hlen; omega
    rw [attachColorTextures, performAttachColorTexture_append s t pre _ hs1 hpre]
    simp only
    rw [ih _ (pre ++ [t]) m1 (by simp) hpre1 hts1 hlen1]
    simp [List.range'_succ, List.append_assoc]

/-- The ids computed for the slots `0 .. n-1`, for `n` within the table. -/
theorem colorIds_eq (n : Nat) (hn : n ≤ 32) :
    (List.range' 0 n).map (fun k => (GL_COLOR_ATTACHMENT0 + k) % 2 ^ 32) =
      (List.range n).map (fun k => GL_COLOR_ATTACHMENT0 + k) := by
  rw [List.range_eq_range']
  apply List.map_congr_left
  intro k hk
  have hk1 : k < n := by simpa using (List.mem_range'_1.1 hk).2
  apply Nat.mod_eq_of_lt
  simp only [GL_COLOR_ATTACHMENT0, GLenum] at *
  norm_num
  omega

theorem colorIds_nodup (n : Nat) :
    ((List.range n).map (fun k => GL_COLOR_ATTACHMENT0 + k)).Nodup := by
  apply List.Nodup.map _ (List.nodup_range n)
  intro a b hab
  simpa using hab

theorem colorId_not_depth (i : Nat) (hi : i < 32) :
    ¬ (GL_COLOR_ATTACHMENT0 + i = GL_DEPTH_ATTACHMENT ∨
       GL_COLOR_ATTACHMENT0 + i = GL_STENCIL_ATTACHMENT ∨
       GL_COLOR_ATTACHMENT0 + i = GL_DEPTH_STENCIL_ATTACHMENT) := by
  simp only [GL_COLOR_ATTACHMENT0, GL_DEPTH_ATTACHMENT, GL_STENCIL_ATTACHMENT,
    GL_DEPTH_STENCIL_ATTACHMENT, GLenum]
  omega

theorem findIdx_of_nodup (l : List GLenum) (hl : l.Nodup) (i : Nat) (a : GLenum)
    (hi : l[i]? = some a) : l.findIdx (fun b => b == a) = i := by
  have hlt : i < l.length := by
    rcases Nat.lt_or_ge i l.length with h | h
    · exact h
    · rw [List.getElem?_eq_none h] at hi; cases hi
  have hia : l[i] = a := by
    rw [List.getElem?_eq_getElem hlt] at hi
    exact Option.some.inj hi
  rw [List.findIdx_eq hlt]
  refine ⟨by simp [hia], ?_⟩
  intro j hji
  have hjl : j < l.length := Nat.lt_trans hji hlt
  have hne : l[j] ≠ l[i] := by
    intro heq
    have := (List.Nodup.getElem_inj_iff hl).1 heq
    omega
  rw [hia] at hne
  simpa using hne

/-- The object after attaching `ts` (non-zero ids, no more than the slots) to
a freshly constructed object with at most 32 slots. -/
theorem attachColorTextures_create (handle ctx : Nat) (maxSlots : Int) (ts : List GLuint)
    (hmax : maxSlots ≤ 32) (hlen : (ts.length : Int) ≤ maxSlots) (hts : ∀ t ∈ ts, t ≠ 0) :
    attachColorTextures (create handle maxSlots ctx) ts =
      .ok ((List.range ts.length).map (fun k => GL_COLOR_ATTACHMENT0 + k))
        { create handle maxSlots ctx with
          drawBuffers_ := (List.range ts.length).map (fun k => GL_COLOR_ATTACHMENT0 + k)
          attachedColorIds_ := ts ++ List.replicate (maxSlots.toNat - ts.length) 0 } := by
  have hn : ts.length ≤ 32 := by omega
  have hm : ts.length ≤ maxSlots.toNat := by omega
  have h := attachColorTextures_append ts (create handle maxSlots ctx) [] maxSlots.toNat
    (by simp [create]) (by simp) hts hm
  rw [h]
  simp only [List.length_nil, colorIds_eq _ hn]
  simp [create]

/-- C2: when every color slot is occupied, `performAttachColorTexture` throws
"Maximum number of color attachments reached." and the object at the throw is
the object before the call; and on a fresh object with 8 slots, after 8
attach calls (non-zero texture ids) the draw-buffer list has 8 entries and a
9th call throws, leaving that object as it is. -/
theorem performAttachColorTexture_exhausted :
    (∀ (s : FrameBufferObject) (t : GLuint), (∀ x ∈ s.attachedColorIds_, x ≠ 0) →
      performAttachColorTexture s t = .thrown .maxColorAttachmentsReached s) ∧
    (∀ (handle ctx : Nat) (ts : List GLuint) (t9 : GLuint),
      ts.length = 8 → (∀ t ∈ ts, t ≠ 0) →
      ∃ ids s8, attachColorTextures (create handle 8 ctx) ts = .ok ids s8 ∧
        s8.drawBuffers_.length = 8 ∧
        performAttachColorTexture s8 t9 = .thrown .maxColorAttachmentsReached s8) := by
  refine ⟨performAttachColorTexture_full, ?_⟩
  intro handle ctx ts t9 hlen hts
  have h := attachColorTextures_create handle ctx 8 ts (by decide) (by omega) hts
  refine ⟨_, _, h, by simp [hlen], ?_⟩
  apply performAttachColorTexture_full
  intro x hx
  simp only [hlen] at hx
  simp at hx
  exact hts x hx

/-- Witness for C2: eight occupied slots, and the eight textures 11..18 on a
fresh 8-slot object followed by texture 19. -/
theorem performAttachColorTexture_exhausted_witness :
    performAttachColorTexture
        { create 1 8 7 with attachedColorIds_ := [11, 12, 13, 14, 15, 16, 17, 18] } 19
      = .thrown .maxColorAttachmentsReached
        { create 1 8 7 with attachedColorIds_ := [11, 12, 13, 14, 15, 16, 17, 18] } ∧
    ∃ ids s8, attachColorTextures (create 1 8 7) [11, 12, 13, 14, 15, 16, 17, 18] = .ok ids s8 ∧
      s8.drawBuffers_.length = 8 ∧
      performAttachColorTexture s8 19 = .thrown .maxColorAttachmentsReached s8 :=
  ⟨performAttachColorTexture_exhausted.1 _ 19 (by decide),
   performAttachColorTexture_exhausted.2 1 7 [11, 12, 13, 14, 15, 16, 17, 18] 19 rfl (by decide)⟩

/-- C3: on a freshly constructed object with at most 32 slots (OpenGL names
32 color attachment points), every sequence of `performAttachColorTexture`
calls with non-zero texture ids that is no longer than the number of slots
returns normally; the `i`-th call returns the attachment id of slot `i`, which
holds the `i`-th texture; that id occurs exactly once in the draw-buffer
list, at position `i`, and `getAttachmentLocation` of it is `i`. -/
theorem attachColorTextures_locations (handle ctx : Nat) (maxSlots : Int) (ts : List GLuint)
    (hmax : maxSlots ≤ 32) (hlen : (ts.length : Int) ≤ maxSlots) (hts : ∀ t ∈ ts, t ≠ 0) :
    ∃ ids s1, attachColorTextures (create handle maxSlots ctx) ts = .ok ids s1 ∧
      ids.length = ts.length ∧
      ∀ i, i < ts.length →
        ids[i]? = some (GL_COLOR_ATTACHMENT0 + i) ∧
        (i < 16 → colorAttachmentEnums_[i]? = some (GL_COLOR_ATTACHMENT0 + i)) ∧
        s1.attachedColorIds_[i]? = ts[i]? ∧
        s1.drawBuffers_.count (GL_COLOR_ATTACHMENT0 + i) = 1 ∧
        s1.drawBuffers_[i]? = some (GL_COLOR_ATTACHMENT0 + i) ∧
        getAttachmentLocation s1 (GL_COLOR_ATTACHMENT0 + i) = (i : Int) := by
  have h := attachColorTextures_create handle ctx maxSlots ts hmax hlen hts
  refine ⟨_, _, h, by simp, ?_⟩
  intro i hi
  have hi16 : i < 32 := by omega
  have hget : ((List.range ts.length).map (fun k => GL_COLOR_ATTACHMENT0 + k))[i]? =
      some (GL_COLOR_ATTACHMENT0 + i) := by
    simp [List.getElem?_map, List.getElem?_range hi]
  have hnd := colorIds_nodup ts.length
  refine ⟨hget, colorAttachmentEnums_lookup i, ?_, ?_, hget, ?_⟩
  · simp [List.getElem?_append_left hi]
  · exact List.count_eq_one_of_mem hnd (List.getElem?_mem hget)
  · unfold getAttachmentLocation
    rw [if_neg (colorId_not_depth i hi16)]
    simp only
    rw [findIdx_of_nodup _ hnd i _ hget]
    simp
    omega

/-- Witness for C3: three textures on a fresh 8-slot object. -/
theorem attachColorTextures_locations_witness :
    ∃ ids s1, attachColorTextures (create 1 8 7) [21, 22, 23] = .ok ids s1 ∧
      ids.length = [21, 22, 23].length ∧
      ∀ i, i < [21, 22, 23].length →
        ids[i]? = some (GL_COLOR_ATTACHMENT0 + i) ∧
        (i < 16 → colorAttachmentEnums_[i]? = some (GL_COLOR_ATTACHMENT0 + i)) ∧
        s1.attachedColorIds_[i]? = [21, 22, 23][i]? ∧
        s1.drawBuffers_.count (GL_COLOR_ATTACHMENT0 + i) = 1 ∧
        s1.drawBuffers_[i]? = some (GL_COLOR_ATTACHMENT0 + i) ∧
        getAttachmentLocation s1 (GL_COLOR_ATTACHMENT0 + i) = (i : Int) :=
  attachColorTextures_locations 1 7 8 [21, 22, 23] (by decide) (by decide) (by decide)

/-! ## The explicit-placement variant, case by case -/

theorem explicit_full (s : FrameBufferObject) (t : GLuint) (n : Int) (rear : Bool) (loc : Int)
    (hfull : (s.drawBuffers_.length : Int) = s.maxColorattachments_) :
    performAttachColorTextureExplicit s t n rear loc = .thrown .maxColorAttachmentsReached s := by
  unfold performAttachColorTextureExplicit
  rw [if_pos hfull]

theorem explicit_invalid (s : FrameBufferObject) (t : GLuint) (n : Int) (rear : Bool) (loc : Int)
    (hfull : (s.drawBuffers_.length : Int) ≠ s.maxColorattachments_)
    (hn : n < 0 ∨ n > s.maxColorattachments_ - 1) :
    performAttachColorTextureExplicit s t n rear loc = .thrown (.invalidAttachmentId n) s := by
  unfold performAttachColorTextureExplicit
  rw [if_neg hfull, if_pos hn]

theorem slotIndex_spec (s : FrameBufferObject) (hwf : WellFormed s) (n : Int) (rear : Bool)
    (h0 : 0 ≤ n) (h1 : n ≤ s.maxColorattachments_ - 1) :
    slotIndex s n rear < s.attachedColorIds_.length ∧ slotIndex s n rear < 16 ∧
    arrayAt colorAttachmentEnums_
      (if rear then s.maxColorattachments_ - n - 1 else n)
        = some (GL_COLOR_ATTACHMENT0 + slotIndex s n rear) ∧
    arrayAt s.attachedColorIds_ (if rear then s.maxColorattachments_ - n - 1 else n)
        = s.attachedColorIds_[slotIndex s n rear]? := by
  obtain ⟨hw1, hw2, hw3⟩ := hwf
  cases rear
  · have hk : slotIndex s n false = n.toNat := by simp [slotIndex]
    have hk16 : n.toNat < 16 := by omega
    simp only [Bool.false_eq_true, if_false, hk]
    refine ⟨by omega, hk16, ?_, ?_⟩
    · unfold arrayAt
      rw [if_pos h0]
      exact colorAttachmentEnums_lookup _ hk16
    · unfold arrayAt
      rw [if_pos h0]
  · have hk : slotIndex s n true = (s.maxColorattachments_ - n - 1).toNat := by
      simp [slotIndex]
    have hk0 : 0 ≤ s.maxColorattachments_ - n - 1 := by omega
    have hk16 : (s.maxColorattachments_ - n - 1).toNat < 16 := by omega
    simp only [if_true, hk]
    refine ⟨by omega, hk16, ?_, ?_⟩
    · unfold arrayAt
      rw [if_pos hk0]
      exact colorAttachmentEnums_lookup _ hk16
    · unfold arrayAt
      rw [if_pos hk0]

theorem explicit_new (s : FrameBufferObject) (hwf : WellFormed s) (t : GLuint) (n : Int)
    (rear : Bool) (loc : Int)
    (hfull : (s.drawBuffers_.length : Int) ≠ s.maxColorattachments_)
    (h0 : 0 ≤ n) (h1 : n ≤ s.maxColorattachments_ - 1)
    (hslot : s.attachedColorIds_[slotIndex s n rear]? = some 0) :
    performAttachColorTextureExplicit s t n rear loc =
      .ok (GL_COLOR_ATTACHMENT0 + slotIndex s n rear)
        { s with
          attachedColorIds_ := s.attachedColorIds_.set (slotIndex s n rear) t
          drawBuffers_ :=
            if loc < 0 ∨ loc > (s.drawBuffers_.length : Int) then
              s.drawBuffers_ ++ [GL_COLOR_ATTACHMENT0 + slotIndex s n rear]
            else
              vectorInsert s.drawBuffers_ loc.toNat
                (GL_COLOR_ATTACHMENT0 + slotIndex s n rear) } := by
  obtain ⟨_, _, htab, hids⟩ := slotIndex_spec s hwf n rear h0 h1
  have hn : ¬ (n < 0 ∨ n > s.maxColorattachments_ - 1) := by
    omega
  unfold performAttachColorTextureExplicit
  rw [if_neg hfull, if_neg hn]
  simp only [htab, hids, hslot, if_true]
  split <;> rfl

theorem explicit_occupied (s : FrameBufferObject) (hwf : WellFormed s) (t : GLuint) (n : Int)
    (rear : Bool) (loc : Int)
    (hfull : (s.drawBuffers_.length : Int) ≠ s.maxColorattachments_)
    (h0 : 0 ≤ n) (h1 : n ≤ s.maxColorattachments_ - 1)
    (u : GLuint) (hslot : s.attachedColorIds_[slotIndex s n rear]? = some u) (hu : u ≠ 0) :
    performAttachColorTextureExplicit s t n rear loc =
      if loc > -1 ∧ loc < (s.drawBuffers_.length : Int) then
        if s.drawBuffers_[loc.toNat]? ≠ some (GL_COLOR_ATTACHMENT0 + slotIndex s n rear) then
          if loc.toNat ≤
              (eraseRemove s.drawBuffers_ (GL_COLOR_ATTACHMENT0 + slotIndex s n rear)).length then
            .ok (GL_COLOR_ATTACHMENT0 + slotIndex s n rear)
              { s with
                drawBuffers_ :=
                  vectorInsert
                    (eraseRemove s.drawBuffers_ (GL_COLOR_ATTACHMENT0 + slotIndex s n rear))
                    loc.toNat (GL_COLOR_ATTACHMENT0 + slotIndex s n rear) }
          else
            .undefinedBehavior
        else
          .ok (GL_COLOR_ATTACHMENT0 + slotIndex s n rear) s
      else
        .ok (GL_COLOR_ATTACHMENT0 + slotIndex s n rear) s := by
  obtain ⟨_, _, htab, hids⟩ := slotIndex_spec s hwf n rear h0 h1
  have hn : ¬ (n < 0 ∨ n > s.maxColorattachments_ - 1) := by
    omega
  unfold performAttachColorTextureExplicit
  rw [if_neg hfull, if_neg hn]
  simp only [htab, hids, hslot, hu, if_false]
  by_cases hloc : loc > -1 ∧ loc < (s.drawBuffers_.length : Int)
  · rw [if_pos hloc, if_pos hloc]
    have hlt : loc.toNat < s.drawBuffers_.length := by omega
    rw [List.getElem?_eq_getElem hlt]
    simp only [ne_eq, Option.some.injEq]
  · rw [if_neg hloc, if_neg hloc]

theorem length_le_eraseRemove (l : List GLenum) (a : GLenum) (hl : l.Nodup) :
    l.length ≤ (eraseRemove l a).length + 1 := by
  induction l with
  | nil => simp [eraseRemove]
  | cons x xs ih =>
    have hxs : xs.Nodup := (List.nodup_cons.1 hl).2
    have hx : x ∉ xs := (List.nodup_cons.1 hl).1
    by_cases hxa : x = a
    · subst hxa
      have hfix : eraseRemove xs x = xs := by
        unfold eraseRemove
        rw [List.filter_eq_self]
        intro b hb
        have : b ≠ x := fun h => hx (h ▸ hb)
        simpa using this
      have : eraseRemove (x :: xs) x = xs := by
        unfold eraseRemove at hfix ⊢
        simp [List.filter_cons, hfix]
      rw [this]; simp
    · have : eraseRemove (x :: xs) a = x :: eraseRemove xs a := by
        unfold eraseRemove
        simp [List.filter_cons, hxa]
      rw [this]
      have := ih hxs
      simp only [List.length_cons]
      omega

theorem eraseRemove_length_of_mem (l : List GLenum) (a : GLenum) (hl : l.Nodup) (ha : a ∈ l) :
    (eraseRemove l a).length + 1 = l.length := by
  induction l with
  | nil => cases ha
  | cons x xs ih =>
    have hxs : xs.Nodup := (List.nodup_cons.1 hl).2
    have hx : x ∉ xs := (List.nodup_cons.1 hl).1
    by_cases hxa : x = a
    · subst hxa
      have hfix : xs.filter (fun b => b != x) = xs := by
        rw [List.filter_eq_self]
        intro b hb
        have : b ≠ x := fun h => hx (h ▸ hb)
        simpa using this
      simp [eraseRemove, List.filter_cons, hfix]
    · have hmem : a ∈ xs := by
        rcases List.mem_cons.1 ha with h | h
        · exact absurd h.symm hxa
        · exact h
      have := ih hxs hmem
      simp only [eraseRemove] at this ⊢
      simp [List.filter_cons, hxa]
      omega

theorem eraseRemove_idem (l : List GLenum) (a : GLenum) :
    eraseRemove (eraseRemove l a) a = eraseRemove l a := by
  simp [eraseRemove, List.filter_filter]

theorem eraseRemove_vectorInsert (l : List GLenum) (pos : Nat) (a : GLenum) :
    eraseRemove (vectorInsert l pos a) a = eraseRemove l a := by
  unfold eraseRemove vectorInsert
  rw [List.filter_append, List.filter_cons]
  simp only [bne_self_eq_false, Bool.false_eq_true, if_false]
  rw [← List.filter_append, List.take_append_drop]

theorem vectorInsert_length (l : List GLenum) (pos : Nat) (a : GLenum) :
    (vectorInsert l pos a).length = l.length + 1 := by
  unfold vectorInsert
  simp only [List.length_append, List.length_cons, List.length_take, List.length_drop]
  omega

theorem vectorInsert_lookup (l : List GLenum) (pos : Nat) (a : GLenum) (h : pos ≤ l.length) :
    (vectorInsert l pos a)[pos]? = some a := by
  unfold vectorInsert
  have hlen : (l.take pos).length = pos := by simp [List.length_take, h]
  rw [List.getElem?_append_right (by omega)]
  simp [hlen]

theorem vectorInsert_count_self (l : List GLenum) (pos : Nat) (a : GLenum) (ha : a ∉ l) :
    (vectorInsert l pos a).count a = 1 := by
  unfold vectorInsert
  have h1 : (l.take pos).count a = 0 :=
    List.count_eq_zero_of_not_mem (fun h => ha (List.mem_of_mem_take h))
  have h2 : (l.drop pos).count a = 0 :=
    List.count_eq_zero_of_not_mem (fun h => ha (List.mem_of_mem_drop h))
  simp [List.count_append, List.count_cons, h1, h2]

theorem not_mem_eraseRemove (l : List GLenum) (a : GLenum) : a ∉ eraseRemove l a := by
  simp [eraseRemove]

/-- The explicit variant returns normally whenever neither guard fires, on an
object whose sizes are as constructed and whose draw-buffer list has no
duplicates. -/
theorem explicit_ok (s : FrameBufferObject) (hwf : WellFormed s) (hnd : s.drawBuffers_.Nodup)
    (t : GLuint) (n : Int) (rear : Bool) (loc : Int)
    (hfull : (s.drawBuffers_.length : Int) ≠ s.maxColorattachments_)
    (h0 : 0 ≤ n) (h1 : n ≤ s.maxColorattachments_ - 1) :
    ∃ s1, performAttachColorTextureExplicit s t n rear loc =
        .ok (GL_COLOR_ATTACHMENT0 + slotIndex s n rear) s1 ∧
      s1.attachedColorIds_ =
        (if s.attachedColorIds_[slotIndex s n rear]? = some 0
          then s.attachedColorIds_.set (slotIndex s n rear) t else s.attachedColorIds_) ∧
      s1.attachedDepthId_ = s.attachedDepthId_ ∧
      s1.attachedStencilId_ = s.attachedStencilId_ ∧
      s1.maxColorattachments_ = s.maxColorattachments_ := by
  obtain ⟨hk, _, _, _⟩ := slotIndex_spec s hwf n rear h0 h1
  have hget : s.attachedColorIds_[slotIndex s n rear]? =
      some (s.attachedColorIds_[slotIndex s n rear]) := List.getElem?_eq_getElem hk
  by_cases hz : s.attachedColorIds_[slotIndex s n rear] = 0
  · rw [hz] at hget
    rw [explicit_new s hwf t n rear loc hfull h0 h1 hget]
    exact ⟨_, rfl, by simp [hget], rfl, rfl, rfl⟩
  · rw [explicit_occupied s hwf t n rear loc hfull h0 h1 _ hget hz]
    have hne : ¬ s.attachedColorIds_[slotIndex s n rear]? = some 0 := by
      rw [hget]; simpa using hz
    by_cases hloc : loc > -1 ∧ loc < (s.drawBuffers_.length : Int)
    · rw [if_pos hloc]
      by_cases hb : s.drawBuffers_[loc.toNat]? ≠
          some (GL_COLOR_ATTACHMENT0 + slotIndex s n rear)
      · rw [if_pos hb]
        have hle := length_le_eraseRemove s.drawBuffers_
          (GL_COLOR_ATTACHMENT0 + slotIndex s n rear) hnd
        have hpos : loc.toNat ≤
            (eraseRemove s.drawBuffers_ (GL_COLOR_ATTACHMENT0 + slotIndex s n rear)).length := by
          omega
        rw [if_pos hpos]
        exact ⟨_, rfl, by simp [hne], rfl, rfl, rfl⟩
      · rw [if_neg hb]
        exact ⟨_, rfl, by simp [hne], rfl, rfl, rfl⟩
    · rw [if_neg hloc]
      exact ⟨_, rfl, by simp [hne], rfl, rfl, rfl⟩

/-- C4 (amended): the explicit variant first tests the draw-buffer list: if it
holds `maxColorattachments_` entries the call throws "Maximum number of color
attachments reached." whatever the slot number; otherwise, if the slot number
is outside `[0, maxColorattachments_)` it throws "Invalid attachment id";
otherwise it returns normally.  In both failures the object at the throw is
the object before the call. -/
theorem explicit_failure_cases (s : FrameBufferObject) (hwf : WellFormed s)
    (hnd : s.drawBuffers_.Nodup) (t : GLuint) (n : Int) (rear : Bool) (loc : Int) :
    ((s.drawBuffers_.length : Int) = s.maxColorattachments_ →
      performAttachColorTextureExplicit s t n rear loc =
        .thrown .maxColorAttachmentsReached s) ∧
    ((s.drawBuffers_.length : Int) ≠ s.maxColorattachments_ →
      (n < 0 ∨ s.maxColorattachments_ ≤ n) →
      performAttachColorTextureExplicit s t n rear loc =
        .thrown (.invalidAttachmentId n) s) ∧
    ((s.drawBuffers_.length : Int) ≠ s.maxColorattachments_ →
      0 ≤ n → n < s.maxColorattachments_ →
      ∃ attachmentID s1,
        performAttachColorTextureExplicit s t n rear loc = .ok attachmentID s1) := by
  refine ⟨explicit_full s t n rear loc, ?_, ?_⟩
  · intro hfull hn
    exact explicit_invalid s t n rear loc hfull (by omega)
  · intro hfull h0 h1
    obtain ⟨s1, h, _⟩ := explicit_ok s hwf hnd t n rear loc hfull h0 (by omega)
    exact ⟨_, s1, h⟩

/-- Witness for C4: a full 8-slot object, and a fresh one with slot numbers 9
and 0. -/
theorem explicit_failure_cases_witness :
    performAttachColorTextureExplicit
        { create 1 8 7 with
          attachedColorIds_ := [11, 12, 13, 14, 15, 16, 17, 18]
          drawBuffers_ := [36064, 36065, 36066, 36067, 36068, 36069, 36070, 36071] }
        19 0 false (-1)
      = .thrown .maxColorAttachmentsReached
        { create 1 8 7 with
          attachedColorIds_ := [11, 12, 13, 14, 15, 16, 17, 18]
          drawBuffers_ := [36064, 36065, 36066, 36067, 36068, 36069, 36070, 36071] } ∧
    performAttachColorTextureExplicit (create 1 8 7) 19 9 false (-1)
      = .thrown (.invalidAttachmentId 9) (create 1 8 7) ∧
    ∃ attachmentID s1,
      performAttachColorTextureExplicit (create 1 8 7) 19 0 false (-1) = .ok attachmentID s1 :=
  ⟨(explicit_failure_cases _ (by decide) (by decide) 19 0 false (-1)).1 (by decide),
   (explicit_failure_cases (create 1 8 7) (by decide) (by decide) 19 9 false (-1)).2.1
      (by decide) (by decide),
   (explicit_failure_cases (create 1 8 7) (by decide) (by decide) 19 0 false (-1)).2.2
      (by decide) (by decide) (by decide)⟩

/-- Counterexample to C4 as stated: eight attach calls fill an 8-slot object;
on it the explicit variant with slot number -1, which is outside `[0, 8)`,
throws "Maximum number of color attachments reached.", not "Invalid
attachment id". -/
theorem explicit_full_list_checked_before_slot :
    attachColorTextures (create 1 8 7) [11, 12, 13, 14, 15, 16, 17, 18]
      = .ok [36064, 36065, 36066, 36067, 36068, 36069, 36070, 36071]
        { create 1 8 7 with
          attachedColorIds_ := [11, 12, 13, 14, 15, 16, 17, 18]
          drawBuffers_ := [36064, 36065, 36066, 36067, 36068, 36069, 36070, 36071] } ∧
    performAttachColorTextureExplicit
        { create 1 8 7 with
          attachedColorIds_ := [11, 12, 13, 14, 15, 16, 17, 18]
          drawBuffers_ := [36064, 36065, 36066, 36067, 36068, 36069, 36070, 36071] }
        19 (-1) false (-1)
      = .thrown .maxColorAttachmentsReached
        { create 1 8 7 with
          attachedColorIds_ := [11, 12, 13, 14, 15, 16, 17, 18]
          drawBuffers_ := [36064, 36065, 36066, 36067, 36068, 36069, 36070, 36071] } ∧
    performAttachColorTextureExplicit
        { create 1 8 7 with
          attachedColorIds_ := [11, 12, 13, 14, 15, 16, 17, 18]
          drawBuffers_ := [36064, 36065, 36066, 36067, 36068, 36069, 36070, 36071] }
        19 (-1) false (-1)
      ≠ .thrown (.invalidAttachmentId (-1))
        { create 1 8 7 with
          attachedColorIds_ := [11, 12, 13, 14, 15, 16, 17, 18]
          drawBuffers_ := [36064, 36065, 36066, 36067, 36068, 36069, 36070, 36071] } := by
  decide

/-- C5 (amended): with `N = maxColorattachments_`, a draw-buffer list that
holds fewer than `N` entries and a slot number `n` in `[0, N)`, the explicit
variant returns the attachment id of slot `N-1-n` when counting from the rear
and of slot `n` otherwise; afterwards that slot is occupied (by the given
non-zero texture if it was empty) and every other slot is as before.  On a
fresh 8-slot object, texture `A` at rear slot 0 lands in slot 7, then texture
`B` at front slot 0 lands in slot 0, and the slot table holds both. -/
theorem explicit_slot_index :
    (∀ (s : FrameBufferObject) (t : GLuint) (n : Int) (rear : Bool) (loc : Int),
      WellFormed s → s.drawBuffers_.Nodup → t ≠ 0 →
      (s.drawBuffers_.length : Int) ≠ s.maxColorattachments_ →
      0 ≤ n → n < s.maxColorattachments_ →
      ∃ s1, performAttachColorTextureExplicit s t n rear loc =
          .ok (GL_COLOR_ATTACHMENT0 + slotIndex s n rear) s1 ∧
        (slotIndex s n rear : Int) = (if rear then s.maxColorattachments_ - 1 - n else n) ∧
        colorAttachmentEnums_[slotIndex s n rear]? =
          some (GL_COLOR_ATTACHMENT0 + slotIndex s n rear) ∧
        (∃ u, s1.attachedColorIds_[slotIndex s n rear]? = some u ∧ u ≠ 0) ∧
        (s.attachedColorIds_[slotIndex s n rear]? = some 0 →
          s1.attachedColorIds_[slotIndex s n rear]? = some t) ∧
        (∀ j, j ≠ slotIndex s n rear →
          s1.attachedColorIds_[j]? = s.attachedColorIds_[j]?)) ∧
    (∀ (handle ctx : Nat) (A B : GLuint) (locA locB : Int),
      ∃ sA sB,
        performAttachColorTextureExplicit (create handle 8 ctx) A 0 true locA =
          .ok (GL_COLOR_ATTACHMENT0 + 7) sA ∧
        sA.attachedColorIds_ = [0, 0, 0, 0, 0, 0, 0, A] ∧
        performAttachColorTextureExplicit sA B 0 false locB = .ok GL_COLOR_ATTACHMENT0 sB ∧
        sB.attachedColorIds_ = [B, 0, 0, 0, 0, 0, 0, A]) := by
  constructor
  · intro s t n rear loc hwf hnd ht hfull h0 h1
    obtain ⟨hk, hk16, _, _⟩ := slotIndex_spec s hwf n rear h0 (by omega)
    obtain ⟨s1, hres, hids, _⟩ := explicit_ok s hwf hnd t n rear loc hfull h0 (by omega)
    have hget : s.attachedColorIds_[slotIndex s n rear]? =
        some (s.attachedColorIds_[slotIndex s n rear]) := List.getElem?_eq_getElem hk
    refine ⟨s1, hres, ?_, colorAttachmentEnums_lookup _ hk16, ?_, ?_, ?_⟩
    · cases rear
      · simp only [slotIndex, Bool.false_eq_true, if_false]; omega
      · simp only [slotIndex, if_true]; omega
    · by_cases hz : s.attachedColorIds_[slotIndex s n rear]? = some 0
      · rw [hids, if_pos hz]
        exact ⟨t, by simp [List.getElem?_set, hk], ht⟩
      · rw [hids, if_neg hz]
        refine ⟨_, hget, ?_⟩
        intro h0
        rw [h0] at hget
        exact hz hget
    · intro hz
      rw [hids, if_pos hz]
      simp [List.getElem?_set, hk]
    · intro j hj
      rw [hids]
      split
      · simp [List.getElem?_set, Ne.symm hj]
      · rfl
  · intro handle ctx A B locA locB
    have hA := explicit_new (create handle 8 ctx) (by simp [WellFormed, create]) A 0 true locA
      (by simp [create]) (by decide) (by simp [create]) (by simp [create, slotIndex])
    have hkA : slotIndex (create handle 8 ctx) 0 true = 7 := by simp [slotIndex, create]
    rw [hkA] at hA
    have hdbA : (if locA < 0 ∨ locA > ((create handle 8 ctx).drawBuffers_.length : Int) then
          (create handle 8 ctx).drawBuffers_ ++ [GL_COLOR_ATTACHMENT0 + 7]
        else vectorInsert (create handle 8 ctx).drawBuffers_ locA.toNat
          (GL_COLOR_ATTACHMENT0 + 7)) = [GL_COLOR_ATTACHMENT0 + 7] := by
      split <;> simp [create, vectorInsert]
    rw [hdbA] at hA
    have hwf : WellFormed { create handle 8 ctx with
        attachedColorIds_ := (create handle 8 ctx).attachedColorIds_.set 7 A
        drawBuffers_ := [GL_COLOR_ATTACHMENT0 + 7] } := by
      simp [WellFormed, create]
    have hB := explicit_new _ hwf B 0 false locB
      (by simp [create]) (by decide) (by simp [create]) (by simp [create, slotIndex])
    have hkB : slotIndex { create handle 8 ctx with
        attachedColorIds_ := (create handle 8 ctx).attachedColorIds_.set 7 A
        drawBuffers_ := [GL_COLOR_ATTACHMENT0 + 7] } 0 false = 0 := by
      simp [slotIndex]
    rw [hkB] at hB
    exact ⟨_, _, hA, by simp [create], hB, by simp [create]⟩

/-- Witness for C5: rear slot 2 on a fresh 8-slot object, and the scenario
with textures 41 and 42. -/
theorem explicit_slot_index_witness :
    (∃ s1, performAttachColorTextureExplicit (create 1 8 7) 41 2 true (-1) =
          .ok (GL_COLOR_ATTACHMENT0 + slotIndex (create 1 8 7) 2 true) s1 ∧
        (slotIndex (create 1 8 7) 2 true : Int) =
          (if true then (create 1 8 7).maxColorattachments_ - 1 - 2 else 2) ∧
        colorAttachmentEnums_[slotIndex (create 1 8 7) 2 true]? =
          some (GL_COLOR_ATTACHMENT0 + slotIndex (create 1 8 7) 2 true) ∧
        (∃ u, s1.attachedColorIds_[slotIndex (create 1 8 7) 2 true]? = some u ∧ u ≠ 0) ∧
        ((create 1 8 7).attachedColorIds_[slotIndex (create 1 8 7) 2 true]? = some 0 →
          s1.attachedColorIds_[slotIndex (create 1 8 7) 2 true]? = some 41) ∧
        (∀ j, j ≠ slotIndex (create 1 8 7) 2 true →
          s1.attachedColorIds_[j]? = (create 1 8 7).attachedColorIds_[j]?)) ∧
    (∃ sA sB,
        performAttachColorTextureExplicit (create 1 8 7) 41 0 true (-1) =
          .ok (GL_COLOR_ATTACHMENT0 + 7) sA ∧
        sA.attachedColorIds_ = [0, 0, 0, 0, 0, 0, 0, 41] ∧
        performAttachColorTextureExplicit sA 42 0 false (-1) = .ok GL_COLOR_ATTACHMENT0 sB ∧
        sB.attachedColorIds_ = [42, 0, 0, 0, 0, 0, 0, 41]) :=
  ⟨explicit_slot_index.1 (create 1 8 7) 41 2 true (-1) (by decide) (by decide) (by decide)
      (by decide) (by decide) (by decide),
   explicit_slot_index.2 1 7 41 42 (-1) (-1)⟩

/-- Counterexample to C5 as stated: eight attach calls fill an 8-slot object;
on it the explicit variant with slot number 0, which lies in `[0, 8)`, throws
"Maximum number of color attachments reached." both from the rear and from
the front, and returns no attachment id. -/
theorem explicit_slot_rejected_when_full :
    attachColorTextures (create 1 8 7) [11, 12, 13, 14, 15, 16, 17, 18]
      = .ok [36064, 36065, 36066, 36067, 36068, 36069, 36070, 36071]
        { create 1 8 7 with
          attachedColorIds_ := [11, 12, 13, 14, 15, 16, 17, 18]
          drawBuffers_ := [36064, 36065, 36066, 36067, 36068, 36069, 36070, 36071] } ∧
    performAttachColorTextureExplicit
        { create 1 8 7 with
          attachedColorIds_ := [11, 12, 13, 14, 15, 16, 17, 18]
          drawBuffers_ := [36064, 36065, 36066, 36067, 36068, 36069, 36070, 36071] }
        19 0 true (-1)
      = .thrown .maxColorAttachmentsReached
        { create 1 8 7 with
          attachedColorIds_ := [11, 12, 13, 14, 15, 16, 17, 18]
          drawBuffers_ := [36064, 36065, 36066, 36067, 36068, 36069, 36070, 36071] } ∧
    performAttachColorTextureExplicit
        { create 1 8 7 with
          attachedColorIds_ := [11, 12, 13, 14, 15, 16, 17, 18]
          drawBuffers_ := [36064, 36065, 36066, 36067, 36068, 36069, 36070, 36071] }
        19 0 false (-1)
      = .thrown .maxColorAttachmentsReached
        { create 1 8 7 with
          attachedColorIds_ := [11, 12, 13, 14, 15, 16, 17, 18]
          drawBuffers_ := [36064, 36065, 36066, 36067, 36068, 36069, 36070, 36071] } := by
  decide

/-- C6 (amended): when the draw-buffer list holds fewer than
`maxColorattachments_` entries, the addressed slot holds the non-zero texture
`t` and its attachment id sits at position `p` of the draw-buffer list, then
re-attaching `t` to that slot with a forced location `q` in
`[0, length)`, `q ≠ p`, returns normally with the slot's attachment id, leaves
the slot table, depth and stencil as they are, and puts the id at position `q`
of the draw-buffer list: it occurs there once, the length is unchanged and the
other entries keep their order. -/
theorem explicit_reorder (s : FrameBufferObject) (hwf : WellFormed s)
    (hnd : s.drawBuffers_.Nodup) (t : GLuint) (n : Int) (rear : Bool) (q : Int) (p : Nat)
    (hfull : (s.drawBuffers_.length : Int) ≠ s.maxColorattachments_)
    (h0 : 0 ≤ n) (h1 : n < s.maxColorattachments_)
    (hslot : s.attachedColorIds_[slotIndex s n rear]? = some t) (ht : t ≠ 0)
    (hp : s.drawBuffers_[p]? = some (GL_COLOR_ATTACHMENT0 + slotIndex s n rear))
    (hq0 : 0 ≤ q) (hq1 : q < (s.drawBuffers_.length : Int)) (hqp : q ≠ (p : Int)) :
    ∃ s1, performAttachColorTextureExplicit s t n rear q =
        .ok (GL_COLOR_ATTACHMENT0 + slotIndex s n rear) s1 ∧
      s1.attachedColorIds_ = s.attachedColorIds_ ∧
      s1.attachedDepthId_ = s.attachedDepthId_ ∧
      s1.attachedStencilId_ = s.attachedStencilId_ ∧
      s1.drawBuffers_[q.toNat]? = some (GL_COLOR_ATTACHMENT0 + slotIndex s n rear) ∧
      s1.drawBuffers_.count (GL_COLOR_ATTACHMENT0 + slotIndex s n rear) = 1 ∧
      s1.drawBuffers_.length = s.drawBuffers_.length ∧
      eraseRemove s1.drawBuffers_ (GL_COLOR_ATTACHMENT0 + slotIndex s n rear) =
        eraseRemove s.drawBuffers_ (GL_COLOR_ATTACHMENT0 + slotIndex s n rear) := by
  have hmem : GL_COLOR_ATTACHMENT0 + slotIndex s n rear ∈ s.drawBuffers_ :=
    List.getElem?_mem hp
  have hlen := eraseRemove_length_of_mem s.drawBuffers_ _ hnd hmem
  have hloc : q > -1 ∧ q < (s.drawBuffers_.length : Int) := ⟨by omega, hq1⟩
  have hb : s.drawBuffers_[q.toNat]? ≠ some (GL_COLOR_ATTACHMENT0 + slotIndex s n rear) := by
    intro hq
    have hpl : p < s.drawBuffers_.length := by
      rcases Nat.lt_or_ge p s.drawBuffers_.length with h | h
      · exact h
      · rw [List.getElem?_eq_none h] at hp; cases hp
    have hql : q.toNat < s.drawBuffers_.length := by omega
    rw [List.getElem?_eq_getElem hql] at hq
    rw [List.getElem?_eq_getElem hpl] at hp
    have heq : s.drawBuffers_[q.toNat] = s.drawBuffers_[p] := by
      rw [Option.some.inj hq, Option.some.inj hp]
    have := (List.Nodup.getElem_inj_iff hnd).1 heq
    omega
  have hpos : q.toNat ≤
      (eraseRemove s.drawBuffers_ (GL_COLOR_ATTACHMENT0 + slotIndex s n rear)).length := by
    omega
  rw [explicit_occupied s hwf t n rear q hfull h0 (by omega) t hslot ht, if_pos hloc, if_pos hb,
    if_pos hpos]
  refine ⟨_, rfl, rfl, rfl, rfl, ?_, ?_, ?_, ?_⟩
  · exact vectorInsert_lookup _ _ _ hpos
  · exact vectorInsert_count_self _ _ _ (not_mem_eraseRemove _ _)
  · simp only [vectorInsert_length]
    exact hlen
  · simp only [eraseRemove_vectorInsert, eraseRemove_idem]

/-- Witness for C6: textures 11, 12, 13 in slots 0..2 of an 8-slot object;
slot 0 is moved from position 0 to position 2. -/
theorem explicit_reorder_witness :
    ∃ s1, performAttachColorTextureExplicit
          { create 1 8 7 with
            attachedColorIds_ := [11, 12, 13, 0, 0, 0, 0, 0]
            drawBuffers_ := [36064, 36065, 36066] } 11 0 false 2 =
        .ok (GL_COLOR_ATTACHMENT0 + 0) s1 ∧
      s1.attachedColorIds_ = [11, 12, 13, 0, 0, 0, 0, 0] ∧
      s1.attachedDepthId_ = 0 ∧
      s1.attachedStencilId_ = 0 ∧
      s1.drawBuffers_[2]? = some (GL_COLOR_ATTACHMENT0 + 0) ∧
      s1.drawBuffers_.count (GL_COLOR_ATTACHMENT0 + 0) = 1 ∧
      s1.drawBuffers_.length = 3 ∧
      eraseRemove s1.drawBuffers_ (GL_COLOR_ATTACHMENT0 + 0) =
        eraseRemove [36064, 36065, 36066] (GL_COLOR_ATTACHMENT0 + 0) :=
  explicit_reorder
    { create 1 8 7 with
      attachedColorIds_ := [11, 12, 13, 0, 0, 0, 0, 0]
      drawBuffers_ := [36064, 36065, 36066] }
    (by decide) (by decide) 11 0 false 2 0 (by decide) (by decide) (by decide) (by decide)
    (by decide) (by decide) (by decide) (by decide) (by decide)

/-- Counterexample to C6 as stated: eight attach calls fill an 8-slot object;
slot 0 holds texture 11 and its id sits at position 0 of the 8 draw buffers,
yet re-attaching texture 11 to slot 0 with forced location 3 throws "Maximum
number of color attachments reached." and reorders nothing. -/
theorem reorder_rejected_when_full :
    attachColorTextures (create 1 8 7) [11, 12, 13, 14, 15, 16, 17, 18]
      = .ok [36064, 36065, 36066, 36067, 36068, 36069, 36070, 36071]
        { create 1 8 7 with
          attachedColorIds_ := [11, 12, 13, 14, 15, 16, 17, 18]
          drawBuffers_ := [36064, 36065, 36066, 36067, 36068, 36069, 36070, 36071] } ∧
    performAttachColorTextureExplicit
        { create 1 8 7 with
          attachedColorIds_ := [11, 12, 13, 14, 15, 16, 17, 18]
          drawBuffers_ := [36064, 36065, 36066, 36067, 36068, 36069, 36070, 36071] }
        11 0 false 3
      = .thrown .maxColorAttachmentsReached
        { create 1 8 7 with
          attachedColorIds_ := [11, 12, 13, 14, 15, 16, 17, 18]
          drawBuffers_ := [36064, 36065, 36066, 36067, 36068, 36069, 36070, 36071] } := by
  decide

/-! ## Detaching -/

theorem validateAttachmentId_ok (s : FrameBufferObject) (hwf : WellFormed s) (a : GLenum)
    (h0 : GL_COLOR_ATTACHMENT0 ≤ a)
    (h1 : (a : Int) ≤ GL_COLOR_ATTACHMENT0 + s.maxColorattachments_ - 1) :
    validateAttachmentId s a = .ok () s := by
  obtain ⟨hw1, hw2, _⟩ := hwf
  have hfirst : arrayAt colorAttachmentEnums_ 0 = some GL_COLOR_ATTACHMENT0 := by decide
  have hk0 : 0 ≤ s.maxColorattachments_ - 1 := by omega
  have hk16 : (s.maxColorattachments_ - 1).toNat < 16 := by omega
  have hlast : arrayAt colorAttachmentEnums_ (s.maxColorattachments_ - 1) =
      some (GL_COLOR_ATTACHMENT0 + (s.maxColorattachments_ - 1).toNat) := by
    unfold arrayAt
    rw [if_pos hk0]
    exact colorAttachmentEnums_lookup _ hk16
  unfold validateAttachmentId
  simp only [hfirst, hlast]
  have hn1 : ¬ a < GL_COLOR_ATTACHMENT0 := by
    simp only [GLenum] at h0 ⊢; omega
  have hn2 : ¬ a > GL_COLOR_ATTACHMENT0 + (s.maxColorattachments_ - 1).toNat := by
    simp only [GL_COLOR_ATTACHMENT0, GLenum] at h0 h1 ⊢; omega
  rw [if_neg hn1, if_neg hn2]

theorem validateAttachmentId_throws (s : FrameBufferObject) (hwf : WellFormed s) (a : GLenum)
    (h : a < GL_COLOR_ATTACHMENT0 ∨
      (GL_COLOR_ATTACHMENT0 : Int) + s.maxColorattachments_ - 1 < a) :
    validateAttachmentId s a = .thrown (.invalidAttachmentId a) s := by
  obtain ⟨hw1, hw2, _⟩ := hwf
  have hfirst : arrayAt colorAttachmentEnums_ 0 = some GL_COLOR_ATTACHMENT0 := by decide
  have hk0 : 0 ≤ s.maxColorattachments_ - 1 := by omega
  have hk16 : (s.maxColorattachments_ - 1).toNat < 16 := by omega
  have hlast : arrayAt colorAttachmentEnums_ (s.maxColorattachments_ - 1) =
      some (GL_COLOR_ATTACHMENT0 + (s.maxColorattachments_ - 1).toNat) := by
    unfold arrayAt
    rw [if_pos hk0]
    exact colorAttachmentEnums_lookup _ hk16
  unfold validateAttachmentId
  simp only [hfirst, hlast]
  by_cases hlt : a < GL_COLOR_ATTACHMENT0
  · rw [if_pos hlt]
  · rw [if_neg hlt]
    have hgt : a > GL_COLOR_ATTACHMENT0 + (s.maxColorattachments_ - 1).toNat := by
      rcases h with h | h
      · exact absurd h hlt
      · simp only [GL_COLOR_ATTACHMENT0, GLenum] at h ⊢; omega
    rw [if_pos hgt]

theorem color_range_not_depth (s : FrameBufferObject) (hwf : WellFormed s) (a : GLenum)
    (h0 : GL_COLOR_ATTACHMENT0 ≤ a)
    (h1 : (a : Int) ≤ GL_COLOR_ATTACHMENT0 + s.maxColorattachments_ - 1) :
    a ≠ GL_DEPTH_ATTACHMENT ∧ a ≠ GL_STENCIL_ATTACHMENT ∧ a ≠ GL_DEPTH_STENCIL_ATTACHMENT ∧
    a - GL_COLOR_ATTACHMENT0 < s.attachedColorIds_.length := by
  obtain ⟨hw1, hw2, hw3⟩ := hwf
  simp only [GL_COLOR_ATTACHMENT0, GL_DEPTH_ATTACHMENT, GL_STENCIL_ATTACHMENT,
    GL_DEPTH_STENCIL_ATTACHMENT, GLenum] at h0 h1 ⊢
  refine ⟨by omega, by omega, by omega, by omega⟩

theorem detachTexture_color (s : FrameBufferObject) (hwf : WellFormed s) (a : GLenum)
    (h0 : GL_COLOR_ATTACHMENT0 ≤ a)
    (h1 : (a : Int) ≤ GL_COLOR_ATTACHMENT0 + s.maxColorattachments_ - 1) :
    detachTexture s a =
      .ok [.framebufferTexture a 0]
        { s with
          drawBuffers_ := eraseRemove s.drawBuffers_ a
          attachedColorIds_ := s.attachedColorIds_.set (a - GL_COLOR_ATTACHMENT0) 0 } := by
  obtain ⟨hd, hst, hds, hidx⟩ := color_range_not_depth s hwf a h0 h1
  have hfirst : arrayAt colorAttachmentEnums_ 0 = some GL_COLOR_ATTACHMENT0 := by decide
  unfold detachTexture
  rw [if_neg hd, if_neg hst, if_neg hds, validateAttachmentId_ok s hwf a h0 h1]
  simp only [hfirst]
  rw [if_pos hidx]

theorem findIdx_eraseRemove (l : List GLenum) (a : GLenum) :
    (eraseRemove l a).findIdx (fun b => b == a) = (eraseRemove l a).length := by
  rw [List.findIdx_eq_length]
  intro x hx
  have : x ≠ a := by
    intro h
    exact not_mem_eraseRemove l a (h ▸ hx)
  simpa using this

/-- C7 (amended): for a color attachment id in the legal range, `detachTexture`
returns normally and `getAttachmentLocation` of that id is then -1 (not
found); for the depth, stencil and combined ids `detachTexture` returns
normally and `getAttachmentLocation` is then 0, their fixed location. -/
theorem detach_then_location (s : FrameBufferObject) (hwf : WellFormed s) (a : GLenum) :
    (GL_COLOR_ATTACHMENT0 ≤ a →
      (a : Int) ≤ GL_COLOR_ATTACHMENT0 + s.maxColorattachments_ - 1 →
      ∃ calls s1, detachTexture s a = .ok calls s1 ∧ getAttachmentLocation s1 a = -1) ∧
    (a = GL_DEPTH_ATTACHMENT ∨ a = GL_STENCIL_ATTACHMENT ∨ a = GL_DEPTH_STENCIL_ATTACHMENT →
      ∃ calls s1, detachTexture s a = .ok calls s1 ∧ getAttachmentLocation s1 a = 0) := by
  constructor
  · intro h0 h1
    obtain ⟨hd, hst, hds, _⟩ := color_range_not_depth s hwf a h0 h1
    refine ⟨_, _, detachTexture_color s hwf a h0 h1, ?_⟩
    unfold getAttachmentLocation
    have hno : ¬ (a = GL_DEPTH_ATTACHMENT ∨ a = GL_STENCIL_ATTACHMENT ∨
        a = GL_DEPTH_STENCIL_ATTACHMENT) := by
      rintro (h | h | h)
      · exact hd h
      · exact hst h
      · exact hds h
    rw [if_neg hno]
    simp only [findIdx_eraseRemove]
    simp
  · intro h
    have hloc : ∀ s1 : FrameBufferObject, getAttachmentLocation s1 a = 0 := by
      intro s1
      unfold getAttachmentLocation
      rw [if_pos h]
    rcases h with h | h | h
    · exact ⟨_, _, by unfold detachTexture; rw [if_pos h], hloc _⟩
    · have hd : a ≠ GL_DEPTH_ATTACHMENT := by rw [h]; decide
      exact ⟨_, _, by unfold detachTexture; rw [if_neg hd, if_pos h], hloc _⟩
    · have hd : a ≠ GL_DEPTH_ATTACHMENT := by rw [h]; decide
      have hst : a ≠ GL_STENCIL_ATTACHMENT := by rw [h]; decide
      exact ⟨_, _, by unfold detachTexture; rw [if_neg hd, if_neg hst, if_pos h], hloc _⟩

/-- Witness for C7: slot 1 of an 8-slot object with three attachments, and the
depth id on the same object. -/
theorem detach_then_location_witness :
    (∃ calls s1, detachTexture
        { create 1 8 7 with
          attachedColorIds_ := [11, 12, 13, 0, 0, 0, 0, 0]
          drawBuffers_ := [36064, 36065, 36066] } 36065 = .ok calls s1 ∧
      getAttachmentLocation s1 36065 = -1) ∧
    (∃ calls s1, detachTexture
        { create 1 8 7 with
          attachedColorIds_ := [11, 12, 13, 0, 0, 0, 0, 0]
          drawBuffers_ := [36064, 36065, 36066]
          attachedDepthId_ := 30 } GL_DEPTH_ATTACHMENT = .ok calls s1 ∧
      getAttachmentLocation s1 GL_DEPTH_ATTACHMENT = 0) :=
  ⟨(detach_then_location _ (by decide) 36065).1 (by decide) (by decide),
   (detach_then_location _ (by decide) GL_DEPTH_ATTACHMENT).2 (Or.inl rfl)⟩

/-- Counterexample to C7 as stated: after detaching the depth attachment,
`getAttachmentLocation(GL_DEPTH_ATTACHMENT)` is 0, not the not-found value -1;
likewise for the stencil and the combined id. -/
theorem detach_depth_location_is_zero :
    detachTexture { create 1 8 7 with attachedDepthId_ := 30 } GL_DEPTH_ATTACHMENT
      = .ok [.framebufferTexture GL_DEPTH_ATTACHMENT 0] (create 1 8 7) ∧
    getAttachmentLocation (create 1 8 7) GL_DEPTH_ATTACHMENT = 0 ∧
    getAttachmentLocation (create 1 8 7) GL_DEPTH_ATTACHMENT ≠ -1 ∧
    getAttachmentLocation (create 1 8 7) GL_STENCIL_ATTACHMENT = 0 ∧
    getAttachmentLocation (create 1 8 7) GL_DEPTH_STENCIL_ATTACHMENT = 0 := by
  decide

/-- C8: `detachAllTextures` always returns normally; afterwards the depth slot,
the stencil slot and every color slot are empty and the draw-buffer list is
empty; the native detach is issued for the depth and the stencil attachment
and for every entry of the draw-buffer list, hence, in a state where the list
and the slot table agree, for every color slot that was non-empty. -/
theorem detachAllTextures_clears (s : FrameBufferObject) :
    ∃ calls s1, detachAllTextures s = .ok calls s1 ∧
      s1.attachedDepthId_ = 0 ∧ s1.attachedStencilId_ = 0 ∧
      s1.attachedColorIds_.length = s.attachedColorIds_.length ∧
      (∀ x ∈ s1.attachedColorIds_, x = 0) ∧
      s1.drawBuffers_ = [] ∧
      GLCall.framebufferTexture GL_DEPTH_ATTACHMENT 0 ∈ calls ∧
      GLCall.framebufferTexture GL_STENCIL_ATTACHMENT 0 ∈ calls ∧
      (∀ b ∈ s.drawBuffers_, GLCall.framebufferTexture b 0 ∈ calls) ∧
      (Consistent s → ∀ i, i < s.attachedColorIds_.length →
        s.attachedColorIds_[i]? ≠ some 0 →
        GLCall.framebufferTexture (GL_COLOR_ATTACHMENT0 + i) 0 ∈ calls) := by
  have hdb : ∀ b ∈ s.drawBuffers_, GLCall.framebufferTexture b 0 ∈
      [GLCall.framebufferTexture GL_DEPTH_ATTACHMENT 0,
       GLCall.framebufferTexture GL_STENCIL_ATTACHMENT 0]
        ++ s.drawBuffers_.map (fun buffer => GLCall.framebufferTexture buffer 0) := by
    intro b hb
    exact List.mem_append_right _ (List.mem_map.2 ⟨b, hb, rfl⟩)
  refine ⟨_, _, rfl, rfl, rfl, by simp, ?_, rfl, by simp, by simp, hdb, ?_⟩
  · intro x hx
    simp only [List.mem_map] at hx
    obtain ⟨_, _, h⟩ := hx
    exact h.symm
  · intro hcons i hi hne
    exact hdb _ (hcons.2.2.2 i hi hne)

/-- Witness for C8: an 8-slot object with three color attachments and a depth
attachment. -/
theorem detachAllTextures_clears_witness :
    Consistent
      { create 1 8 7 with
        attachedColorIds_ := [11, 12, 13, 0, 0, 0, 0, 0]
        drawBuffers_ := [36064, 36065, 36066]
        attachedDepthId_ := 30 } ∧
    ∃ calls s1, detachAllTextures
        { create 1 8 7 with
          attachedColorIds_ := [11, 12, 13, 0, 0, 0, 0, 0]
          drawBuffers_ := [36064, 36065, 36066]
          attachedDepthId_ := 30 } = .ok calls s1 ∧
      s1 = create 1 8 7 ∧
      GLCall.framebufferTexture (GL_COLOR_ATTACHMENT0 + 2) 0 ∈ calls := by
  refine ⟨by decide, ?_⟩
  obtain ⟨calls, s1, h, _, _, _, _, _, _, _, _, hcol⟩ := detachAllTextures_clears
    { create 1 8 7 with
      attachedColorIds_ := [11, 12, 13, 0, 0, 0, 0, 0]
      drawBuffers_ := [36064, 36065, 36066]
      attachedDepthId_ := 30 }
  refine ⟨calls, s1, h, ?_, hcol (by decide) 2 (by decide) (by decide)⟩
  have h2 : detachAllTextures
      { create 1 8 7 with
        attachedColorIds_ := [11, 12, 13, 0, 0, 0, 0, 0]
        drawBuffers_ := [36064, 36065, 36066]
        attachedDepthId_ := 30 } =
      .ok [.framebufferTexture GL_DEPTH_ATTACHMENT 0, .framebufferTexture GL_STENCIL_ATTACHMENT 0,
        .framebufferTexture 36064 0, .framebufferTexture 36065 0, .framebufferTexture 36066 0]
        (create 1 8 7) := by decide
  rw [h2] at h
  injection h with _ h3
  exact h3.symm

/-- C9: `detachTexture` with the depth id empties only the depth slot, with
the stencil id only the stencil slot, with the combined id both; with a color
attachment id in `[GL_COLOR_ATTACHMENT0, GL_COLOR_ATTACHMENT0 + max - 1]` it
removes the id from the draw-buffer list (the rest keeps its order), empties
that slot and leaves every other slot, depth and stencil as they are; with any
other id it throws "Invalid attachment id" and the object at the throw is the
object before the call. -/
theorem detachTexture_cases (s : FrameBufferObject) (hwf : WellFormed s) :
    detachTexture s GL_DEPTH_ATTACHMENT =
      .ok [.framebufferTexture GL_DEPTH_ATTACHMENT 0] { s with attachedDepthId_ := 0 } ∧
    detachTexture s GL_STENCIL_ATTACHMENT =
      .ok [.framebufferTexture GL_STENCIL_ATTACHMENT 0] { s with attachedStencilId_ := 0 } ∧
    detachTexture s GL_DEPTH_STENCIL_ATTACHMENT =
      .ok [.framebufferTexture GL_DEPTH_STENCIL_ATTACHMENT 0]
        { s with attachedDepthId_ := 0, attachedStencilId_ := 0 } ∧
    (∀ a : GLenum, GL_COLOR_ATTACHMENT0 ≤ a →
      (a : Int) ≤ GL_COLOR_ATTACHMENT0 + s.maxColorattachments_ - 1 →
      ∃ s1, detachTexture s a = .ok [.framebufferTexture a 0] s1 ∧
        s1.drawBuffers_ = s.drawBuffers_.filter (fun b => b != a) ∧
        a ∉ s1.drawBuffers_ ∧
        s1.attachedColorIds_[a - GL_COLOR_ATTACHMENT0]? = some 0 ∧
        (∀ j, j ≠ a - GL_COLOR_ATTACHMENT0 →
          s1.attachedColorIds_[j]? = s.attachedColorIds_[j]?) ∧
        s1.attachedDepthId_ = s.attachedDepthId_ ∧
        s1.attachedStencilId_ = s.attachedStencilId_) ∧
    (∀ a : GLenum, a ≠ GL_DEPTH_ATTACHMENT → a ≠ GL_STENCIL_ATTACHMENT →
      a ≠ GL_DEPTH_STENCIL_ATTACHMENT →
      (a < GL_COLOR_ATTACHMENT0 ∨
        (GL_COLOR_ATTACHMENT0 : Int) + s.maxColorattachments_ - 1 < a) →
      detachTexture s a = .thrown (.invalidAttachmentId a) s) := by
  refine ⟨by unfold detachTexture; rw [if_pos rfl], ?_, ?_, ?_, ?_⟩
  · unfold detachTexture
    rw [if_neg (by decide), if_pos rfl]
  · unfold detachTexture
    rw [if_neg (by decide), if_neg (by decide), if_pos rfl]
  · intro a h0 h1
    obtain ⟨_, _, _, hidx⟩ := color_range_not_depth s hwf a h0 h1
    refine ⟨_, detachTexture_color s hwf a h0 h1, rfl, not_mem_eraseRemove _ _, ?_, ?_, rfl, rfl⟩
    · simp [List.getElem?_set, hidx]
    · intro j hj
      simp [List.getElem?_set, Ne.symm hj]
  · intro a hd hst hds hout
    unfold detachTexture
    rw [if_neg hd, if_neg hst, if_neg hds, validateAttachmentId_throws s hwf a hout]

/-- Witness for C9: an 8-slot object with three color attachments. -/
theorem detachTexture_cases_witness :
    (∃ s1, detachTexture
        { create 1 8 7 with
          attachedColorIds_ := [11, 12, 13, 0, 0, 0, 0, 0]
          drawBuffers_ := [36064, 36065, 36066] } 36065 =
          .ok [.framebufferTexture 36065 0] s1 ∧
        s1.drawBuffers_ = [36064, 36066] ∧
        s1.attachedColorIds_ = [11, 0, 13, 0, 0, 0, 0, 0]) ∧
    detachTexture
        { create 1 8 7 with
          attachedColorIds_ := [11, 12, 13, 0, 0, 0, 0, 0]
          drawBuffers_ := [36064, 36065, 36066] } 36072 =
      .thrown (.invalidAttachmentId 36072)
        { create 1 8 7 with
          attachedColorIds_ := [11, 12, 13, 0, 0, 0, 0, 0]
          drawBuffers_ := [36064, 36065, 36066] } := by
  have h := detachTexture_cases
    { create 1 8 7 with
      attachedColorIds_ := [11, 12, 13, 0, 0, 0, 0, 0]
      drawBuffers_ := [36064, 36065, 36066] } (by decide)
  refine ⟨?_, h.2.2.2.2 36072 (by decide) (by decide) (by decide) (by decide)⟩
  obtain ⟨s1, h1, _⟩ := h.2.2.2.1 36065 (by decide) (by decide)
  refine ⟨s1, h1, ?_⟩
  have h2 : detachTexture
      { create 1 8 7 with
        attachedColorIds_ := [11, 12, 13, 0, 0, 0, 0, 0]
        drawBuffers_ := [36064, 36065, 36066] } 36065 =
      .ok [.framebufferTexture 36065 0]
        { create 1 8 7 with
          attachedColorIds_ := [11, 0, 13, 0, 0, 0, 0, 0]
          drawBuffers_ := [36064, 36066] } := by decide
  rw [h2] at h1
  injection h1 with _ h3
  rw [← h3]
  exact ⟨rfl, rfl⟩

/-! ## The bookkeeping invariant is preserved by every call -/

theorem vectorInsert_perm (l : List GLenum) (pos : Nat) (a : GLenum) :
    (vectorInsert l pos a).Perm (a :: l) := by
  unfold vectorInsert
  have h := @List.perm_middle _ a (l.take pos) (l.drop pos)
  rw [List.take_append_drop] at h
  exact h

theorem consistent_create (handle ctx : Nat) (maxSlots : Int) (h1 : 1 ≤ maxSlots)
    (h16 : maxSlots ≤ 16) : Consistent (create handle maxSlots ctx) := by
  refine ⟨⟨h1, h16, ?_⟩, List.nodup_nil, ?_, ?_⟩
  · simp only [create, List.length_replicate]
    omega
  · intro a ha
    simp [create] at ha
  · intro i hi hne
    exfalso
    apply hne
    simp only [create, List.length_replicate] at hi
    simp [create, List.getElem?_replicate, hi]

theorem consistent_attach_slot (s s1 : FrameBufferObject) (hs : Consistent s) (k : Nat)
    (hk : k < s.attachedColorIds_.length) (hz : s.attachedColorIds_[k]? = some 0)
    (t : GLuint) (ht : t ≠ 0)
    (hmax : s1.maxColorattachments_ = s.maxColorattachments_)
    (hids : s1.attachedColorIds_ = s.attachedColorIds_.set k t)
    (hperm : s1.drawBuffers_.Perm ((GL_COLOR_ATTACHMENT0 + k) :: s.drawBuffers_)) :
    Consistent s1 := by
  obtain ⟨⟨hw1, hw2, hw3⟩, hnd, hin, hout⟩ := hs
  have hnotin : GL_COLOR_ATTACHMENT0 + k ∉ s.drawBuffers_ := by
    intro hmem
    have h := (hin _ hmem).2.2
    simp only [Nat.add_sub_cancel_left] at h
    exact h hz
  refine ⟨⟨by rw [hmax]; exact hw1, by rw [hmax]; exact hw2, ?_⟩, ?_, ?_, ?_⟩
  · rw [hmax, hids, List.length_set]; exact hw3
  · exact (List.Perm.nodup_iff hperm).2 (List.nodup_cons.2 ⟨hnotin, hnd⟩)
  · intro a ha
    rw [hids, List.length_set]
    rcases List.mem_cons.1 ((List.Perm.mem_iff hperm).1 ha) with h | h
    · subst h
      refine ⟨Nat.le_add_right _ _, by simpa using hk, ?_⟩
      simp [List.getElem?_set, hk, ht]
    · obtain ⟨h0, h1, h2⟩ := hin a h
      refine ⟨h0, h1, ?_⟩
      have hne : k ≠ a - GL_COLOR_ATTACHMENT0 := by
        intro heq
        rw [← heq] at h2
        exact h2 hz
      rw [List.getElem?_set_ne hne]
      exact h2
  · intro i hi hne
    rw [hids, List.length_set] at hi
    apply (List.Perm.mem_iff hperm).2
    by_cases hik : i = k
    · subst hik
      exact List.mem_cons_self _ _
    · apply List.mem_cons_of_mem
      apply hout i hi
      rw [hids, List.getElem?_set_ne (Ne.symm hik)] at hne
      exact hne

theorem consistent_same (s s1 : FrameBufferObject) (hs : Consistent s)
    (hmax : s1.maxColorattachments_ = s.maxColorattachments_)
    (hids : s1.attachedColorIds_ = s.attachedColorIds_)
    (hperm : s1.drawBuffers_.Perm s.drawBuffers_) :
    Consistent s1 := by
  obtain ⟨⟨hw1, hw2, hw3⟩, hnd, hin, hout⟩ := hs
  refine ⟨⟨by rw [hmax]; exact hw1, by rw [hmax]; exact hw2, by rw [hmax, hids]; exact hw3⟩,
    (List.Perm.nodup_iff hperm).2 hnd, ?_, ?_⟩
  · intro a ha
    rw [hids]
    exact hin a ((List.Perm.mem_iff hperm).1 ha)
  · intro i hi hne
    rw [hids] at hi hne
    exact (List.Perm.mem_iff hperm).2 (hout i hi hne)

theorem consistent_detach_slot (s s1 : FrameBufferObject) (hs : Consistent s) (k : Nat)
    (hmax : s1.maxColorattachments_ = s.maxColorattachments_)
    (hids : s1.attachedColorIds_ = s.attachedColorIds_.set k 0)
    (hdb : s1.drawBuffers_ = eraseRemove s.drawBuffers_ (GL_COLOR_ATTACHMENT0 + k)) :
    Consistent s1 := by
  obtain ⟨⟨hw1, hw2, hw3⟩, hnd, hin, hout⟩ := hs
  refine ⟨⟨by rw [hmax]; exact hw1, by rw [hmax]; exact hw2, ?_⟩, ?_, ?_, ?_⟩
  · rw [hmax, hids, List.length_set]; exact hw3
  · rw [hdb]
    exact List.Nodup.filter _ hnd
  · intro a ha
    rw [hdb] at ha
    simp only [eraseRemove, List.mem_filter, bne_iff_ne, ne_eq] at ha
    obtain ⟨h0, h1, h2⟩ := hin a ha.1
    rw [hids, List.length_set]
    refine ⟨h0, h1, ?_⟩
    have hne : k ≠ a - GL_COLOR_ATTACHMENT0 := by
      intro heq
      apply ha.2
      simp only [GLenum] at h0 heq ⊢
      omega
    rw [List.getElem?_set_ne hne]
    exact h2
  · intro i hi hne
    rw [hids, List.length_set] at hi
    have hik : i ≠ k := by
      intro heq
      subst heq
      apply hne
      rw [hids]
      simp [List.getElem?_set, hi]
    rw [hids, List.getElem?_set_ne (Ne.symm hik)] at hne
    rw [hdb]
    simp only [eraseRemove, List.mem_filter, bne_iff_ne, ne_eq]
    refine ⟨hout i hi hne, ?_⟩
    intro heq
    apply hik
    simp only [GLenum] at heq
    omega

theorem consistent_detachAll (s s1 : FrameBufferObject) (hs : Consistent s)
    (hmax : s1.maxColorattachments_ = s.maxColorattachments_)
    (hids : s1.attachedColorIds_ = s.attachedColorIds_.map (fun _ => 0))
    (hdb : s1.drawBuffers_ = []) :
    Consistent s1 := by
  obtain ⟨⟨hw1, hw2, hw3⟩, _, _, _⟩ := hs
  refine ⟨⟨by rw [hmax]; exact hw1, by rw [hmax]; exact hw2, ?_⟩, ?_, ?_, ?_⟩
  · rw [hmax, hids, List.length_map]; exact hw3
  · rw [hdb]; exact List.nodup_nil
  · intro a ha
    rw [hdb] at ha
    cases ha
  · intro i hi hne
    exfalso
    apply hne
    rw [hids, List.length_map] at hi
    rw [hids]
    simp [List.getElem?_replicate, hi]

theorem perm_cons_eraseRemove (l : List GLenum) (a : GLenum) (hl : l.Nodup) (ha : a ∈ l) :
    l.Perm (a :: eraseRemove l a) := by
  have h := List.perm_cons_erase ha
  rw [List.Nodup.erase_eq_filter hl a] at h
  exact h

theorem performAttachColorTexture_unused (s : FrameBufferObject) (t : GLuint)
    (h : 0 ∈ s.attachedColorIds_) (hlen : s.attachedColorIds_.length ≤ 16) :
    performAttachColorTexture s t =
      .ok (GL_COLOR_ATTACHMENT0 + s.attachedColorIds_.findIdx (fun used => used == 0))
        { s with
          drawBuffers_ := s.drawBuffers_ ++
            [GL_COLOR_ATTACHMENT0 + s.attachedColorIds_.findIdx (fun used => used == 0)]
          attachedColorIds_ :=
            s.attachedColorIds_.set (s.attachedColorIds_.findIdx (fun used => used == 0)) t } := by
  obtain ⟨hlt, _, _⟩ := findIdx_unused_spec s.attachedColorIds_ h
  have hmod : (GL_COLOR_ATTACHMENT0 + s.attachedColorIds_.findIdx (fun used => used == 0))
      % 2 ^ 32 = GL_COLOR_ATTACHMENT0 + s.attachedColorIds_.findIdx (fun used => used == 0) := by
    apply Nat.mod_eq_of_lt
    simp only [GL_COLOR_ATTACHMENT0]
    norm_num
    omega
  unfold performAttachColorTexture
  simp only [Nat.ne_of_lt hlt, if_false]
  have hfirst : arrayAt colorAttachmentEnums_ 0 = some GL_COLOR_ATTACHMENT0 := by decide
  simp only [hfirst, hmod]

theorem consistent_performAttachColorTexture (s : FrameBufferObject) (hs : Consistent s)
    (t : GLuint) (ht : t ≠ 0) :
    ∃ s1, (Call.attachColor t).after s = some s1 ∧
      s1.maxColorattachments_ = s.maxColorattachments_ ∧ Consistent s1 := by
  have hlen : s.attachedColorIds_.length ≤ 16 := by
    obtain ⟨⟨_, hw2, hw3⟩, _⟩ := hs
    omega
  by_cases h : 0 ∈ s.attachedColorIds_
  · obtain ⟨hlt, hzero, _⟩ := findIdx_unused_spec s.attachedColorIds_ h
    refine ⟨_, by simp only [Call.after, performAttachColorTexture_unused s t h hlen]; rfl, by rfl, ?_⟩
    exact consistent_attach_slot s _ hs _ hlt hzero t ht rfl rfl
      (List.perm_append_singleton _ _)
  · have hfull : ∀ x ∈ s.attachedColorIds_, x ≠ 0 := fun x hx hx0 => h (hx0 ▸ hx)
    exact ⟨s, by simp only [Call.after, performAttachColorTexture_full s t hfull], rfl, hs⟩

theorem consistent_performAttachColorTextureExplicit (s : FrameBufferObject)
    (hs : Consistent s) (t : GLuint) (ht : t ≠ 0) (n : Int) (rear : Bool) (loc : Int) :
    ∃ s1, (Call.attachColorExplicit t n rear loc).after s = some s1 ∧
      s1.maxColorattachments_ = s.maxColorattachments_ ∧ Consistent s1 := by
  by_cases hfull : (s.drawBuffers_.length : Int) = s.maxColorattachments_
  · exact ⟨s, by simp only [Call.after, explicit_full s t n rear loc hfull], rfl, hs⟩
  by_cases hn : n < 0 ∨ n > s.maxColorattachments_ - 1
  · exact ⟨s, by simp only [Call.after, explicit_invalid s t n rear loc hfull hn], rfl, hs⟩
  have h0 : 0 ≤ n := by omega
  have h1 : n ≤ s.maxColorattachments_ - 1 := by omega
  have hwf := hs.1
  have hnd := hs.2.1
  obtain ⟨hk, _, _, _⟩ := slotIndex_spec s hwf n rear h0 h1
  have hget : s.attachedColorIds_[slotIndex s n rear]? =
      some (s.attachedColorIds_[slotIndex s n rear]) := List.getElem?_eq_getElem hk
  by_cases hz : s.attachedColorIds_[slotIndex s n rear] = 0
  · rw [hz] at hget
    refine ⟨_, by simp only [Call.after, explicit_new s hwf t n rear loc hfull h0 h1 hget]; rfl, by rfl, ?_⟩
    refine consistent_attach_slot s _ hs _ hk hget t ht ?_ ?_ ?_
    · rfl
    · rfl
    show (if loc < 0 ∨ loc > (s.drawBuffers_.length : Int) then
        s.drawBuffers_ ++ [GL_COLOR_ATTACHMENT0 + slotIndex s n rear]
      else vectorInsert s.drawBuffers_ loc.toNat (GL_COLOR_ATTACHMENT0 + slotIndex s n rear)).Perm
        ((GL_COLOR_ATTACHMENT0 + slotIndex s n rear) :: s.drawBuffers_)
    split
    · exact List.perm_append_singleton _ _
    · exact vectorInsert_perm _ _ _
  · have hne : s.attachedColorIds_[slotIndex s n rear]? ≠ some 0 := by
      rw [hget]; simpa using hz
    have hmem : GL_COLOR_ATTACHMENT0 + slotIndex s n rear ∈ s.drawBuffers_ :=
      hs.2.2.2 _ hk hne
    have hocc := explicit_occupied s hwf t n rear loc hfull h0 h1 _ hget hz
    by_cases hloc : loc > -1 ∧ loc < (s.drawBuffers_.length : Int)
    · rw [if_pos hloc] at hocc
      by_cases hb : s.drawBuffers_[loc.toNat]? ≠
          some (GL_COLOR_ATTACHMENT0 + slotIndex s n rear)
      · rw [if_pos hb] at hocc
        have hle := length_le_eraseRemove s.drawBuffers_
          (GL_COLOR_ATTACHMENT0 + slotIndex s n rear) hnd
        have hpos : loc.toNat ≤
            (eraseRemove s.drawBuffers_ (GL_COLOR_ATTACHMENT0 + slotIndex s n rear)).length := by
          omega
        rw [if_pos hpos] at hocc
        refine ⟨_, by simp only [Call.after, hocc]; rfl, by rfl, ?_⟩
        refine consistent_same s _ hs ?_ ?_ ?_
        · rfl
        · rfl
        exact (vectorInsert_perm _ _ _).trans (perm_cons_eraseRemove _ _ hnd hmem).symm
      · rw [if_neg hb] at hocc
        exact ⟨s, by simp only [Call.after, hocc], rfl, hs⟩
    · rw [if_neg hloc] at hocc
      exact ⟨s, by simp only [Call.after, hocc], rfl, hs⟩

theorem consistent_performAttachTexture (s : FrameBufferObject) (hs : Consistent s)
    (a : GLenum) (t : GLuint) (ht : t ≠ 0) :
    ∃ s1, (Call.attachTexture a t).after s = some s1 ∧
      s1.maxColorattachments_ = s.maxColorattachments_ ∧ Consistent s1 := by
  have hwf := hs.1
  have hfirst : arrayAt colorAttachmentEnums_ 0 = some GL_COLOR_ATTACHMENT0 := by decide
  by_cases hd : a = GL_DEPTH_ATTACHMENT
  · refine ⟨{ s with attachedDepthId_ := t }, ?_, rfl, consistent_same s _ hs rfl rfl (List.Perm.refl _)⟩
    simp only [Call.after, performAttachTexture, if_pos hd]
  by_cases hst : a = GL_STENCIL_ATTACHMENT
  · refine ⟨{ s with attachedStencilId_ := t }, ?_, rfl,
      consistent_same s _ hs rfl rfl (List.Perm.refl _)⟩
    simp only [Call.after, performAttachTexture, if_neg hd, if_pos hst]
  by_cases hds : a = GL_DEPTH_STENCIL_ATTACHMENT
  · refine ⟨{ s with attachedDepthId_ := t, attachedStencilId_ := t }, ?_, rfl,
      consistent_same s _ hs rfl rfl (List.Perm.refl _)⟩
    simp only [Call.after, performAttachTexture, if_neg hd, if_neg hst, if_pos hds]
  by_cases hout : a < GL_COLOR_ATTACHMENT0 ∨
      (GL_COLOR_ATTACHMENT0 : Int) + s.maxColorattachments_ - 1 < a
  · refine ⟨s, ?_, rfl, hs⟩
    simp only [Call.after, performAttachTexture, if_neg hd, if_neg hst, if_neg hds,
      validateAttachmentId_throws s hwf a hout]
  have h0 : GL_COLOR_ATTACHMENT0 ≤ a := by
    simp only [GLenum] at hout ⊢; omega
  have h1 : (a : Int) ≤ GL_COLOR_ATTACHMENT0 + s.maxColorattachments_ - 1 := by omega
  obtain ⟨_, _, _, hidx⟩ := color_range_not_depth s hwf a h0 h1
  have hget : s.attachedColorIds_[a - GL_COLOR_ATTACHMENT0]? =
      some (s.attachedColorIds_[a - GL_COLOR_ATTACHMENT0]) := List.getElem?_eq_getElem hidx
  have ha : GL_COLOR_ATTACHMENT0 + (a - GL_COLOR_ATTACHMENT0) = a := by
    simp only [GLenum] at h0 ⊢; omega
  by_cases hz : s.attachedColorIds_[a - GL_COLOR_ATTACHMENT0] = 0
  · refine ⟨{ s with
        drawBuffers_ := s.drawBuffers_ ++ [a]
        attachedColorIds_ := s.attachedColorIds_.set (a - GL_COLOR_ATTACHMENT0) t }, ?_, rfl, ?_⟩
    · simp only [Call.after, performAttachTexture, if_neg hd, if_neg hst, if_neg hds,
        validateAttachmentId_ok s hwf a h0 h1, hfirst, hget, hz, if_true]
    · rw [hz] at hget
      refine consistent_attach_slot s _ hs _ hidx hget t ht ?_ ?_ ?_
      · rfl
      · rfl
      rw [ha]
      exact List.perm_append_singleton _ _
  · refine ⟨s, ?_, rfl, hs⟩
    simp only [Call.after, performAttachTexture, if_neg hd, if_neg hst, if_neg hds,
      validateAttachmentId_ok s hwf a h0 h1, hfirst, hget, hz, if_false]

theorem consistent_detachTexture (s : FrameBufferObject) (hs : Consistent s) (a : GLenum) :
    ∃ s1, (Call.detach a).after s = some s1 ∧
      s1.maxColorattachments_ = s.maxColorattachments_ ∧ Consistent s1 := by
  have hwf := hs.1
  by_cases hd : a = GL_DEPTH_ATTACHMENT
  · refine ⟨{ s with attachedDepthId_ := 0 }, ?_, rfl, consistent_same s _ hs rfl rfl (List.Perm.refl _)⟩
    simp only [Call.after, detachTexture, if_pos hd]
  by_cases hst : a = GL_STENCIL_ATTACHMENT
  · refine ⟨{ s with attachedStencilId_ := 0 }, ?_, rfl,
      consistent_same s _ hs rfl rfl (List.Perm.refl _)⟩
    simp only [Call.after, detachTexture, if_neg hd, if_pos hst]
  by_cases hds : a = GL_DEPTH_STENCIL_ATTACHMENT
  · refine ⟨{ s with attachedDepthId_ := 0, attachedStencilId_ := 0 }, ?_, rfl,
      consistent_same s _ hs rfl rfl (List.Perm.refl _)⟩
    simp only [Call.after, detachTexture, if_neg hd, if_neg hst, if_pos hds]
  by_cases hout : a < GL_COLOR_ATTACHMENT0 ∨
      (GL_COLOR_ATTACHMENT0 : Int) + s.maxColorattachments_ - 1 < a
  · refine ⟨s, ?_, rfl, hs⟩
    simp only [Call.after, detachTexture, if_neg hd, if_neg hst, if_neg hds,
      validateAttachmentId_throws s hwf a hout]
  have h0 : GL_COLOR_ATTACHMENT0 ≤ a := by
    simp only [GLenum] at hout ⊢; omega
  have h1 : (a : Int) ≤ GL_COLOR_ATTACHMENT0 + s.maxColorattachments_ - 1 := by omega
  have ha : GL_COLOR_ATTACHMENT0 + (a - GL_COLOR_ATTACHMENT0) = a := by
    simp only [GLenum] at h0 ⊢; omega
  refine ⟨_, by simp only [Call.after, detachTexture_color s hwf a h0 h1]; rfl, by rfl, ?_⟩
  refine consistent_detach_slot s _ hs (a - GL_COLOR_ATTACHMENT0) ?_ ?_ ?_
  · rfl
  · rfl
  rw [ha]

theorem consistent_after (s : FrameBufferObject) (hs : Consistent s) (c : Call)
    (hc : c.texture ≠ some 0) :
    ∃ s1, c.after s = some s1 ∧
      s1.maxColorattachments_ = s.maxColorattachments_ ∧ Consistent s1 := by
  cases c with
  | attachColor t =>
    exact consistent_performAttachColorTexture s hs t (fun h => hc (by simp [Call.texture, h]))
  | attachColorExplicit t n rear loc =>
    exact consistent_performAttachColorTextureExplicit s hs t
      (fun h => hc (by simp [Call.texture, h])) n rear loc
  | attachTexture a t =>
    exact consistent_performAttachTexture s hs a t (fun h => hc (by simp [Call.texture, h]))
  | detach a => exact consistent_detachTexture s hs a
  | detachAll =>
    refine ⟨{ s with
        attachedDepthId_ := 0
        attachedStencilId_ := 0
        drawBuffers_ := []
        attachedColorIds_ := s.attachedColorIds_.map (fun _ => 0) }, ?_, rfl, ?_⟩
    · simp only [Call.after, detachAllTextures]
    · exact consistent_detachAll s _ hs rfl rfl rfl

theorem consistent_runCalls (cs : List Call) :
    ∀ s : FrameBufferObject, Consistent s → (∀ c ∈ cs, c.texture ≠ some 0) →
      ∃ s1, runCalls s cs = some s1 ∧
        s1.maxColorattachments_ = s.maxColorattachments_ ∧ Consistent s1 := by
  induction cs with
  | nil =>
    intro s hs _
    exact ⟨s, rfl, rfl, hs⟩
  | cons c cs ih =>
    intro s hs hc
    obtain ⟨s1, h1, hm1, hs1⟩ := consistent_after s hs c (hc c (List.mem_cons_self _ _))
    obtain ⟨s2, h2, hm2, hs2⟩ := ih s1 hs1 (fun c1 h => hc c1 (List.mem_cons_of_mem _ h))
    exact ⟨s2, by simp only [runCalls, h1, h2], by rw [hm2, hm1], hs2⟩

/-- C10 (amended): from a freshly constructed object (1 to 16 slots), every
sequence of attach (both color variants and `attachTexture`), detach and
detach-all calls whose texture ids are non-zero is defined, and in the state
it reaches every entry of the draw-buffer list is the attachment id of a
slot, no entry occurs twice, and the attachment id of a slot is in the list
if and only if the slot is non-empty. -/
theorem reachable_consistent (handle ctx : Nat) (maxSlots : Int) (cs : List Call)
    (h1 : 1 ≤ maxSlots) (h16 : maxSlots ≤ 16) (hcs : ∀ c ∈ cs, c.texture ≠ some 0) :
    ∃ s, runCalls (create handle maxSlots ctx) cs = some s ∧
      (s.attachedColorIds_.length : Int) = maxSlots ∧
      (∀ a, s.drawBuffers_.count a ≤ 1) ∧
      (∀ a ∈ s.drawBuffers_, ∃ i, i < s.attachedColorIds_.length ∧
        a = GL_COLOR_ATTACHMENT0 + i) ∧
      (∀ i, i < s.attachedColorIds_.length →
        (GL_COLOR_ATTACHMENT0 + i ∈ s.drawBuffers_ ↔ s.attachedColorIds_[i]? ≠ some 0)) := by
  obtain ⟨s, hrun, hmax, hs⟩ :=
    consistent_runCalls cs _ (consistent_create handle ctx maxSlots h1 h16) hcs
  have hmax : s.maxColorattachments_ = maxSlots := hmax
  obtain ⟨⟨_, _, hw3⟩, hnd, hin, hout⟩ := hs
  refine ⟨s, hrun, by rw [hw3, hmax], ?_, ?_, ?_⟩
  · intro a
    exact List.nodup_iff_count_le_one.1 hnd a
  · intro a ha
    obtain ⟨h0, hlt, _⟩ := hin a ha
    exact ⟨a - GL_COLOR_ATTACHMENT0, hlt, by simp only [GLenum] at h0 ⊢; omega⟩
  · intro i hi
    constructor
    · intro hmem
      have h := (hin _ hmem).2.2
      simp only [Nat.add_sub_cancel_left] at h
      exact h
    · exact hout i hi

/-- Witness for C10: attach, explicit attach at the rear, detach, attach by id
and a rejected detach on a fresh 8-slot object. -/
theorem reachable_consistent_witness :
    ∃ s, runCalls (create 1 8 7)
        [.attachColor 5, .attachColorExplicit 6 0 true 0, .detach 36064,
         .attachTexture 36066 9, .detach 36080] = some s ∧
      (s.attachedColorIds_.length : Int) = 8 ∧
      (∀ a, s.drawBuffers_.count a ≤ 1) ∧
      (∀ a ∈ s.drawBuffers_, ∃ i, i < s.attachedColorIds_.length ∧
        a = GL_COLOR_ATTACHMENT0 + i) ∧
      (∀ i, i < s.attachedColorIds_.length →
        (GL_COLOR_ATTACHMENT0 + i ∈ s.drawBuffers_ ↔ s.attachedColorIds_[i]? ≠ some 0)) :=
  reachable_consistent 1 7 8 _ (by decide) (by decide) (by decide)

/-- Counterexample to C10 as stated: attaching texture 5 twice puts it in the
slots 0 and 1, so a texture id can occupy more than one index; and with the
texture id 0 two attach calls put the id of slot 0 twice into the draw-buffer
list while slot 0 stays empty. -/
theorem texture_in_two_slots :
    runCalls (create 1 8 7) [.attachColor 5, .attachColor 5] =
      some { create 1 8 7 with
        attachedColorIds_ := [5, 5, 0, 0, 0, 0, 0, 0]
        drawBuffers_ := [36064, 36065] } ∧
    runCalls (create 1 8 7) [.attachColor 0, .attachColor 0] =
      some { create 1 8 7 with
        attachedColorIds_ := [0, 0, 0, 0, 0, 0, 0, 0]
        drawBuffers_ := [36064, 36064] } := by
  decide


/-! ## Binding protocol -/

theorem toGLuint_toGLint (n : GLuint) (hn : n < 2 ^ 32) : toGLuint (toGLint n) = n := by
  unfold toGLuint toGLint
  simp only [GLuint] at *
  split <;> omega

theorem toGLint_inj (a b : GLuint) (ha : a < 2 ^ 32) (hb : b < 2 ^ 32) :
    toGLint a = toGLint b ↔ a = b := by
  constructor
  · intro h
    have := congrArg toGLuint h
    rwa [toGLuint_toGLint a ha, toGLuint_toGLint b hb] at this
  · intro h
    rw [h]

theorem activate_unbound (s : FrameBufferObject) (gl : GLContext)
    (hne : toGLint s.id_ ≠ toGLint gl.drawFramebufferBinding)
    (hctx : checkContext s.creationContext_ gl = false) :
    activate s gl =
      .done () { s with prevFbo_ := toGLint gl.drawFramebufferBinding }
        (gl.bindFramebuffer s.id_) := by
  unfold activate
  simp only [hne, ne_eq, not_false_eq_true, if_true, hctx, Bool.false_eq_true, if_false]

theorem activate_bound (s : FrameBufferObject) (gl : GLContext)
    (heq : toGLint s.id_ = toGLint gl.drawFramebufferBinding) :
    activate s gl = .done () s gl := by
  unfold activate
  simp only [heq, ne_eq, not_true_eq_false, if_false]


theorem deactivate_bound (s : FrameBufferObject) (gl : GLContext)
    (hprev : toGLuint s.prevFbo_ ≠ s.id_)
    (heq : toGLint s.id_ = toGLint gl.drawFramebufferBinding)
    (hctx : checkContext s.creationContext_ gl = false) :
    deactivate s gl = .done () s (gl.bindFramebuffer (toGLuint s.prevFbo_)) := by
  unfold deactivate isActive
  simp only [hprev, ne_eq, not_false_eq_true, if_true, hctx, Bool.false_eq_true, if_false, heq,
    decide_True]

theorem deactivate_unbound (s : FrameBufferObject) (gl : GLContext)
    (hne : toGLint s.id_ ≠ toGLint gl.drawFramebufferBinding)
    (hctx : checkContext s.creationContext_ gl = false) :
    deactivate s gl = .done () s gl := by
  unfold deactivate isActive
  by_cases hprev : toGLuint s.prevFbo_ ≠ s.id_
  · simp only [hprev, ne_eq, not_false_eq_true, if_true, hctx, Bool.false_eq_true, if_false, hne,
      decide_False]
  · simp only [hprev, if_false]

/-- C11 (amended): on the creation context (or with assertions compiled out),
`activate()` returns normally with this object bound, and a second
`activate()` changes neither the object nor the OpenGL state.  If the target
`T` bound before the first call is not this object, `prevFbo_` is `T`
afterwards; if this object was already bound, both calls are no-ops and
`prevFbo_` keeps the value it had. -/
theorem activate_idempotent (s : FrameBufferObject) (gl : GLContext)
    (hid : s.id_ < 2 ^ 32) (hT : gl.drawFramebufferBinding < 2 ^ 32)
    (hctx : checkContext s.creationContext_ gl = false) :
    ∃ s1 gl1, activate s gl = .done () s1 gl1 ∧
      activate s1 gl1 = .done () s1 gl1 ∧
      gl1.drawFramebufferBinding = s.id_ ∧
      (gl.drawFramebufferBinding ≠ s.id_ →
        s1.prevFbo_ = toGLint gl.drawFramebufferBinding ∧
        toGLuint s1.prevFbo_ = gl.drawFramebufferBinding) ∧
      (gl.drawFramebufferBinding = s.id_ → s1 = s ∧ gl1 = gl) := by
  by_cases heq : gl.drawFramebufferBinding = s.id_
  · have h1 : toGLint s.id_ = toGLint gl.drawFramebufferBinding := by rw [heq]
    refine ⟨s, gl, activate_bound s gl h1, activate_bound s gl h1, heq, ?_, ?_⟩
    · intro hne; exact absurd heq hne
    · intro _; exact ⟨rfl, rfl⟩
  · have hne : toGLint s.id_ ≠ toGLint gl.drawFramebufferBinding := by
      intro h
      exact heq ((toGLint_inj _ _ hid hT).1 h).symm
    refine ⟨_, _, activate_unbound s gl hne hctx, ?_, rfl, ?_, ?_⟩
    · exact activate_bound _ _ rfl
    · intro _
      exact ⟨rfl, toGLuint_toGLint _ hT⟩
    · intro h; exact absurd h heq

/-- Witness for C11: object 3 activated while framebuffer 5 is bound. -/
theorem activate_idempotent_witness :
    ∃ s1 gl1,
      activate (create 3 8 7)
        { drawFramebufferBinding := 5, readFramebufferBinding := 5, activeContext := 7,
          cfgAssertions := true } = .done () s1 gl1 ∧
      activate s1 gl1 = .done () s1 gl1 ∧
      gl1.drawFramebufferBinding = 3 ∧
      ((5 : GLuint) ≠ 3 → s1.prevFbo_ = toGLint 5 ∧ toGLuint s1.prevFbo_ = 5) ∧
      ((5 : GLuint) = 3 → s1 = create 3 8 7 ∧
        gl1 = GLContext.mk 5 5 7 true) :=
  activate_idempotent (create 3 8 7)
    { drawFramebufferBinding := 5, readFramebufferBinding := 5, activeContext := 7,
      cfgAssertions := true } (by decide) (by decide) (by decide)

/-- Counterexample to C11 as stated: object 3 is activated over the default
framebuffer, so that it is the bound target `T = 3` and `prevFbo_` is 0; two
further `activate()` calls leave `prevFbo_` at 0, not at `T`. -/
theorem activate_keeps_saved_binding_when_bound :
    activate (create 3 8 7)
        { drawFramebufferBinding := 0, readFramebufferBinding := 0, activeContext := 7,
          cfgAssertions := true }
      = .done () { create 3 8 7 with prevFbo_ := 0 }
        { drawFramebufferBinding := 3, readFramebufferBinding := 3, activeContext := 7,
          cfgAssertions := true } ∧
    activate { create 3 8 7 with prevFbo_ := 0 }
        { drawFramebufferBinding := 3, readFramebufferBinding := 3, activeContext := 7,
          cfgAssertions := true }
      = .done () { create 3 8 7 with prevFbo_ := 0 }
        { drawFramebufferBinding := 3, readFramebufferBinding := 3, activeContext := 7,
          cfgAssertions := true } ∧
    ({ create 3 8 7 with prevFbo_ := 0 } : FrameBufferObject).prevFbo_ ≠ toGLint 3 ∧
    toGLuint ({ create 3 8 7 with prevFbo_ := 0 } : FrameBufferObject).prevFbo_ ≠ 3 := by
  decide

/-- C12: on the creation context (or with assertions compiled out),
`deactivate()` returns normally and never changes the object; if this object
is the bound framebuffer, the bound framebuffer afterwards is the saved
binding `prevFbo_` (both binding points are rebound to it); otherwise the
OpenGL state is unchanged.  In particular a freshly constructed, never
activated object that is not bound is left as it is, and so is the binding. -/
theorem deactivate_rebinds_saved (s : FrameBufferObject) (gl : GLContext)
    (hid : s.id_ < 2 ^ 32) (hT : gl.drawFramebufferBinding < 2 ^ 32)
    (hctx : checkContext s.creationContext_ gl = false) :
    (∃ gl1, deactivate s gl = .done () s gl1 ∧
      (gl.drawFramebufferBinding = s.id_ →
        gl1.drawFramebufferBinding = toGLuint s.prevFbo_ ∧
        (toGLuint s.prevFbo_ ≠ s.id_ → gl1 = gl.bindFramebuffer (toGLuint s.prevFbo_))) ∧
      (gl.drawFramebufferBinding ≠ s.id_ → gl1 = gl)) ∧
    (∀ (handle : GLuint) (maxSlots : Int) (ctx : Nat), handle < 2 ^ 32 →
      gl.drawFramebufferBinding ≠ handle → checkContext ctx gl = false →
      deactivate (create handle maxSlots ctx) gl = .done () (create handle maxSlots ctx) gl) := by
  constructor
  · by_cases heq : gl.drawFramebufferBinding = s.id_
    · have h1 : toGLint s.id_ = toGLint gl.drawFramebufferBinding := by rw [heq]
      by_cases hprev : toGLuint s.prevFbo_ ≠ s.id_
      · refine ⟨_, deactivate_bound s gl hprev h1 hctx, ?_, ?_⟩
        · intro _; exact ⟨rfl, fun _ => rfl⟩
        · intro hne; exact absurd heq hne
      · have hp : toGLuint s.prevFbo_ = s.id_ := by simpa using hprev
        refine ⟨gl, ?_, ?_, ?_⟩
        · unfold deactivate
          simp only [hprev, if_false]
        · intro _
          exact ⟨by rw [hp, heq], fun h => absurd hp h⟩
        · intro _; rfl
    · have hne : toGLint s.id_ ≠ toGLint gl.drawFramebufferBinding := by
        intro h
        exact heq ((toGLint_inj _ _ hid hT).1 h).symm
      refine ⟨gl, deactivate_unbound s gl hne hctx, ?_, ?_⟩
      · intro h; exact absurd h heq
      · intro _; rfl
  · intro handle maxSlots ctx hh hne hc
    apply deactivate_unbound _ _ _ hc
    intro h
    exact hne ((toGLint_inj _ _ hh hT).1 h).symm

/-- Witness for C12: object 3 is bound with saved binding 5, and a fresh
object 4 that is not bound. -/
theorem deactivate_rebinds_saved_witness :
    (∃ gl1, deactivate { create 3 8 7 with prevFbo_ := 5 }
        { drawFramebufferBinding := 3, readFramebufferBinding := 3, activeContext := 7,
          cfgAssertions := true } = .done () { create 3 8 7 with prevFbo_ := 5 } gl1 ∧
      gl1.drawFramebufferBinding = 5) ∧
    deactivate (create 4 8 7)
        { drawFramebufferBinding := 3, readFramebufferBinding := 3, activeContext := 7,
          cfgAssertions := true }
      = .done () (create 4 8 7)
        { drawFramebufferBinding := 3, readFramebufferBinding := 3, activeContext := 7,
          cfgAssertions := true } := by
  have h := deactivate_rebinds_saved { create 3 8 7 with prevFbo_ := 5 }
    { drawFramebufferBinding := 3, readFramebufferBinding := 3, activeContext := 7,
      cfgAssertions := true } (by decide) (by decide) (by decide)
  obtain ⟨⟨gl1, h1, h2, _⟩, h3⟩ := h
  exact ⟨⟨gl1, h1, (h2 rfl).1⟩, h3 4 8 7 (by decide) (by decide) (by decide)⟩

/-- C13: on the creation context (or with assertions compiled out), if the
framebuffer `T` bound before the call is not this object, `activate()` binds
this object and the following `deactivate()` leaves `T` bound again, on both
binding points. -/
theorem activate_deactivate_restores (s : FrameBufferObject) (gl : GLContext)
    (hid : s.id_ < 2 ^ 32) (hT : gl.drawFramebufferBinding < 2 ^ 32)
    (hne : gl.drawFramebufferBinding ≠ s.id_)
    (hctx : checkContext s.creationContext_ gl = false) :
    ∃ s1 gl1 gl2, activate s gl = .done () s1 gl1 ∧
      gl1.drawFramebufferBinding = s.id_ ∧
      deactivate s1 gl1 = .done () s1 gl2 ∧
      gl2.drawFramebufferBinding = gl.drawFramebufferBinding ∧
      gl2.readFramebufferBinding = gl.drawFramebufferBinding := by
  have hne1 : toGLint s.id_ ≠ toGLint gl.drawFramebufferBinding := by
    intro h
    exact hne ((toGLint_inj _ _ hid hT).1 h).symm
  have hprev : toGLuint (toGLint gl.drawFramebufferBinding) ≠ s.id_ := by
    rw [toGLuint_toGLint _ hT]; exact hne
  refine ⟨_, _, (gl.bindFramebuffer s.id_).bindFramebuffer
    (toGLuint (toGLint gl.drawFramebufferBinding)), activate_unbound s gl hne1 hctx, rfl, ?_, ?_, ?_⟩
  · exact deactivate_bound _ _ hprev rfl hctx
  · exact toGLuint_toGLint _ hT
  · exact toGLuint_toGLint _ hT

/-- Witness for C13: object 3 activated and deactivated while framebuffer 5
was bound. -/
theorem activate_deactivate_restores_witness :
    ∃ s1 gl1 gl2,
      activate (create 3 8 7)
        { drawFramebufferBinding := 5, readFramebufferBinding := 5, activeContext := 7,
          cfgAssertions := true } = .done () s1 gl1 ∧
      gl1.drawFramebufferBinding = 3 ∧
      deactivate s1 gl1 = .done () s1 gl2 ∧
      gl2.drawFramebufferBinding = 5 ∧
      gl2.readFramebufferBinding = 5 :=
  activate_deactivate_restores (create 3 8 7)
    { drawFramebufferBinding := 5, readFramebufferBinding := 5, activeContext := 7,
      cfgAssertions := true } (by decide) (by decide) (by decide) (by decide)


/-- C14 (defect in the code): evaluation of the blit setters on object 3
(saved combined binding 0) with framebuffer 5 on the read and 7 on the draw
binding point.  `setRead_Blit(true)` saves 5 and binds the read point only,
`setDraw_Blit(true)` saves 7 and binds the draw point only; the following
call with `false` restores neither: the binding point stays on object 3.
When the test in `setRead_Blit(false)` does fire (draw binding equal to the
saved read binding, here 5), the read point is bound to `prevFbo_` = 0, not
to the saved 5. -/
theorem setBlit_false_does_not_restore :
    setRead_Blit { create 3 8 7 with prevFbo_ := 0 } (GLContext.mk 7 5 7 true) true
      = .done () { create 3 8 7 with prevFbo_ := 0, prevReadFbo_ := 5 }
          (GLContext.mk 7 3 7 true) ∧
    setRead_Blit { create 3 8 7 with prevFbo_ := 0, prevReadFbo_ := 5 }
        (GLContext.mk 7 3 7 true) false
      = .done () { create 3 8 7 with prevFbo_ := 0, prevReadFbo_ := 5 }
          (GLContext.mk 7 3 7 true) ∧
    setDraw_Blit { create 3 8 7 with prevFbo_ := 0 } (GLContext.mk 7 5 7 true) true
      = .done () { create 3 8 7 with prevFbo_ := 0, prevDrawFbo_ := 7 }
          (GLContext.mk 3 5 7 true) ∧
    setDraw_Blit { create 3 8 7 with prevFbo_ := 0, prevDrawFbo_ := 7 }
        (GLContext.mk 3 5 7 true) false
      = .done () { create 3 8 7 with prevFbo_ := 0, prevDrawFbo_ := 7 }
          (GLContext.mk 3 5 7 true) ∧
    setRead_Blit { create 3 8 7 with prevFbo_ := 0 } (GLContext.mk 5 5 7 true) true
      = .done () { create 3 8 7 with prevFbo_ := 0, prevReadFbo_ := 5 }
          (GLContext.mk 5 3 7 true) ∧
    setRead_Blit { create 3 8 7 with prevFbo_ := 0, prevReadFbo_ := 5 }
        (GLContext.mk 5 3 7 true) false
      = .done () { create 3 8 7 with prevFbo_ := 0, prevReadFbo_ := 5 }
          (GLContext.mk 5 0 7 true) := by
  decide

/-- C15 (amended): move construction and move assignment (from a different
object) give the destination every member of the source: handle, slot table,
draw-buffer order, depth and stencil ids, number of slots, saved bindings and
creation context.  The source is left with handle 0, saved bindings 0, an
empty slot table and an empty draw-buffer order; its depth and stencil ids
and its number of slots are not reset. -/
theorem move_transfers (_this rhs : FrameBufferObject) :
    (moveConstruct rhs).1 = rhs ∧
    (moveAssign _this rhs).1 = rhs ∧
    (moveConstruct rhs).2 = (moveAssign _this rhs).2 ∧
    (moveConstruct rhs).2.id_ = 0 ∧
    (moveConstruct rhs).2.attachedColorIds_ = [] ∧
    (moveConstruct rhs).2.drawBuffers_ = [] ∧
    (moveConstruct rhs).2.prevFbo_ = 0 ∧
    (moveConstruct rhs).2.prevDrawFbo_ = 0 ∧
    (moveConstruct rhs).2.prevReadFbo_ = 0 ∧
    (moveConstruct rhs).2.attachedDepthId_ = rhs.attachedDepthId_ ∧
    (moveConstruct rhs).2.attachedStencilId_ = rhs.attachedStencilId_ ∧
    (moveConstruct rhs).2.maxColorattachments_ = rhs.maxColorattachments_ :=
  ⟨rfl, rfl, rfl, rfl, rfl, rfl, rfl, rfl, rfl, rfl, rfl, rfl⟩

/-- Counterexample to C15 as stated: after moving from an object with depth
texture 30 and stencil texture 31, the source still records both, so
`hasDepthAttachment()` and `hasStencilAttachment()` of the source are true. -/
theorem moved_from_keeps_depth_and_stencil :
    (moveConstruct { create 3 8 7 with attachedDepthId_ := 30, attachedStencilId_ := 31 }).2
      = { create 0 8 7 with
          attachedDepthId_ := 30, attachedStencilId_ := 31, attachedColorIds_ := [] } ∧
    hasDepthAttachment
      (moveConstruct
        { create 3 8 7 with attachedDepthId_ := 30, attachedStencilId_ := 31 }).2 = true ∧
    hasStencilAttachment
      (moveAssign (create 4 8 7)
        { create 3 8 7 with attachedDepthId_ := 30, attachedStencilId_ := 31 }).2 = true := by
  decide


/-! ## ImageGL -/

theorem bind_ok_nil {α β : Type} (v : α) (img : ImageGL) (gl : GLContext)
    (f : α → ImageGL → GLContext → ImageOutcome β) :
    (ImageOutcome.ok v img gl []).bind f = f v img gl := by
  unfold ImageOutcome.bind
  cases h : f v img gl <;> simp [h]

theorem textureId_of_ne_zero (layer : LayerGL) (h : layer.textureId ≠ 0) :
    ∃ texture, layer.texture = some texture ∧ texture.id = layer.textureId := by
  unfold LayerGL.textureId at h ⊢
  cases ht : layer.texture with
  | none => simp [ht] at h
  | some t => exact ⟨t, rfl, rfl⟩

theorem ivwAssertActive_congr (s s1 : FrameBufferObject) (gl : GLContext)
    (hid : s1.id_ = s.id_) (hctx : s1.creationContext_ = s.creationContext_) :
    ivwAssertActive s1 gl = ivwAssertActive s gl := by
  unfold ivwAssertActive isActive
  rw [hid, hctx]
  by_cases h : checkContext s.creationContext_ gl = true
  · simp [h]
  · simp [h]

theorem ivwAssertActive_of_bound (s : FrameBufferObject) (gl : GLContext)
    (hctx : checkContext s.creationContext_ gl = false)
    (heq : toGLint s.id_ = toGLint gl.drawFramebufferBinding) :
    ivwAssertActive s gl = false := by
  unfold ivwAssertActive isActive
  rw [if_neg (by simp [hctx])]
  simp [heq]

theorem activate_active (s : FrameBufferObject) (gl : GLContext)
    (hctx : checkContext s.creationContext_ gl = false) :
    ∃ prev gl1, activate s gl = .done () { s with prevFbo_ := prev } gl1 ∧
      ivwAssertActive { s with prevFbo_ := prev } gl1 = false ∧
      checkContext s.creationContext_ gl1 = false := by
  by_cases heq : toGLint s.id_ = toGLint gl.drawFramebufferBinding
  · exact ⟨s.prevFbo_, gl, activate_bound s gl heq, ivwAssertActive_of_bound _ _ hctx heq, hctx⟩
  · exact ⟨_, _, activate_unbound s gl heq hctx, ivwAssertActive_of_bound _ _ hctx rfl, hctx⟩

theorem deactivate_done (s : FrameBufferObject) (gl : GLContext)
    (hctx : checkContext s.creationContext_ gl = false) :
    ∃ gl1, deactivate s gl = .done () s gl1 := by
  unfold deactivate isActive
  by_cases hprev : toGLuint s.prevFbo_ ≠ s.id_
  · simp only [hprev, ne_eq, not_false_eq_true, if_true, hctx, Bool.false_eq_true, if_false]
    split
    · exact ⟨_, rfl⟩
    · exact ⟨_, rfl⟩
  · simp only [hprev, if_false]
    exact ⟨_, rfl⟩


theorem withActive_ok {α : Type} (s : FrameBufferObject) (gl : GLContext) (body : Outcome α)
    (hact : ivwAssertActive s gl = false) (v : α) (s1 : FrameBufferObject)
    (hbody : body = .ok v s1) :
    withActive s gl body = .ok v s1 := by
  unfold withActive
  rw [hact, hbody]
  simp

theorem attachColorLayers_append (gl : GLContext) (layers : List LayerGL) :
    ∀ (fbo : FrameBufferObject) (pre : List GLuint) (m : Nat),
      fbo.attachedColorIds_ = pre ++ List.replicate m 0 → (∀ x ∈ pre, x ≠ 0) →
      (∀ layer ∈ layers, layer.textureId ≠ 0) → layers.length ≤ m →
      ivwAssertActive fbo gl = false →
      ImageGL.attachColorLayers fbo gl layers =
        .ok ()
          { fbo with
            drawBuffers_ := fbo.drawBuffers_ ++ (List.range' pre.length layers.length).map
              (fun k => (GL_COLOR_ATTACHMENT0 + k) % 2 ^ 32)
            attachedColorIds_ :=
              pre ++ layers.map LayerGL.textureId ++ List.replicate (m - layers.length) 0 } := by
  induction layers with
  | nil =>
    intro fbo pre m hs _ _ _ _
    simp [ImageGL.attachColorLayers, ← hs]
  | cons layer layers ih =>
    intro fbo pre m hs hpre hts hlen hact
    obtain ⟨m1, rfl⟩ : ∃ m1, m = m1 + 1 := ⟨m - 1, by simp at hlen; omega⟩
    have hs1 : fbo.attachedColorIds_ = pre ++ 0 :: List.replicate m1 0 := by
      rw [hs, List.replicate_succ]
    have ht : layer.textureId ≠ 0 := hts layer (List.mem_cons_self _ _)
    obtain ⟨texture, htex, hid⟩ := textureId_of_ne_zero layer ht
    have hts1 : ∀ x ∈ layers, x.textureId ≠ 0 := fun x hx => hts x (List.mem_cons_of_mem _ hx)
    have hpre1 : ∀ x ∈ pre ++ [layer.textureId], x ≠ 0 := by
      intro x hx
      rcases List.mem_append.1 hx with h | h
      · exact hpre x h
      · simp at h; rw [h]; exact ht
    have hlen1 : layers.length ≤ m1 := by simp at hlen; omega
    have hstep := performAttachColorTexture_append fbo texture.id pre _ hs1 hpre
    have hact1 : ivwAssertActive
        { fbo with
          drawBuffers_ := fbo.drawBuffers_ ++ [(GL_COLOR_ATTACHMENT0 + pre.length) % 2 ^ 32]
          attachedColorIds_ := pre ++ texture.id :: List.replicate m1 0 } gl = false := by
      exact (ivwAssertActive_congr fbo _ gl (by rfl) (by rfl)).trans hact
    rw [ImageGL.attachColorLayers, htex]
    simp only [attachColorTexture]
    rw [withActive_ok fbo gl _ hact _ _ hstep]
    simp only
    rw [ih _ (pre ++ [layer.textureId]) m1 (by simp [hid]) hpre1 hts1 hlen1 hact1]
    simp [List.range'_succ, List.append_assoc, hid]

theorem map_zero_eq_replicate (l : List GLuint) :
    l.map (fun _ => (0 : GLuint)) = List.replicate l.length 0 := by
  induction l with
  | nil => rfl
  | cons x xs ih => simp [List.replicate_succ, ih]


theorem attachAllLayers_detach_colors (img : ImageGL) (gl : GLContext) (forcedLocation : Int)
    (hwf : WellFormed img.frameBufferObject_)
    (hact : ivwAssertActive img.frameBufferObject_ gl = false)
    (hcol : ∀ layer ∈ img.colorLayersGL_, layer.textureId ≠ 0)
    (hfit : img.colorLayersGL_.length ≤ img.frameBufferObject_.attachedColorIds_.length) :
    ImageGL.attachAllLayers img gl forcedLocation =
      (ImageGL.attachDepthLayer
        { img with
          pickingAttachmentID_ := 0
          frameBufferObject_ :=
            { img.frameBufferObject_ with
              attachedDepthId_ := 0
              attachedStencilId_ := 0
              drawBuffers_ :=
                (List.range img.colorLayersGL_.length).map (fun k => GL_COLOR_ATTACHMENT0 + k)
              attachedColorIds_ :=
                img.colorLayersGL_.map LayerGL.textureId ++
                  List.replicate
                    (img.frameBufferObject_.attachedColorIds_.length - img.colorLayersGL_.length)
                    0 } } gl).bind
        fun _ img gl => ImageGL.attachPickingLayer img gl forcedLocation := by
  have hN : img.frameBufferObject_.attachedColorIds_.length ≤ 16 := by
    obtain ⟨_, h2, h3⟩ := hwf
    omega
  have h1 : ImageGL.liftFbo img gl
      (img.frameBufferObject_.withActive gl img.frameBufferObject_.detachAllTextures) =
      .ok ([GLCall.framebufferTexture GL_DEPTH_ATTACHMENT 0,
            GLCall.framebufferTexture GL_STENCIL_ATTACHMENT 0]
            ++ img.frameBufferObject_.drawBuffers_.map
              (fun buffer => GLCall.framebufferTexture buffer 0))
        { img with
          frameBufferObject_ :=
            { img.frameBufferObject_ with
              attachedDepthId_ := 0
              attachedStencilId_ := 0
              drawBuffers_ := []
              attachedColorIds_ := img.frameBufferObject_.attachedColorIds_.map (fun _ => 0) } }
        gl [] := by
    rw [withActive_ok _ gl img.frameBufferObject_.detachAllTextures hact _ _ rfl]
    rfl
  have hact1 : ivwAssertActive
      { img.frameBufferObject_ with
        attachedDepthId_ := 0
        attachedStencilId_ := 0
        drawBuffers_ := []
        attachedColorIds_ := img.frameBufferObject_.attachedColorIds_.map (fun _ => 0) } gl
        = false :=
    (ivwAssertActive_congr img.frameBufferObject_ _ gl (by rfl) (by rfl)).trans hact
  have h2 := attachColorLayers_append gl img.colorLayersGL_
    { img.frameBufferObject_ with
      attachedDepthId_ := 0
      attachedStencilId_ := 0
      drawBuffers_ := []
      attachedColorIds_ := img.frameBufferObject_.attachedColorIds_.map (fun _ => 0) }
    [] img.frameBufferObject_.attachedColorIds_.length
    (by simp [map_zero_eq_replicate]) (by simp) hcol hfit hact1
  unfold ImageGL.attachAllLayers
  rw [h1, bind_ok_nil]
  simp only []
  rw [h2]
  simp only [ImageGL.liftFbo, bind_ok_nil, List.length_nil, List.nil_append,
    colorIds_eq _ (Nat.le_trans hfit (Nat.le_trans hN (by decide)))]


theorem attachDepthLayer_none (img : ImageGL) (gl : GLContext)
    (hd : img.depthLayerGL_ = none) :
    ImageGL.attachDepthLayer img gl = .ok () img gl [] := by
  unfold ImageGL.attachDepthLayer
  rw [hd]

theorem attachDepthLayer_some (img : ImageGL) (gl : GLContext)
    (hact : ivwAssertActive img.frameBufferObject_ gl = false)
    (d : LayerGL) (hd : img.depthLayerGL_ = some d) (hne : d.texture ≠ none) :
    ImageGL.attachDepthLayer img gl =
      .ok ()
        { img with
          frameBufferObject_ :=
            { img.frameBufferObject_ with attachedDepthId_ := d.textureId } } gl [] := by
  obtain ⟨texture, ht⟩ := Option.ne_none_iff_exists'.1 hne
  have hid : d.textureId = texture.id := by simp [LayerGL.textureId, ht]
  have hbody : img.frameBufferObject_.performAttachTexture GL_DEPTH_ATTACHMENT texture.id =
      .ok () { img.frameBufferObject_ with attachedDepthId_ := texture.id } := by
    unfold performAttachTexture
    rw [if_pos rfl]
  have hres := withActive_ok _ gl _ hact _ _ hbody
  unfold ImageGL.attachDepthLayer
  rw [hd]
  simp only [ht, attachTexture, hres, ImageGL.liftFbo, hid]
  rw [hd]

theorem attachPickingLayer_none (img : ImageGL) (gl : GLContext) (forcedLocation : Int)
    (hp : img.pickingLayerGL_ = none) :
    ImageGL.attachPickingLayer img gl forcedLocation = .ok () img gl [] := by
  unfold ImageGL.attachPickingLayer
  rw [hp]

theorem attachPickingLayer_some (img : ImageGL) (gl : GLContext) (forcedLocation : Int)
    (p : LayerGL) (hp : img.pickingLayerGL_ = some p) (hpt : p.textureId ≠ 0)
    (hact : ivwAssertActive img.frameBufferObject_ gl = false)
    (hwf : WellFormed img.frameBufferObject_)
    (hfull : (img.frameBufferObject_.drawBuffers_.length : Int) ≠
      img.frameBufferObject_.maxColorattachments_)
    (hslot : img.frameBufferObject_.attachedColorIds_[slotIndex img.frameBufferObject_ 0 true]?
      = some 0) :
    ImageGL.attachPickingLayer img gl forcedLocation =
      .ok ()
        { img with
          pickingAttachmentID_ := GL_COLOR_ATTACHMENT0 + slotIndex img.frameBufferObject_ 0 true
          frameBufferObject_ :=
            { img.frameBufferObject_ with
              attachedColorIds_ := img.frameBufferObject_.attachedColorIds_.set
                (slotIndex img.frameBufferObject_ 0 true) p.textureId
              drawBuffers_ :=
                if forcedLocation < 0 ∨
                    forcedLocation > (img.frameBufferObject_.drawBuffers_.length : Int) then
                  img.frameBufferObject_.drawBuffers_ ++
                    [GL_COLOR_ATTACHMENT0 + slotIndex img.frameBufferObject_ 0 true]
                else
                  vectorInsert img.frameBufferObject_.drawBuffers_ forcedLocation.toNat
                    (GL_COLOR_ATTACHMENT0 + slotIndex img.frameBufferObject_ 0 true) } }
        gl [] := by
  obtain ⟨texture, htex, hid⟩ := textureId_of_ne_zero p hpt
  have hmax : (0 : Int) ≤ img.frameBufferObject_.maxColorattachments_ - 1 := by
    obtain ⟨h1, _, _⟩ := hwf
    omega
  have hnew := explicit_new img.frameBufferObject_ hwf texture.id 0 true forcedLocation hfull
    (le_refl 0) hmax hslot
  have hres := withActive_ok _ gl _ hact _ _ hnew
  rw [hid] at hres
  unfold ImageGL.attachPickingLayer
  rw [hp]
  simp only [htex, attachColorTextureExplicit, hid, hres]


theorem attachAllLayers_ok (img : ImageGL) (gl : GLContext) (forcedLocation : Int)
    (hok : ImageGL.Attachable img gl)
    (hact : ivwAssertActive img.frameBufferObject_ gl = false) :
    ∃ F P, ImageGL.attachAllLayers img gl forcedLocation =
        .ok () { img with frameBufferObject_ := F, pickingAttachmentID_ := P } gl [] ∧
      F.id_ = img.frameBufferObject_.id_ ∧
      F.creationContext_ = img.frameBufferObject_.creationContext_ ∧
      F.prevFbo_ = img.frameBufferObject_.prevFbo_ ∧
      F.maxColorattachments_ = img.frameBufferObject_.maxColorattachments_ ∧
      F.attachedStencilId_ = 0 ∧
      (img.depthLayerGL_ = none → F.attachedDepthId_ = 0) ∧
      (∀ d, img.depthLayerGL_ = some d → F.attachedDepthId_ = d.textureId) ∧
      (img.pickingLayerGL_ = none → P = 0 ∧
        F.attachedColorIds_ = img.colorLayersGL_.map LayerGL.textureId ++
          List.replicate
            (img.frameBufferObject_.attachedColorIds_.length - img.colorLayersGL_.length) 0 ∧
        F.drawBuffers_ =
          (List.range img.colorLayersGL_.length).map (fun k => GL_COLOR_ATTACHMENT0 + k)) ∧
      (∀ p, img.pickingLayerGL_ = some p →
        P = GL_COLOR_ATTACHMENT0 + (img.frameBufferObject_.attachedColorIds_.length - 1) ∧
        F.attachedColorIds_ =
          (img.colorLayersGL_.map LayerGL.textureId ++
            List.replicate
              (img.frameBufferObject_.attachedColorIds_.length - img.colorLayersGL_.length)
              0).set (img.frameBufferObject_.attachedColorIds_.length - 1) p.textureId ∧
        F.drawBuffers_ =
          if forcedLocation < 0 ∨ forcedLocation > (img.colorLayersGL_.length : Int) then
            (List.range img.colorLayersGL_.length).map (fun k => GL_COLOR_ATTACHMENT0 + k) ++
              [GL_COLOR_ATTACHMENT0 + (img.frameBufferObject_.attachedColorIds_.length - 1)]
          else
            vectorInsert
              ((List.range img.colorLayersGL_.length).map (fun k => GL_COLOR_ATTACHMENT0 + k))
              forcedLocation.toNat
              (GL_COLOR_ATTACHMENT0 + (img.frameBufferObject_.attachedColorIds_.length - 1))) := by
  obtain ⟨hwf, _, hcol, hdep, hpick, hfit⟩ := hok
  obtain ⟨hw1, hw2, hw3⟩ := hwf
  have hfitN : img.colorLayersGL_.length ≤ img.frameBufferObject_.attachedColorIds_.length := by
    split at hfit <;> omega
  rw [attachAllLayers_detach_colors img gl forcedLocation ⟨hw1, hw2, hw3⟩ hact hcol hfitN]
  -- the object after the color layers
  have hactC : ∀ (dep : GLuint), ivwAssertActive
      { img.frameBufferObject_ with
        attachedDepthId_ := dep
        attachedStencilId_ := 0
        drawBuffers_ :=
          (List.range img.colorLayersGL_.length).map (fun k => GL_COLOR_ATTACHMENT0 + k)
        attachedColorIds_ :=
          img.colorLayersGL_.map LayerGL.textureId ++
            List.replicate
              (img.frameBufferObject_.attachedColorIds_.length - img.colorLayersGL_.length)
              0 } gl = false :=
    fun dep => (ivwAssertActive_congr img.frameBufferObject_ _ gl (by rfl) (by rfl)).trans hact
  have hwfC : ∀ (dep : GLuint), WellFormed
      { img.frameBufferObject_ with
        attachedDepthId_ := dep
        attachedStencilId_ := 0
        drawBuffers_ :=
          (List.range img.colorLayersGL_.length).map (fun k => GL_COLOR_ATTACHMENT0 + k)
        attachedColorIds_ :=
          img.colorLayersGL_.map LayerGL.textureId ++
            List.replicate
              (img.frameBufferObject_.attachedColorIds_.length - img.colorLayersGL_.length)
              0 } := by
    intro dep
    refine ⟨hw1, hw2, ?_⟩
    simp only [List.length_append, List.length_map, List.length_replicate]
    omega
  have hidx : ∀ (dep : GLuint), slotIndex
      { img.frameBufferObject_ with
        attachedDepthId_ := dep
        attachedStencilId_ := 0
        drawBuffers_ :=
          (List.range img.colorLayersGL_.length).map (fun k => GL_COLOR_ATTACHMENT0 + k)
        attachedColorIds_ :=
          img.colorLayersGL_.map LayerGL.textureId ++
            List.replicate
              (img.frameBufferObject_.attachedColorIds_.length - img.colorLayersGL_.length)
              0 } 0 true = img.frameBufferObject_.attachedColorIds_.length - 1 := by
    intro dep
    simp only [slotIndex, if_true]
    omega
  rcases Option.eq_none_or_eq_some img.depthLayerGL_ with hd | ⟨d, hd⟩
  · rw [attachDepthLayer_none _ gl (by exact hd), bind_ok_nil]
    rcases Option.eq_none_or_eq_some img.pickingLayerGL_ with hp | ⟨p, hp⟩
    · rw [attachPickingLayer_none _ gl forcedLocation (by exact hp)]
      refine ⟨_, _, rfl, rfl, rfl, rfl, rfl, rfl, fun _ => rfl, ?_, fun _ => ⟨rfl, rfl, rfl⟩, ?_⟩
      · intro d hd1; rw [hd] at hd1; cases hd1
      · intro p hp1; rw [hp] at hp1; cases hp1
    · have hfit1 : (img.colorLayersGL_.length : Int) + 1 ≤
          img.frameBufferObject_.maxColorattachments_ := by simpa [hp] using hfit
      rw [attachPickingLayer_some _ gl forcedLocation p (by exact hp) (hpick p hp)
        (by exact hactC 0) (by exact hwfC 0)
        (by simp only [List.length_map, List.length_range]; omega)
        (by
          rw [hidx 0]
          simp only
          rw [List.getElem?_append_right (by simp only [List.length_map]; omega)]
          simp only [List.length_map, List.getElem?_replicate]
          rw [if_pos (by omega)])]
      refine ⟨_, _, rfl, rfl, rfl, rfl, rfl, rfl, fun _ => rfl, ?_, ?_, ?_⟩
      · intro d hd1; rw [hd] at hd1; cases hd1
      · intro hp1; rw [hp] at hp1; cases hp1
      · intro p1 hp1
        rw [hp] at hp1
        cases hp1
        simp only [hidx 0, List.length_map, List.length_range]
        exact ⟨trivial, trivial, trivial⟩
  · rw [attachDepthLayer_some _ gl (by exact hactC 0) d (by exact hd) (hdep d hd), bind_ok_nil]
    rcases Option.eq_none_or_eq_some img.pickingLayerGL_ with hp | ⟨p, hp⟩
    · rw [attachPickingLayer_none _ gl forcedLocation (by exact hp)]
      refine ⟨_, _, rfl, rfl, rfl, rfl, rfl, rfl, ?_, ?_, fun _ => ⟨rfl, rfl, rfl⟩, ?_⟩
      · intro hd1; rw [hd] at hd1; cases hd1
      · intro d1 hd1; rw [hd] at hd1; cases hd1; rfl
      · intro p hp1; rw [hp] at hp1; cases hp1
    · have hfit1 : (img.colorLayersGL_.length : Int) + 1 ≤
          img.frameBufferObject_.maxColorattachments_ := by simpa [hp] using hfit
      rw [attachPickingLayer_some _ gl forcedLocation p (by exact hp) (hpick p hp)
        (by exact hactC d.textureId) (by exact hwfC d.textureId)
        (by simp only [List.length_map, List.length_range]; omega)
        (by
          rw [hidx d.textureId]
          simp only
          rw [List.getElem?_append_right (by simp only [List.length_map]; omega)]
          simp only [List.length_map, List.getElem?_replicate]
          rw [if_pos (by omega)])]
      refine ⟨_, _, rfl, rfl, rfl, rfl, rfl, rfl, ?_, ?_, ?_, ?_⟩
      · intro hd1; rw [hd] at hd1; cases hd1
      · intro d1 hd1; rw [hd] at hd1; cases hd1; rfl
      · intro hp1; rw [hp] at hp1; cases hp1
      · intro p1 hp1
        rw [hp] at hp1
        cases hp1
        simp only [hidx d.textureId, List.length_map, List.length_range]
        exact ⟨trivial, trivial, trivial⟩


theorem reAttachAllLayers_ok (img : ImageGL) (gl : GLContext) (clearLayers : Bool)
    (forcedLocation : Int) (hok : ImageGL.Attachable img gl) :
    ∃ F P gl1, ImageGL.reAttachAllLayers img gl clearLayers forcedLocation =
        .ok () { img with frameBufferObject_ := F, pickingAttachmentID_ := P } gl1 [] ∧
      F.maxColorattachments_ = img.frameBufferObject_.maxColorattachments_ ∧
      F.attachedStencilId_ = 0 ∧
      (img.depthLayerGL_ = none → F.attachedDepthId_ = 0) ∧
      (∀ d, img.depthLayerGL_ = some d → F.attachedDepthId_ = d.textureId) ∧
      (img.pickingLayerGL_ = none → P = 0 ∧
        F.attachedColorIds_ = img.colorLayersGL_.map LayerGL.textureId ++
          List.replicate
            (img.frameBufferObject_.attachedColorIds_.length - img.colorLayersGL_.length) 0 ∧
        F.drawBuffers_ =
          (List.range img.colorLayersGL_.length).map (fun k => GL_COLOR_ATTACHMENT0 + k)) ∧
      (∀ p, img.pickingLayerGL_ = some p →
        P = GL_COLOR_ATTACHMENT0 + (img.frameBufferObject_.attachedColorIds_.length - 1) ∧
        F.attachedColorIds_ =
          (img.colorLayersGL_.map LayerGL.textureId ++
            List.replicate
              (img.frameBufferObject_.attachedColorIds_.length - img.colorLayersGL_.length)
              0).set (img.frameBufferObject_.attachedColorIds_.length - 1) p.textureId ∧
        F.drawBuffers_ =
          if forcedLocation < 0 ∨ forcedLocation > (img.colorLayersGL_.length : Int) then
            (List.range img.colorLayersGL_.length).map (fun k => GL_COLOR_ATTACHMENT0 + k) ++
              [GL_COLOR_ATTACHMENT0 + (img.frameBufferObject_.attachedColorIds_.length - 1)]
          else
            vectorInsert
              ((List.range img.colorLayersGL_.length).map (fun k => GL_COLOR_ATTACHMENT0 + k))
              forcedLocation.toNat
              (GL_COLOR_ATTACHMENT0 + (img.frameBufferObject_.attachedColorIds_.length - 1))) := by
  obtain ⟨hwf, hctx, hcol, hdep, hpick, hfit⟩ := hok
  obtain ⟨prev, glA, hact, hactive, hctxA⟩ := activate_active img.frameBufferObject_ gl hctx
  have hokA : ImageGL.Attachable
      { img with frameBufferObject_ := { img.frameBufferObject_ with prevFbo_ := prev } } glA :=
    ⟨hwf, hctxA, hcol, hdep, hpick, hfit⟩
  obtain ⟨F, P, hatt, hid, hcc, _, hmax, hst, hd0, hd1, hp0, hp1⟩ :=
    attachAllLayers_ok _ glA forcedLocation hokA hactive
  have hctxF : checkContext F.creationContext_ glA = false := by
    rw [hcc]; exact hctxA
  obtain ⟨gl1, hde⟩ := deactivate_done F glA hctxF
  refine ⟨F, P, gl1, ?_, hmax, hst, hd0, hd1, hp0, hp1⟩
  unfold ImageGL.reAttachAllLayers
  rw [hact]
  simp only [ImageGL.liftChecked, bind_ok_nil]
  rw [hatt, bind_ok_nil]
  simp only [hde, ImageGL.liftChecked]


theorem eraseRemove_of_not_mem (l : List GLenum) (a : GLenum) (h : a ∉ l) :
    eraseRemove l a = l := by
  unfold eraseRemove
  rw [List.filter_eq_self]
  intro b hb
  have : b ≠ a := fun e => h (e ▸ hb)
  simpa using this

theorem colorId_not_mem_colorIds (n k : Nat) (hk : n ≤ k) :
    GL_COLOR_ATTACHMENT0 + k ∉ (List.range n).map (fun i => GL_COLOR_ATTACHMENT0 + i) := by
  intro h
  simp only [List.mem_map, List.mem_range] at h
  obtain ⟨i, hi, he⟩ := h
  simp only [GLenum] at he
  omega

theorem zero_not_mem_colorIds (n : Nat) :
    (0 : GLenum) ∉ (List.range n).map (fun i => GL_COLOR_ATTACHMENT0 + i) := by
  intro h
  simp only [List.mem_map, List.mem_range] at h
  obtain ⟨i, _, he⟩ := h
  simp only [GL_COLOR_ATTACHMENT0, GLenum] at he
  omega

/-- C18: when the layers have textures (non-zero ids for color and picking),
fit into the color slots and the object is used on its creation context,
`reAttachAllLayers` returns normally, whatever was attached before, and
afterwards color layer `i` occupies color slot `i`, the color attachment ids
appear in the draw-buffer list in layer order, the depth slot holds the depth
layer's texture or is empty without a depth layer, the stencil slot is empty,
the picking layer (if any) occupies the last color slot, beyond the color
layers, and that slot's id is stored in `pickingAttachmentID_` (0 without a
picking layer); every other color slot is empty. -/
theorem reAttachAllLayers_attachments (img : ImageGL) (gl : GLContext) (clearLayers : Bool)
    (forcedLocation : Int) (hok : ImageGL.Attachable img gl) :
    ∃ img1 gl1, ImageGL.reAttachAllLayers img gl clearLayers forcedLocation =
        .ok () img1 gl1 [] ∧
      img1.colorLayersGL_ = img.colorLayersGL_ ∧
      img1.depthLayerGL_ = img.depthLayerGL_ ∧
      img1.pickingLayerGL_ = img.pickingLayerGL_ ∧
      img1.frameBufferObject_.attachedColorIds_.length =
        img.frameBufferObject_.attachedColorIds_.length ∧
      (∀ (i : Nat) (layer : LayerGL), img.colorLayersGL_[i]? = some layer →
        img1.frameBufferObject_.attachedColorIds_[i]? = some layer.textureId) ∧
      eraseRemove img1.frameBufferObject_.drawBuffers_ img1.pickingAttachmentID_ =
        (List.range img.colorLayersGL_.length).map (fun k => GL_COLOR_ATTACHMENT0 + k) ∧
      (forcedLocation < 0 → img1.frameBufferObject_.drawBuffers_ =
        (List.range img.colorLayersGL_.length).map (fun k => GL_COLOR_ATTACHMENT0 + k) ++
          (if img.pickingLayerGL_.isSome then [img1.pickingAttachmentID_] else [])) ∧
      (img.depthLayerGL_ = none → img1.frameBufferObject_.attachedDepthId_ = 0) ∧
      (∀ d, img.depthLayerGL_ = some d →
        img1.frameBufferObject_.attachedDepthId_ = d.textureId) ∧
      img1.frameBufferObject_.attachedStencilId_ = 0 ∧
      (img.pickingLayerGL_ = none → img1.pickingAttachmentID_ = 0 ∧
        ∀ j, img.colorLayersGL_.length ≤ j →
          j < img1.frameBufferObject_.attachedColorIds_.length →
          img1.frameBufferObject_.attachedColorIds_[j]? = some 0) ∧
      (∀ p, img.pickingLayerGL_ = some p →
        img.colorLayersGL_.length ≤ img.frameBufferObject_.attachedColorIds_.length - 1 ∧
        img1.pickingAttachmentID_ =
          GL_COLOR_ATTACHMENT0 + (img.frameBufferObject_.attachedColorIds_.length - 1) ∧
        img1.pickingAttachmentID_ ∈ img1.frameBufferObject_.drawBuffers_ ∧
        img1.frameBufferObject_.attachedColorIds_[
          img.frameBufferObject_.attachedColorIds_.length - 1]? = some p.textureId ∧
        ∀ j, img.colorLayersGL_.length ≤ j →
          j < img.frameBufferObject_.attachedColorIds_.length - 1 →
          img1.frameBufferObject_.attachedColorIds_[j]? = some 0) := by
  obtain ⟨F, P, gl1, hres, hmax, hst, hd0, hd1, hp0, hp1⟩ :=
    reAttachAllLayers_ok img gl clearLayers forcedLocation hok
  obtain ⟨⟨hw1, hw2, hw3⟩, _, _, _, _, hfit⟩ := hok
  have hcol : ∀ (i : Nat) (layer : LayerGL), img.colorLayersGL_[i]? = some layer →
      (img.colorLayersGL_.map LayerGL.textureId ++
        List.replicate
          (img.frameBufferObject_.attachedColorIds_.length - img.colorLayersGL_.length)
          0)[i]? = some layer.textureId := by
    intro i layer hl
    have hi : i < img.colorLayersGL_.length := by
      rcases Nat.lt_or_ge i img.colorLayersGL_.length with h | h
      · exact h
      · rw [List.getElem?_eq_none h] at hl; cases hl
    rw [List.getElem?_append_left (by simpa using hi)]
    simp [List.getElem?_map, hl]
  have hrest : ∀ j, img.colorLayersGL_.length ≤ j →
      j < img.frameBufferObject_.attachedColorIds_.length →
      (img.colorLayersGL_.map LayerGL.textureId ++
        List.replicate
          (img.frameBufferObject_.attachedColorIds_.length - img.colorLayersGL_.length)
          0)[j]? = some 0 := by
    intro j hj hjN
    rw [List.getElem?_append_right (by simpa using hj)]
    simp only [List.length_map, List.getElem?_replicate]
    rw [if_pos (by omega)]
  refine ⟨_, gl1, hres, rfl, rfl, rfl, ?_⟩
  rcases Option.eq_none_or_eq_some img.pickingLayerGL_ with hp | ⟨p, hp⟩
  · obtain ⟨hP, hS, hD⟩ := hp0 hp
    have hfitN : img.colorLayersGL_.length ≤ img.frameBufferObject_.attachedColorIds_.length := by
      simp only [hp, Option.isSome_none, Bool.false_eq_true, if_false] at hfit
      omega
    refine ⟨?_, ?_, ?_, ?_, hd0, hd1, hst, ?_, ?_⟩
    · show F.attachedColorIds_.length = _
      rw [hS]
      simp only [List.length_append, List.length_map, List.length_replicate]
      omega
    · intro i layer hl
      show F.attachedColorIds_[i]? = _
      rw [hS]
      exact hcol i layer hl
    · show eraseRemove F.drawBuffers_ P = _
      rw [hD, hP]
      exact eraseRemove_of_not_mem _ _ (zero_not_mem_colorIds _)
    · intro _
      show F.drawBuffers_ = _
      rw [hD, hp]
      simp
    · intro _
      refine ⟨hP, ?_⟩
      intro j hj hjN
      show F.attachedColorIds_[j]? = _
      have hlen : F.attachedColorIds_.length = img.frameBufferObject_.attachedColorIds_.length := by
        rw [hS]
        simp only [List.length_append, List.length_map, List.length_replicate]
        omega
      have hjN1 : j < F.attachedColorIds_.length := hjN
      rw [hS]
      exact hrest j hj (by omega)
    · intro p hp1; rw [hp] at hp1; cases hp1
  · obtain ⟨hP, hS, hD⟩ := hp1 p hp
    have hfitN : img.colorLayersGL_.length + 1 ≤
        img.frameBufferObject_.attachedColorIds_.length := by
      simp only [hp, Option.isSome_some, if_true] at hfit
      omega
    have hnotin := colorId_not_mem_colorIds img.colorLayersGL_.length
      (img.frameBufferObject_.attachedColorIds_.length - 1) (by omega)
    have hlenS0 : (img.colorLayersGL_.map LayerGL.textureId ++
        List.replicate
          (img.frameBufferObject_.attachedColorIds_.length - img.colorLayersGL_.length)
          0).length = img.frameBufferObject_.attachedColorIds_.length := by
      simp only [List.length_append, List.length_map, List.length_replicate]
      omega
    refine ⟨?_, ?_, ?_, ?_, hd0, hd1, hst, ?_, ?_⟩
    · show F.attachedColorIds_.length = _
      rw [hS, List.length_set, hlenS0]
    · intro i layer hl
      show F.attachedColorIds_[i]? = _
      have hi : i < img.colorLayersGL_.length := by
        rcases Nat.lt_or_ge i img.colorLayersGL_.length with h | h
        · exact h
        · rw [List.getElem?_eq_none h] at hl; cases hl
      rw [hS, List.getElem?_set_ne (by omega)]
      exact hcol i layer hl
    · show eraseRemove F.drawBuffers_ P = _
      rw [hD, hP]
      split
      · unfold eraseRemove
        rw [List.filter_append]
        have h1 := eraseRemove_of_not_mem _ _ hnotin
        unfold eraseRemove at h1
        rw [h1]
        simp
      · rw [eraseRemove_vectorInsert]
        exact eraseRemove_of_not_mem _ _ hnotin
    · intro hneg
      show F.drawBuffers_ = _
      rw [hD, if_pos (Or.inl hneg), hp]
      simp only [Option.isSome_some, if_true]
      show _ = _ ++ [P]
      rw [hP]
    · intro hp2; rw [hp] at hp2; cases hp2
    · intro p1 hp2
      rw [hp] at hp2
      cases hp2
      refine ⟨by omega, hP, ?_, ?_, ?_⟩
      · show P ∈ F.drawBuffers_
        rw [hD, hP]
        split
        · simp
        · exact (List.Perm.mem_iff (vectorInsert_perm _ _ _)).2 (List.mem_cons_self _ _)
      · show F.attachedColorIds_[_]? = _
        rw [hS]
        have hl := hlenS0
        simp only [List.getElem?_set, if_true]
        rw [if_pos (by omega)]
      · intro j hj hjN
        show F.attachedColorIds_[j]? = _
        rw [hS, List.getElem?_set_ne (by omega)]
        exact hrest j hj (by omega)


/-- Witness for C18: the example image (two color layers with textures 11
and 12, depth texture 20, picking texture 30, 8 slots). -/
theorem reAttachAllLayers_attachments_witness :
    ImageGL.Attachable exampleImageWithLayers exampleContext ∧
    ∃ img1 gl1, ImageGL.reAttachAllLayers exampleImageWithLayers exampleContext true (-1) =
        .ok () img1 gl1 [] ∧
      img1.frameBufferObject_.attachedColorIds_ = [11, 12, 0, 0, 0, 0, 0, 30] ∧
      img1.frameBufferObject_.drawBuffers_ = [36064, 36065, 36071] ∧
      img1.frameBufferObject_.attachedDepthId_ = 20 ∧
      img1.pickingAttachmentID_ = 36071 := by
  refine ⟨by decide, ?_⟩
  obtain ⟨img1, gl1, h, _⟩ :=
    reAttachAllLayers_attachments exampleImageWithLayers exampleContext true (-1) (by decide)
  have h2 : ((ImageGL.reAttachAllLayers exampleImageWithLayers exampleContext true (-1)).image).map
      (fun img => (img.frameBufferObject_.attachedColorIds_, img.frameBufferObject_.drawBuffers_,
        img.frameBufferObject_.attachedDepthId_, img.pickingAttachmentID_)) =
      some ([11, 12, 0, 0, 0, 0, 0, 30], [36064, 36065, 36071], 20, 36071) := by decide
  rw [h] at h2
  simp only [ImageOutcome.image, Option.map_some', Option.some.injEq, Prod.mk.injEq] at h2
  exact ⟨img1, gl1, h, h2.1, h2.2.1, h2.2.2.1, h2.2.2.2⟩


theorem bind_calls_nil {α β : Type} (o : ImageOutcome α)
    (f : α → ImageGL → GLContext → ImageOutcome β)
    (ho : o.calls = []) (hf : ∀ v img gl, (f v img gl).calls = []) :
    (o.bind f).calls = [] := by
  unfold ImageOutcome.bind
  cases o with
  | ok v img gl calls =>
    simp only [ImageOutcome.calls] at ho
    subst ho
    have h := hf v img gl
    cases hres : f v img gl <;> simp_all [ImageOutcome.calls]
  | thrown e img gl calls => simpa [ImageOutcome.calls] using ho
  | assertionFailed img gl calls => simpa [ImageOutcome.calls] using ho
  | undefinedBehavior => rfl

theorem liftFbo_calls {α : Type} (img : ImageGL) (gl : GLContext) (r : FboResult α) :
    (ImageGL.liftFbo img gl r).calls = [] := by
  cases r <;> rfl

theorem liftChecked_calls {α : Type} (img : ImageGL) (r : Checked α) :
    (ImageGL.liftChecked img r).calls = [] := by
  cases r <;> rfl

theorem attachDepthLayer_calls (img : ImageGL) (gl : GLContext) :
    (ImageGL.attachDepthLayer img gl).calls = [] := by
  unfold ImageGL.attachDepthLayer
  split
  · rfl
  · split
    · rfl
    · exact liftFbo_calls _ _ _

theorem attachPickingLayer_calls (img : ImageGL) (gl : GLContext) (forcedLocation : Int) :
    (ImageGL.attachPickingLayer img gl forcedLocation).calls = [] := by
  unfold ImageGL.attachPickingLayer
  split
  · rfl
  · split
    · rfl
    · split <;> rfl

theorem reAttachAllLayers_calls (img : ImageGL) (gl : GLContext) (clearLayers : Bool)
    (forcedLocation : Int) :
    (ImageGL.reAttachAllLayers img gl clearLayers forcedLocation).calls = [] := by
  unfold ImageGL.reAttachAllLayers
  apply bind_calls_nil _ _ (liftChecked_calls _ _)
  intro _ img1 gl1
  apply bind_calls_nil
  · unfold ImageGL.attachAllLayers
    apply bind_calls_nil _ _ (liftFbo_calls _ _ _)
    intro _ img2 gl2
    apply bind_calls_nil _ _ (liftFbo_calls _ _ _)
    intro _ img3 gl3
    apply bind_calls_nil _ _ (attachDepthLayer_calls _ _)
    intro _ img4 gl4
    exact attachPickingLayer_calls _ _ _
  · intro _ img5 gl5
    exact liftChecked_calls _ _

theorem after_calls {α : Type} (c : ImageCall) (o : ImageOutcome α)
    (h : o ≠ .undefinedBehavior) : (o.after c).calls = c :: o.calls := by
  cases o with
  | undefinedBehavior => exact absurd rfl h
  | ok v img gl calls => rfl
  | thrown e img gl calls => rfl
  | assertionFailed img gl calls => rfl

theorem after_undefined {α : Type} (c : ImageCall) (o : ImageOutcome α)
    (h : o.after c ≠ .undefinedBehavior) : o ≠ .undefinedBehavior := by
  intro ho
  rw [ho] at h
  exact h rfl

theorem updateLayers_ok_of_owner (img : ImageGL) (editable : Bool)
    (howner : img.owner_.colorLayers ≠ [] ∨ img.owner_.pickingLayer = none) :
    ∃ img1, ImageGL.updateLayers img editable = .ok img1 ∧
      img1.isValid = img.isValid ∧
      img1.frameBufferObject_ = img.frameBufferObject_ ∧
      img1.pickingAttachmentID_ = img.pickingAttachmentID_ ∧
      img1.colorLayersGL_ = img.owner_.colorLayers.map
        (fun layer => if editable then layer.editableRepresentation else layer.representation) ∧
      img1.owner_.colorLayers.length = img.owner_.colorLayers.length ∧
      (img1.owner_.pickingLayer = none ↔ img.owner_.pickingLayer = none) := by
  unfold ImageGL.updateLayers
  simp only
  rcases Option.eq_none_or_eq_some img.owner_.pickingLayer with hp | ⟨p, hp⟩
  · rw [hp]
    exact ⟨_, rfl, rfl, rfl, rfl, rfl, by simp, by simp [hp]⟩
  · rw [hp]
    have hne : img.owner_.colorLayers ≠ [] := by
      rcases howner with h | h
      · exact h
      · rw [hp] at h; cases h
    cases hc : img.owner_.colorLayers with
    | nil => exact absurd hc hne
    | cons c cs =>
      simp only [List.map_cons]
      exact ⟨_, rfl, rfl, rfl, rfl, rfl, by simp, by simp⟩


theorem reAttachTargets_iff (img : ImageGL) :
    (!img.isValid || img.colorLayersGL_.isEmpty) = true ↔
      (img.isValid = false ∨ img.colorLayersGL_ = []) := by
  simp [List.isEmpty_iff]

theorem update_keep (img : ImageGL) (gl : GLContext) (editable : Bool) (forcedLocation : Int)
    (img1 : ImageGL) (h1 : ImageGL.updateLayers img editable = .ok img1)
    (hcond : ¬ (img.isValid = false ∨ img.colorLayersGL_ = [])) :
    ImageGL.update img gl editable forcedLocation = .ok () img1 gl [] := by
  have hb : (!img.isValid || img.colorLayersGL_.isEmpty) = false := by
    rw [← Bool.not_eq_true, reAttachTargets_iff]; exact hcond
  unfold ImageGL.update
  simp only [h1, hb, Bool.false_eq_true, if_false]

theorem update_reAttach (img : ImageGL) (gl : GLContext) (editable : Bool)
    (forcedLocation : Int)
    (img1 : ImageGL) (h1 : ImageGL.updateLayers img editable = .ok img1)
    (hcond : img.isValid = false ∨ img.colorLayersGL_ = []) :
    ImageGL.update img gl editable forcedLocation =
      (ImageGL.reAttachAllLayers img1 gl true forcedLocation).after (.reAttachAllLayers true) := by
  have hb : (!img.isValid || img.colorLayersGL_.isEmpty) = true :=
    (reAttachTargets_iff img).2 hcond
  unfold ImageGL.update
  simp only [h1, hb, if_true]

theorem updateLayers_error_of_owner (img : ImageGL) (editable : Bool)
    (hc : img.owner_.colorLayers = []) (hp : img.owner_.pickingLayer ≠ none) :
    ∃ img1, ImageGL.updateLayers img editable = .error img1 ∧
      img1.frameBufferObject_ = img.frameBufferObject_ ∧
      img1.pickingAttachmentID_ = img.pickingAttachmentID_ ∧
      img1.colorLayersGL_ = [] := by
  obtain ⟨p, hp1⟩ := Option.ne_none_iff_exists'.1 hp
  unfold ImageGL.updateLayers
  simp only [hc, hp1, List.map_nil]
  exact ⟨_, rfl, rfl, rfl, rfl⟩

theorem update_throws (img : ImageGL) (gl : GLContext) (editable : Bool) (forcedLocation : Int)
    (img1 : ImageGL) (h1 : ImageGL.updateLayers img editable = .error img1) :
    ImageGL.update img gl editable forcedLocation = .thrown .outOfRange img1 gl [] := by
  unfold ImageGL.update
  simp only [h1]

/-- C16 (amended): for an owner with a picking layer and no color layer,
`update(editable)` throws `std::out_of_range` while it rebuilds the layer
references, before it reaches the call, and the framebuffer object is as on
entry.  For every other owner the references are rebuilt, and if on entry
the representation is invalid or the list of color layers is empty, the rest
of `update` is the call `reAttachAllLayers(true)` on the rebuilt object: the
outcome of `update` is the outcome of that call.  Otherwise `update` returns
the rebuilt object without calling it.  When the rebuilt layers can be
attached, `update` returns normally with the object and the OpenGL state
that `reAttachAllLayers` returns; and if the representation is valid and the
owner has a color layer, any further `update` returns without calling
`reAttachAllLayers`. -/
theorem update_reAttach_exactly_when (img : ImageGL) (gl : GLContext) (editable : Bool)
    (forcedLocation : Int) :
    (img.owner_.colorLayers = [] → img.owner_.pickingLayer ≠ none →
      ∃ img1, ImageGL.update img gl editable forcedLocation = .thrown .outOfRange img1 gl [] ∧
        img1.frameBufferObject_ = img.frameBufferObject_ ∧
        img1.pickingAttachmentID_ = img.pickingAttachmentID_) ∧
    (img.owner_.colorLayers ≠ [] ∨ img.owner_.pickingLayer = none →
      ∃ img1, ImageGL.updateLayers img editable = .ok img1 ∧
        img1.frameBufferObject_ = img.frameBufferObject_ ∧
        (img.isValid = false ∨ img.colorLayersGL_ = [] →
          ImageGL.update img gl editable forcedLocation =
            (ImageGL.reAttachAllLayers img1 gl true forcedLocation).after
              (.reAttachAllLayers true)) ∧
        (¬ (img.isValid = false ∨ img.colorLayersGL_ = []) →
          ImageGL.update img gl editable forcedLocation = .ok () img1 gl []) ∧
        (ImageGL.update img gl editable forcedLocation = .undefinedBehavior ∨
          (ImageGL.update img gl editable forcedLocation).calls.count (.reAttachAllLayers true) =
            if img.isValid = false ∨ img.colorLayersGL_ = [] then 1 else 0) ∧
        (ImageGL.Attachable img1 gl →
          ∃ img2 gl2,
            (if img.isValid = false ∨ img.colorLayersGL_ = [] then
                ImageGL.reAttachAllLayers img1 gl true forcedLocation
              else .ok () img1 gl []) = .ok () img2 gl2 [] ∧
            ImageGL.update img gl editable forcedLocation =
              .ok () img2 gl2
                (if img.isValid = false ∨ img.colorLayersGL_ = [] then
                  [.reAttachAllLayers true] else []) ∧
            (img.isValid = true → img.owner_.colorLayers ≠ [] →
              ∀ (gl3 : GLContext) (editable3 : Bool), ∃ img3,
                ImageGL.update img2 gl3 editable3 forcedLocation = .ok () img3 gl3 []))) := by
  constructor
  · intro hc hp
    obtain ⟨img1, h1, hf, hpid, _⟩ := updateLayers_error_of_owner img editable hc hp
    exact ⟨img1, update_throws img gl editable forcedLocation img1 h1, hf, hpid⟩
  · intro howner
    obtain ⟨img1, h1, hv1, hf1, _, hc1, hl1, hp1⟩ := updateLayers_ok_of_owner img editable howner
    refine ⟨img1, h1, hf1, update_reAttach img gl editable forcedLocation img1 h1,
      update_keep img gl editable forcedLocation img1 h1, ?_, ?_⟩
    · by_cases hcond : img.isValid = false ∨ img.colorLayersGL_ = []
      · rw [if_pos hcond, update_reAttach img gl editable forcedLocation img1 h1 hcond]
        by_cases hub : ImageGL.reAttachAllLayers img1 gl true forcedLocation = .undefinedBehavior
        · left; rw [hub]; rfl
        · right
          rw [after_calls _ _ hub, reAttachAllLayers_calls]
          simp
      · right
        rw [if_neg hcond, update_keep img gl editable forcedLocation img1 h1 hcond]
        rfl
    · intro hok
      have hsecond : ∀ (img2 : ImageGL), img2.isValid = img1.isValid →
          img2.colorLayersGL_ = img1.colorLayersGL_ → img2.owner_ = img1.owner_ →
          img.isValid = true → img.owner_.colorLayers ≠ [] →
          ∀ (gl3 : GLContext) (editable3 : Bool), ∃ img3,
            ImageGL.update img2 gl3 editable3 forcedLocation = .ok () img3 gl3 [] := by
        intro img2 e1 e2 e3 hvalid hne gl3 editable3
        have hne2 : img2.owner_.colorLayers ≠ [] := by
          rw [e3]
          intro h
          rw [h] at hl1
          exact hne (List.length_eq_zero.1 hl1.symm)
        obtain ⟨img3, h3, _⟩ := updateLayers_ok_of_owner img2 editable3 (Or.inl hne2)
        refine ⟨img3, update_keep img2 gl3 editable3 forcedLocation img3 h3 ?_⟩
        rintro (h | h)
        · rw [e1, hv1, hvalid] at h; cases h
        · rw [e2, hc1] at h
          exact hne (List.map_eq_nil_iff.1 h)
      by_cases hcond : img.isValid = false ∨ img.colorLayersGL_ = []
      · obtain ⟨F, P, gl1, hres, _⟩ := reAttachAllLayers_ok img1 gl true forcedLocation hok
        refine ⟨{ img1 with frameBufferObject_ := F, pickingAttachmentID_ := P }, gl1, ?_, ?_,
          hsecond _ rfl rfl rfl⟩
        · rw [if_pos hcond]; exact hres
        · rw [if_pos hcond, update_reAttach img gl editable forcedLocation img1 h1 hcond, hres]
          rfl
      · refine ⟨img1, gl, ?_, ?_, hsecond _ rfl rfl rfl⟩
        · rw [if_neg hcond]
        · rw [if_neg hcond, update_keep img gl editable forcedLocation img1 h1 hcond]

/-- Witness for C16: the first `update(true)` of the example image, whose
list of color layers is empty: its outcome is that of `reAttachAllLayers` on
the rebuilt object, which fills the empty slot table with the textures 11,
12 and 30. -/
theorem update_reAttach_exactly_when_witness :
    ∃ img2 gl2,
      ImageGL.reAttachAllLayers exampleImageWithLayers exampleContext true (-1) =
        .ok () img2 gl2 [] ∧
      ImageGL.update exampleImage exampleContext true (-1) =
        .ok () img2 gl2 [.reAttachAllLayers true] ∧
      exampleImage.frameBufferObject_.attachedColorIds_ = [0, 0, 0, 0, 0, 0, 0, 0] ∧
      img2.frameBufferObject_.attachedColorIds_ = [11, 12, 0, 0, 0, 0, 0, 30] ∧
      (∀ (gl3 : GLContext) (editable3 : Bool), ∃ img3,
        ImageGL.update img2 gl3 editable3 (-1) = .ok () img3 gl3 []) := by
  obtain ⟨img1, h1, _, _, _, _, hatt⟩ :=
    (update_reAttach_exactly_when exampleImage exampleContext true (-1)).2 (by decide)
  have himg1 : img1 = exampleImageWithLayers := by
    have h2 : ImageGL.updateLayers exampleImage true = .ok exampleImageWithLayers := rfl
    rw [h1] at h2
    injection h2
  subst himg1
  obtain ⟨img2, gl2, hre, hup, hsecond⟩ := hatt (by decide)
  have hcond : exampleImage.isValid = false ∨ exampleImage.colorLayersGL_ = [] := by decide
  rw [if_pos hcond] at hre hup
  have h3 : ((ImageGL.reAttachAllLayers exampleImageWithLayers exampleContext true (-1)).image).map
      (fun img => img.frameBufferObject_.attachedColorIds_) =
      some [11, 12, 0, 0, 0, 0, 0, 30] := by decide
  rw [hre] at h3
  simp only [ImageOutcome.image, Option.map_some', Option.some.injEq] at h3
  exact ⟨img2, gl2, hre, hup, by decide, h3, hsecond (by decide) (by decide)⟩

/-- Counterexample to C16 as stated: the example image with an owner that has
a picking layer and no color layer is valid and its list of color layers is
empty, so `reAttachTargets` holds on entry; `update(true)` throws
`std::out_of_range` in `getColorLayerGL()` and `reAttachAllLayers` is not
called: the slot table is still empty. -/
theorem update_throws_before_reAttach :
    examplePickingOnlyImage.colorLayersGL_ = [] ∧
    ImageGL.update examplePickingOnlyImage exampleContext true (-1) =
      .thrown .outOfRange examplePickingOnlyImage exampleContext [] ∧
    (ImageGL.update examplePickingOnlyImage exampleContext true (-1)).calls.count
      (.reAttachAllLayers true) = 0 ∧
    examplePickingOnlyImage.frameBufferObject_.attachedColorIds_ = [0, 0, 0, 0, 0, 0, 0, 0] := by
  decide

theorem updateLayers_keeps_fbo (img img1 : ImageGL) (editable : Bool)
    (h1 : ImageGL.updateLayers img editable = .ok img1) :
    img1.frameBufferObject_ = img.frameBufferObject_ ∧
    img1.pickingAttachmentID_ = img.pickingAttachmentID_ := by
  unfold ImageGL.updateLayers at h1
  simp only at h1
  split at h1
  · injection h1 with h; rw [← h]; exact ⟨rfl, rfl⟩
  · split at h1
    · cases h1
    · injection h1 with h; rw [← h]; exact ⟨rfl, rfl⟩

theorem reAttachAllLayers_backed (img : ImageGL) (gl : GLContext) (clearLayers : Bool)
    (forcedLocation : Int) (hok : ImageGL.Attachable img gl) :
    ∃ F P gl1, ImageGL.reAttachAllLayers img gl clearLayers forcedLocation =
        .ok () { img with frameBufferObject_ := F, pickingAttachmentID_ := P } gl1 [] ∧
      (∀ (i : Nat) (layer : LayerGL), img.colorLayersGL_[i]? = some layer →
        F.attachedColorIds_[i]? = some layer.textureId) ∧
      (∀ d, img.depthLayerGL_ = some d → F.attachedDepthId_ = d.textureId) ∧
      (∀ p, img.pickingLayerGL_ = some p →
        F.attachedColorIds_[img.frameBufferObject_.attachedColorIds_.length - 1]? =
          some p.textureId ∧
        P = GL_COLOR_ATTACHMENT0 + (img.frameBufferObject_.attachedColorIds_.length - 1)) := by
  obtain ⟨F, P, gl1, hres, _, _, _, hd1, hp0, hp1⟩ :=
    reAttachAllLayers_ok img gl clearLayers forcedLocation hok
  obtain ⟨⟨hw1, hw2, hw3⟩, _, _, _, _, hfit⟩ := hok
  have hcol : ∀ (i : Nat) (layer : LayerGL), img.colorLayersGL_[i]? = some layer →
      i < img.colorLayersGL_.length ∧
      (img.colorLayersGL_.map LayerGL.textureId ++
        List.replicate
          (img.frameBufferObject_.attachedColorIds_.length - img.colorLayersGL_.length)
          0)[i]? = some layer.textureId := by
    intro i layer hl
    have hi : i < img.colorLayersGL_.length := by
      rcases Nat.lt_or_ge i img.colorLayersGL_.length with h | h
      · exact h
      · rw [List.getElem?_eq_none h] at hl; cases hl
    refine ⟨hi, ?_⟩
    rw [List.getElem?_append_left (by simpa using hi)]
    simp [List.getElem?_map, hl]
  refine ⟨F, P, gl1, hres, ?_, hd1, ?_⟩
  · intro i layer hl
    obtain ⟨hi, hget⟩ := hcol i layer hl
    rcases Option.eq_none_or_eq_some img.pickingLayerGL_ with hp | ⟨p, hp⟩
    · rw [(hp0 hp).2.1]; exact hget
    · have hfitN : img.colorLayersGL_.length + 1 ≤
          img.frameBufferObject_.attachedColorIds_.length := by
        simp only [hp, Option.isSome_some, if_true] at hfit
        omega
      rw [(hp1 p hp).2.1, List.getElem?_set_ne (by omega)]
      exact hget
  · intro p hp
    obtain ⟨hP, hS, _⟩ := hp1 p hp
    have hfitN : img.colorLayersGL_.length + 1 ≤
        img.frameBufferObject_.attachedColorIds_.length := by
      simp only [hp, Option.isSome_some, if_true] at hfit
      omega
    have hlenS0 : (img.colorLayersGL_.map LayerGL.textureId ++
        List.replicate
          (img.frameBufferObject_.attachedColorIds_.length - img.colorLayersGL_.length)
          0).length = img.frameBufferObject_.attachedColorIds_.length := by
      simp only [List.length_append, List.length_map, List.length_replicate]
      omega
    refine ⟨?_, hP⟩
    rw [hS]
    simp only [List.getElem?_set, if_true]
    rw [if_pos (by omega)]

/-- C17 (amended): when `update(editable)` re-attaches (the representation is
invalid or the list of color layers is empty on entry) and the rebuilt
layers can be attached, it returns normally and every layer reference it
holds is backed by an attached texture: color layer `i` by color slot `i`,
the depth layer by the depth slot, the picking layer by the last color slot,
whose id is `pickingAttachmentID_`.  When it does not re-attach (valid, list
not empty), it only rebuilds the references: the framebuffer object and
`pickingAttachmentID_` are left as they were. -/
theorem update_backs_layers_when_reAttaching (img : ImageGL) (gl : GLContext)
    (editable : Bool) (forcedLocation : Int) (img1 : ImageGL)
    (h1 : ImageGL.updateLayers img editable = .ok img1) (hok : ImageGL.Attachable img1 gl) :
    (img.isValid = false ∨ img.colorLayersGL_ = [] →
      ∃ img2 gl2 calls, ImageGL.update img gl editable forcedLocation =
          .ok () img2 gl2 calls ∧
        img2.colorLayersGL_ = img1.colorLayersGL_ ∧
        img2.depthLayerGL_ = img1.depthLayerGL_ ∧
        img2.pickingLayerGL_ = img1.pickingLayerGL_ ∧
        (∀ (i : Nat) (layer : LayerGL), img2.colorLayersGL_[i]? = some layer →
          img2.frameBufferObject_.attachedColorIds_[i]? = some layer.textureId) ∧
        (∀ d, img2.depthLayerGL_ = some d →
          img2.frameBufferObject_.attachedDepthId_ = d.textureId) ∧
        (∀ p, img2.pickingLayerGL_ = some p →
          img2.frameBufferObject_.attachedColorIds_[
            img.frameBufferObject_.attachedColorIds_.length - 1]? = some p.textureId ∧
          img2.pickingAttachmentID_ =
            GL_COLOR_ATTACHMENT0 + (img.frameBufferObject_.attachedColorIds_.length - 1))) ∧
    (¬ (img.isValid = false ∨ img.colorLayersGL_ = []) →
      ImageGL.update img gl editable forcedLocation = .ok () img1 gl [] ∧
      img1.frameBufferObject_ = img.frameBufferObject_ ∧
      img1.pickingAttachmentID_ = img.pickingAttachmentID_) := by
  obtain ⟨hfbo, hpid⟩ := updateLayers_keeps_fbo img img1 editable h1
  constructor
  · intro hcond
    obtain ⟨F, P, gl1, hres, hc, hd, hp⟩ :=
      reAttachAllLayers_backed img1 gl true forcedLocation hok
    refine ⟨{ img1 with frameBufferObject_ := F, pickingAttachmentID_ := P }, gl1,
      [.reAttachAllLayers true], ?_, rfl, rfl, rfl, hc, hd, ?_⟩
    · rw [update_reAttach img gl editable forcedLocation img1 h1 hcond, hres]
      rfl
    · intro p hp2
      rw [← hfbo]
      exact hp p hp2
  · intro hcond
    exact ⟨update_keep img gl editable forcedLocation img1 h1 hcond, hfbo, hpid⟩

/-- Witness for C17: the first `update(true)` of the example image. -/
theorem update_backs_layers_when_reAttaching_witness :
    ∃ img2 gl2 calls, ImageGL.update exampleImage exampleContext true (-1) =
        .ok () img2 gl2 calls ∧
      img2.colorLayersGL_ = exampleImageWithLayers.colorLayersGL_ ∧
      img2.depthLayerGL_ = exampleImageWithLayers.depthLayerGL_ ∧
      img2.pickingLayerGL_ = exampleImageWithLayers.pickingLayerGL_ ∧
      (∀ (i : Nat) (layer : LayerGL), img2.colorLayersGL_[i]? = some layer →
        img2.frameBufferObject_.attachedColorIds_[i]? = some layer.textureId) ∧
      (∀ d, img2.depthLayerGL_ = some d →
        img2.frameBufferObject_.attachedDepthId_ = d.textureId) ∧
      (∀ p, img2.pickingLayerGL_ = some p →
        img2.frameBufferObject_.attachedColorIds_[
          exampleImage.frameBufferObject_.attachedColorIds_.length - 1]? = some p.textureId ∧
        img2.pickingAttachmentID_ =
          GL_COLOR_ATTACHMENT0 + (exampleImage.frameBufferObject_.attachedColorIds_.length - 1)) :=
  (update_backs_layers_when_reAttaching exampleImage exampleContext true (-1)
    exampleImageWithLayers rfl (by decide)).1 (by decide)

/-- Counterexample to C17 as stated: after the first `update(true)` of the
example image the textures 11, 12 and 30 are attached.  A second `update`,
now with `editable = false`, makes the color layer references point to the
read-only representations with textures 111 and 112; the representation is
valid and the list was not empty, so nothing is re-attached and the
attachment table still records 11, 12 and 30: texture 111 is in no slot. -/
theorem update_without_reAttach_leaves_stale_attachments :
    ImageGL.update exampleImage exampleContext true (-1) =
      .ok () exampleImageAfterUpdate exampleContext [.reAttachAllLayers true] ∧
    exampleImageAfterUpdate.frameBufferObject_.attachedColorIds_ = [11, 12, 0, 0, 0, 0, 0, 30] ∧
    (ImageGL.update exampleImageAfterUpdate exampleContext false (-1)).calls = [] ∧
    ((ImageGL.update exampleImageAfterUpdate exampleContext false (-1)).image.map
      fun img => (img.colorLayersGL_.map LayerGL.textureId,
        img.frameBufferObject_.attachedColorIds_)) =
      some ([111, 112], [11, 12, 0, 0, 0, 0, 0, 30]) ∧
    (111 : GLuint) ∉ [11, 12, 0, 0, 0, 0, 0, 30] := by
  decide


theorem blitExtraColorAttachments_spec (srcIDs targetIDs : List GLenum)
    (pickingAttachmentID : GLenum) (sTex tTex : Texture2D) (l : List Nat) :
    ∀ (pickingCopied : Bool), (∀ i ∈ l, i < srcIDs.length) → (∀ i ∈ l, i < targetIDs.length) →
    ∃ calls copied,
      ImageGL.blitExtraColorAttachments srcIDs targetIDs pickingAttachmentID sTex tTex l
        pickingCopied = some (calls, copied) ∧
      calls.countP ImageCall.isLoadFromPBO = 0 ∧
      (copied = true ↔ pickingCopied = true ∨
        ∃ i ∈ l, pickingAttachmentID ≠ GL_NONE ∧ srcIDs[i]? = some pickingAttachmentID ∧
          targetIDs[i]? = some pickingAttachmentID) := by
  induction l with
  | nil =>
    intro pickingCopied _ _
    exact ⟨[], pickingCopied, rfl, rfl, by simp⟩
  | cons i rest ih =>
    intro pickingCopied hs ht
    have his : i < srcIDs.length := hs i (List.mem_cons_self _ _)
    have hit : i < targetIDs.length := ht i (List.mem_cons_self _ _)
    have hs1 : ∀ j ∈ rest, j < srcIDs.length := fun j hj => hs j (List.mem_cons_of_mem _ hj)
    have ht1 : ∀ j ∈ rest, j < targetIDs.length := fun j hj => ht j (List.mem_cons_of_mem _ hj)
    obtain ⟨srcID, hsrc⟩ : ∃ srcID, srcIDs[i]? = some srcID :=
      ⟨srcIDs[i], List.getElem?_eq_getElem his⟩
    obtain ⟨targetID, htgt⟩ : ∃ targetID, targetIDs[i]? = some targetID :=
      ⟨targetIDs[i], List.getElem?_eq_getElem hit⟩
    unfold ImageGL.blitExtraColorAttachments
    simp only [hsrc, htgt]
    by_cases hnone : srcID ≠ GL_NONE
    · rw [if_pos hnone]
      by_cases heq : srcID = targetID
      · rw [if_pos heq]
        obtain ⟨calls, copied, hrun, hcount, hiff⟩ :=
          ih (if srcID = pickingAttachmentID then true else pickingCopied) hs1 ht1
        rw [hrun]
        refine ⟨_, copied, rfl, ?_, ?_⟩
        · simpa [List.countP_cons, ImageCall.isLoadFromPBO] using hcount
        · rw [hiff]
          by_cases hp : srcID = pickingAttachmentID
          · rw [if_pos hp]
            simp only [true_or, true_iff]
            right
            refine ⟨i, List.mem_cons_self _ _, ?_, ?_, ?_⟩
            · rw [← hp]; exact hnone
            · rw [← hp]; exact hsrc
            · rw [← hp, heq]; exact htgt
          · rw [if_neg hp]
            constructor
            · rintro (h | ⟨j, hj, h⟩)
              · exact Or.inl h
              · exact Or.inr ⟨j, List.mem_cons_of_mem _ hj, h⟩
            · rintro (h | ⟨j, hj, h1, h2, h3⟩)
              · exact Or.inl h
              · rcases List.mem_cons.mp hj with hji | hj
                · subst hji
                  rw [hsrc] at h2
                  exact absurd (Option.some.inj h2) hp
                · exact Or.inr ⟨j, hj, h1, h2, h3⟩
      · rw [if_neg heq]
        obtain ⟨calls, copied, hrun, hcount, hiff⟩ := ih pickingCopied hs1 ht1
        refine ⟨calls, copied, hrun, hcount, ?_⟩
        rw [hiff]
        constructor
        · rintro (h | ⟨j, hj, h⟩)
          · exact Or.inl h
          · exact Or.inr ⟨j, List.mem_cons_of_mem _ hj, h⟩
        · rintro (h | ⟨j, hj, h1, h2, h3⟩)
          · exact Or.inl h
          · rcases List.mem_cons.mp hj with hji | hj
            · subst hji
              rw [hsrc] at h2
              rw [htgt] at h3
              exact absurd ((Option.some.inj h2).trans (Option.some.inj h3).symm) heq
            · exact Or.inr ⟨j, hj, h1, h2, h3⟩
    · rw [if_neg hnone]
      obtain ⟨calls, copied, hrun, hcount, hiff⟩ := ih pickingCopied hs1 ht1
      refine ⟨calls, copied, hrun, hcount, ?_⟩
      rw [hiff]
      constructor
      · rintro (h | ⟨j, hj, h⟩)
        · exact Or.inl h
        · exact Or.inr ⟨j, List.mem_cons_of_mem _ hj, h⟩
      · rintro (h | ⟨j, hj, h1, h2, h3⟩)
        · exact Or.inl h
        · rcases List.mem_cons.mp hj with hji | hj
          · subst hji
            rw [hsrc] at h2
            have : srcID = pickingAttachmentID := Option.some.inj h2
            rw [this] at hnone
            exact absurd h1 hnone
          · exact Or.inr ⟨j, hj, h1, h2, h3⟩

theorem fallbackCopy_some (condition : Bool) (sLayer tLayer : LayerGL) :
    ImageGL.fallbackCopy condition (some sLayer) (some tLayer) =
      some (if condition then
          match sLayer.texture, tLayer.texture with
          | some sTex, some tTex => [ImageCall.loadFromPBO tTex.id sTex.id]
          | _, _ => []
        else []) := by
  unfold ImageGL.fallbackCopy
  cases condition
  · simp
  · simp only [if_true]
    cases sLayer.texture <;> cases tLayer.texture <;> rfl

theorem blitMask_color (srcFBO tgtFBO : FrameBufferObject) :
    ImageGL.blitMask srcFBO tgtFBO &&& GL_COLOR_BUFFER_BIT = GL_COLOR_BUFFER_BIT := by
  unfold ImageGL.blitMask
  cases srcFBO.hasDepthAttachment <;> cases tgtFBO.hasDepthAttachment <;>
    cases srcFBO.hasStencilAttachment <;> cases tgtFBO.hasStencilAttachment <;> decide

theorem blitMask_depth (srcFBO tgtFBO : FrameBufferObject) :
    ImageGL.blitMask srcFBO tgtFBO &&& GL_DEPTH_BUFFER_BIT ≠ 0 ↔
      srcFBO.hasDepthAttachment = true ∧ tgtFBO.hasDepthAttachment = true := by
  unfold ImageGL.blitMask
  cases srcFBO.hasDepthAttachment <;> cases tgtFBO.hasDepthAttachment <;>
    cases srcFBO.hasStencilAttachment <;> cases tgtFBO.hasStencilAttachment <;> decide

theorem blitMask_stencil (srcFBO tgtFBO : FrameBufferObject) :
    ImageGL.blitMask srcFBO tgtFBO &&& GL_STENCIL_BUFFER_BIT ≠ 0 ↔
      srcFBO.hasStencilAttachment = true ∧ tgtFBO.hasStencilAttachment = true := by
  unfold ImageGL.blitMask
  cases srcFBO.hasDepthAttachment <;> cases tgtFBO.hasDepthAttachment <;>
    cases srcFBO.hasStencilAttachment <;> cases tgtFBO.hasStencilAttachment <;> decide

theorem blitMask_congr (s1 s2 t1 t2 : FrameBufferObject)
    (hsd : s1.attachedDepthId_ = s2.attachedDepthId_)
    (hss : s1.attachedStencilId_ = s2.attachedStencilId_)
    (htd : t1.attachedDepthId_ = t2.attachedDepthId_)
    (hts : t1.attachedStencilId_ = t2.attachedStencilId_) :
    ImageGL.blitMask s1 t1 = ImageGL.blitMask s2 t2 := by
  unfold ImageGL.blitMask FrameBufferObject.hasDepthAttachment
    FrameBufferObject.hasStencilAttachment
  rw [hsd, hss, htd, hts]

theorem setRead_Blit_true (s : FrameBufferObject) (gl : GLContext)
    (hctx : checkContext s.creationContext_ gl = false) :
    s.setRead_Blit gl true =
      .done () { s with prevReadFbo_ := toGLint gl.readFramebufferBinding }
        (gl.bindReadFramebuffer s.id_) := by
  simp [FrameBufferObject.setRead_Blit, hctx]

theorem setDraw_Blit_true (s : FrameBufferObject) (gl : GLContext)
    (hctx : checkContext s.creationContext_ gl = false) :
    s.setDraw_Blit gl true =
      .done () { s with prevDrawFbo_ := toGLint gl.drawFramebufferBinding }
        (gl.bindDrawFramebuffer s.id_) := by
  simp [FrameBufferObject.setDraw_Blit, hctx]

theorem setRead_Blit_false (s : FrameBufferObject) (gl : GLContext) :
    ∃ gl1, s.setRead_Blit gl false = .done () s gl1 := by
  unfold FrameBufferObject.setRead_Blit
  simp only [Bool.false_eq_true, if_false]
  split_ifs
  · exact ⟨_, rfl⟩
  · exact ⟨_, rfl⟩

theorem setDraw_Blit_false (s : FrameBufferObject) (gl : GLContext) :
    ∃ gl1, s.setDraw_Blit gl false = .done () s gl1 := by
  unfold FrameBufferObject.setDraw_Blit
  simp only [Bool.false_eq_true, if_false]
  split_ifs
  · exact ⟨_, rfl⟩
  · exact ⟨_, rfl⟩

theorem updateFrom_ok (target source : ImageGL) (gl : GLContext) (srcIDs targetIDs : List GLenum)
    (sLayer tLayer : LayerGL) (sRest tRest : List LayerGL) (sTex tTex : Texture2D)
    (loopCalls depthCalls pickingCalls : List ImageCall) (copied : Bool)
    (hsrc : source.colorLayersGL_ = sLayer :: sRest) (hsTex : sLayer.texture = some sTex)
    (htgt : target.colorLayersGL_ = tLayer :: tRest) (htTex : tLayer.texture = some tTex)
    (hcs : checkContext source.frameBufferObject_.creationContext_ gl = false)
    (hct : checkContext target.frameBufferObject_.creationContext_ gl = false)
    (hloop : ImageGL.blitExtraColorAttachments srcIDs targetIDs target.pickingAttachmentID_
      sTex tTex (List.range' 1 (source.frameBufferObject_.maxColorattachments_ - 1).toNat)
      false = some (loopCalls, copied))
    (hdepth : ImageGL.fallbackCopy
      (decide (ImageGL.blitMask source.frameBufferObject_ target.frameBufferObject_ &&&
        GL_DEPTH_BUFFER_BIT = 0)) source.depthLayerGL_ target.depthLayerGL_ = some depthCalls)
    (hpick : ImageGL.fallbackCopy (!copied && decide (target.pickingAttachmentID_ ≠ 0))
      source.pickingLayerGL_ target.pickingLayerGL_ = some pickingCalls) :
    ∃ S T gl1, ImageGL.updateFrom target source gl srcIDs targetIDs =
      .ok (true, { source with frameBufferObject_ := S })
        { target with frameBufferObject_ := T } gl1
        (ImageCall.blitFramebuffer sTex.width sTex.height tTex.width tTex.height
            (ImageGL.blitMask source.frameBufferObject_ target.frameBufferObject_) ::
          loopCalls ++
          [ImageCall.readBuffer GL_COLOR_ATTACHMENT0, ImageCall.drawBuffer GL_COLOR_ATTACHMENT0] ++
          depthCalls ++ pickingCalls) := by
  have hct1 : checkContext target.frameBufferObject_.creationContext_
      (gl.bindReadFramebuffer source.frameBufferObject_.id_) = false := hct
  have hmask : ∀ (a b : Int),
      ImageGL.blitMask { source.frameBufferObject_ with prevReadFbo_ := a }
        { target.frameBufferObject_ with prevDrawFbo_ := b } =
      ImageGL.blitMask source.frameBufferObject_ target.frameBufferObject_ :=
    fun a b => blitMask_congr _ _ _ _ rfl rfl rfl rfl
  unfold ImageGL.updateFrom
  rw [hsrc, htgt]
  simp only [setRead_Blit_true _ _ hcs, setDraw_Blit_true _ _ hct1, hsTex, htTex,
    FrameBufferObject.getMaxColorAttachments]
  rw [hloop]
  simp only
  obtain ⟨gl3, h3⟩ := setRead_Blit_false
    { source.frameBufferObject_ with prevReadFbo_ := toGLint gl.readFramebufferBinding }
    ((gl.bindReadFramebuffer source.frameBufferObject_.id_).bindDrawFramebuffer
      target.frameBufferObject_.id_)
  rw [h3]
  simp only
  obtain ⟨gl4, h4⟩ := setDraw_Blit_false
    { target.frameBufferObject_ with
      prevDrawFbo_ :=
        toGLint (gl.bindReadFramebuffer source.frameBufferObject_.id_).drawFramebufferBinding }
    gl3
  rw [h4]
  simp only [hmask, hdepth, hpick]
  exact ⟨_, _, _, rfl⟩

theorem pboCopy_countP (s t : Option Texture2D) :
    (match s, t with
      | some s, some t => [ImageCall.loadFromPBO t.id s.id]
      | _, _ => []).countP ImageCall.isLoadFromPBO =
    (match s, t with
      | some s, some t => [ImageCall.loadFromPBO t.id s.id]
      | _, _ => []).length := by
  cases s <;> cases t <;> rfl

/-- C19 (amended): when `updateFrom` runs through (both images have a first
color layer with a texture, both framebuffer objects are used on their
creation context, the draw-buffer arrays cover the indices of the loop, and
the depth and picking layers exist), it returns `true` and its first blit
uses a mask that always contains color, contains depth exactly when both
framebuffer objects have a depth attachment, and contains stencil exactly
when both have a stencil attachment.  The blits of the loop make no
pixel-buffer copy; the only pixel-buffer copies are one of the depth
textures when depth is not in the mask, and one of the picking textures when
no blit of the loop copied the picking attachment and `pickingAttachmentID_`
is not 0.  There is no pixel-buffer copy for stencil: when the source has
depth and stencil and the target has only depth, the mask is color+depth and
the depth copy is not made, so the number of pixel-buffer copies is that of
the picking layer (0 or 1). -/
theorem updateFrom_mask_and_pbo_copies (target source : ImageGL) (gl : GLContext)
    (srcIDs targetIDs : List GLenum) (sLayer tLayer : LayerGL) (sRest tRest : List LayerGL)
    (sTex tTex : Texture2D) (sD tD sP tP : LayerGL)
    (hsrc : source.colorLayersGL_ = sLayer :: sRest) (hsTex : sLayer.texture = some sTex)
    (htgt : target.colorLayersGL_ = tLayer :: tRest) (htTex : tLayer.texture = some tTex)
    (hcs : checkContext source.frameBufferObject_.creationContext_ gl = false)
    (hct : checkContext target.frameBufferObject_.creationContext_ gl = false)
    (hlenS : source.frameBufferObject_.maxColorattachments_ ≤ srcIDs.length)
    (hlenT : source.frameBufferObject_.maxColorattachments_ ≤ targetIDs.length)
    (hsD : source.depthLayerGL_ = some sD) (htD : target.depthLayerGL_ = some tD)
    (hsP : source.pickingLayerGL_ = some sP) (htP : target.pickingLayerGL_ = some tP) :
    ∃ S T gl1 loopCalls depthCalls pickingCalls copied,
      ImageGL.updateFrom target source gl srcIDs targetIDs =
        .ok (true, { source with frameBufferObject_ := S })
          { target with frameBufferObject_ := T } gl1
          (ImageCall.blitFramebuffer sTex.width sTex.height tTex.width tTex.height
              (ImageGL.blitMask source.frameBufferObject_ target.frameBufferObject_) ::
            loopCalls ++
            [ImageCall.readBuffer GL_COLOR_ATTACHMENT0,
             ImageCall.drawBuffer GL_COLOR_ATTACHMENT0] ++
            depthCalls ++ pickingCalls) ∧
      ImageGL.blitMask source.frameBufferObject_ target.frameBufferObject_ &&&
        GL_COLOR_BUFFER_BIT = GL_COLOR_BUFFER_BIT ∧
      (ImageGL.blitMask source.frameBufferObject_ target.frameBufferObject_ &&&
          GL_DEPTH_BUFFER_BIT ≠ 0 ↔
        source.frameBufferObject_.hasDepthAttachment = true ∧
          target.frameBufferObject_.hasDepthAttachment = true) ∧
      (ImageGL.blitMask source.frameBufferObject_ target.frameBufferObject_ &&&
          GL_STENCIL_BUFFER_BIT ≠ 0 ↔
        source.frameBufferObject_.hasStencilAttachment = true ∧
          target.frameBufferObject_.hasStencilAttachment = true) ∧
      loopCalls.countP ImageCall.isLoadFromPBO = 0 ∧
      (copied = true ↔ ∃ i : Nat, 1 ≤ i ∧ (i : Int) < source.frameBufferObject_.maxColorattachments_ ∧
        target.pickingAttachmentID_ ≠ GL_NONE ∧
        srcIDs[i]? = some target.pickingAttachmentID_ ∧
        targetIDs[i]? = some target.pickingAttachmentID_) ∧
      depthCalls =
        (if source.frameBufferObject_.hasDepthAttachment = true ∧
            target.frameBufferObject_.hasDepthAttachment = true then []
          else
            match sD.texture, tD.texture with
            | some s, some t => [ImageCall.loadFromPBO t.id s.id]
            | _, _ => []) ∧
      pickingCalls =
        (if copied = false ∧ target.pickingAttachmentID_ ≠ 0 then
            match sP.texture, tP.texture with
            | some s, some t => [ImageCall.loadFromPBO t.id s.id]
            | _, _ => []
          else []) ∧
      (loopCalls ++
          [ImageCall.readBuffer GL_COLOR_ATTACHMENT0,
           ImageCall.drawBuffer GL_COLOR_ATTACHMENT0] ++
          depthCalls ++ pickingCalls).countP ImageCall.isLoadFromPBO =
        depthCalls.length + pickingCalls.length ∧
      (source.frameBufferObject_.hasDepthAttachment = true →
        source.frameBufferObject_.hasStencilAttachment = true →
        target.frameBufferObject_.hasDepthAttachment = true →
        target.frameBufferObject_.hasStencilAttachment = false →
        ImageGL.blitMask source.frameBufferObject_ target.frameBufferObject_ =
          GL_COLOR_BUFFER_BIT ||| GL_DEPTH_BUFFER_BIT ∧
        depthCalls = []) := by
  have hmem : ∀ i : Nat,
      i ∈ List.range' 1 (source.frameBufferObject_.maxColorattachments_ - 1).toNat ↔
        1 ≤ i ∧ (i : Int) < source.frameBufferObject_.maxColorattachments_ := by
    intro i
    rw [List.mem_range'_1]
    omega
  obtain ⟨loopCalls, copied, hloop, hcount, hiff⟩ :=
    blitExtraColorAttachments_spec srcIDs targetIDs target.pickingAttachmentID_ sTex tTex
      (List.range' 1 (source.frameBufferObject_.maxColorattachments_ - 1).toNat) false
      (fun i hi => by have := (hmem i).1 hi; omega)
      (fun i hi => by have := (hmem i).1 hi; omega)
  have hdepth := fallbackCopy_some
    (decide (ImageGL.blitMask source.frameBufferObject_ target.frameBufferObject_ &&&
      GL_DEPTH_BUFFER_BIT = 0)) sD tD
  have hpick := fallbackCopy_some (!copied && decide (target.pickingAttachmentID_ ≠ 0)) sP tP
  rw [← hsD, ← htD] at hdepth
  rw [← hsP, ← htP] at hpick
  obtain ⟨S, T, gl1, hrun⟩ := updateFrom_ok target source gl srcIDs targetIDs sLayer tLayer
    sRest tRest sTex tTex loopCalls _ _ copied hsrc hsTex htgt htTex hcs hct hloop hdepth hpick
  have hD := blitMask_depth source.frameBufferObject_ target.frameBufferObject_
  have hdc : (if decide (ImageGL.blitMask source.frameBufferObject_ target.frameBufferObject_ &&&
        GL_DEPTH_BUFFER_BIT = 0) = true then
        match sD.texture, tD.texture with
        | some sTex, some tTex => [ImageCall.loadFromPBO tTex.id sTex.id]
        | _, _ => []
      else []) =
      (if source.frameBufferObject_.hasDepthAttachment = true ∧
          target.frameBufferObject_.hasDepthAttachment = true then []
        else
          match sD.texture, tD.texture with
          | some s, some t => [ImageCall.loadFromPBO t.id s.id]
          | _, _ => []) := by
    by_cases hboth : source.frameBufferObject_.hasDepthAttachment = true ∧
        target.frameBufferObject_.hasDepthAttachment = true
    · rw [if_pos hboth, if_neg (by simpa using hD.2 hboth)]
    · rw [if_neg hboth, if_pos (by
        have := mt hD.1 hboth
        simpa using this)]
  have hpc : (if (!copied && decide (target.pickingAttachmentID_ ≠ 0)) = true then
        match sP.texture, tP.texture with
        | some sTex, some tTex => [ImageCall.loadFromPBO tTex.id sTex.id]
        | _, _ => []
      else []) =
      (if copied = false ∧ target.pickingAttachmentID_ ≠ 0 then
          match sP.texture, tP.texture with
          | some s, some t => [ImageCall.loadFromPBO t.id s.id]
          | _, _ => []
        else []) := by
    by_cases hc : copied = false ∧ target.pickingAttachmentID_ ≠ 0
    · rw [if_pos hc, if_pos (by simp [hc.1, hc.2])]
    · rw [if_neg hc, if_neg (by
        intro h
        apply hc
        simpa using h)]
  rw [hdc, hpc] at hrun
  refine ⟨S, T, gl1, loopCalls, _, _, copied, hrun,
    blitMask_color _ _, hD, blitMask_stencil _ _, hcount, ?_, rfl, rfl, ?_, ?_⟩
  · rw [hiff]
    constructor
    · rintro (h | ⟨i, hi, h⟩)
      · cases h
      · exact ⟨i, ((hmem i).1 hi).1, ((hmem i).1 hi).2, h⟩
    · rintro ⟨i, h1, h2, h⟩
      exact Or.inr ⟨i, (hmem i).2 ⟨h1, h2⟩, h⟩
  · rw [List.countP_append, List.countP_append, List.countP_append, hcount]
    have hmid : List.countP ImageCall.isLoadFromPBO
        [ImageCall.readBuffer GL_COLOR_ATTACHMENT0,
         ImageCall.drawBuffer GL_COLOR_ATTACHMENT0] = 0 := rfl
    rw [hmid]
    congr 1
    · rw [Nat.zero_add]
      split_ifs
      · rfl
      · exact pboCopy_countP _ _
    · split_ifs
      · exact pboCopy_countP _ _
      · rfl
  · intro h1 h2 h3 h4
    refine ⟨?_, if_pos ⟨h1, h3⟩⟩
    unfold ImageGL.blitMask
    rw [h1, h2, h3, h4]
    rfl

/-- Witness for C19: the example source (depth and stencil) and target
(depth only) with the example draw-buffer arrays. -/
theorem updateFrom_mask_and_pbo_copies_witness :
    ∃ S T gl1 loopCalls depthCalls pickingCalls copied,
      ImageGL.updateFrom exampleBlitTarget exampleBlitSource exampleContext exampleDrawBuffers exampleDrawBuffers =
        .ok (true, { exampleBlitSource with frameBufferObject_ := S })
          { exampleBlitTarget with frameBufferObject_ := T } gl1
          (ImageCall.blitFramebuffer (Texture2D.mk 11 64 32).width (Texture2D.mk 11 64 32).height (Texture2D.mk 111 64 32).width (Texture2D.mk 111 64 32).height
              (ImageGL.blitMask exampleBlitSource.frameBufferObject_ exampleBlitTarget.frameBufferObject_) ::
            loopCalls ++
            [ImageCall.readBuffer GL_COLOR_ATTACHMENT0,
             ImageCall.drawBuffer GL_COLOR_ATTACHMENT0] ++
            depthCalls ++ pickingCalls) ∧
      ImageGL.blitMask exampleBlitSource.frameBufferObject_ exampleBlitTarget.frameBufferObject_ &&&
        GL_COLOR_BUFFER_BIT = GL_COLOR_BUFFER_BIT ∧
      (ImageGL.blitMask exampleBlitSource.frameBufferObject_ exampleBlitTarget.frameBufferObject_ &&&
          GL_DEPTH_BUFFER_BIT ≠ 0 ↔
        exampleBlitSource.frameBufferObject_.hasDepthAttachment = true ∧
          exampleBlitTarget.frameBufferObject_.hasDepthAttachment = true) ∧
      (ImageGL.blitMask exampleBlitSource.frameBufferObject_ exampleBlitTarget.frameBufferObject_ &&&
          GL_STENCIL_BUFFER_BIT ≠ 0 ↔
        exampleBlitSource.frameBufferObject_.hasStencilAttachment = true ∧
          exampleBlitTarget.frameBufferObject_.hasStencilAttachment = true) ∧
      loopCalls.countP ImageCall.isLoadFromPBO = 0 ∧
      (copied = true ↔ ∃ i : Nat, 1 ≤ i ∧ (i : Int) < exampleBlitSource.frameBufferObject_.maxColorattachments_ ∧
        exampleBlitTarget.pickingAttachmentID_ ≠ GL_NONE ∧
        exampleDrawBuffers[i]? = some exampleBlitTarget.pickingAttachmentID_ ∧
        exampleDrawBuffers[i]? = some exampleBlitTarget.pickingAttachmentID_) ∧
      depthCalls =
        (if exampleBlitSource.frameBufferObject_.hasDepthAttachment = true ∧
            exampleBlitTarget.frameBufferObject_.hasDepthAttachment = true then []
          else
            match (LayerGL.mk (some (Texture2D.mk 20 64 32)) 2 (64, 32)).texture, (LayerGL.mk (some (Texture2D.mk 120 64 32)) 2 (64, 32)).texture with
            | some s, some t => [ImageCall.loadFromPBO t.id s.id]
            | _, _ => []) ∧
      pickingCalls =
        (if copied = false ∧ exampleBlitTarget.pickingAttachmentID_ ≠ 0 then
            match (LayerGL.mk (some (Texture2D.mk 30 64 32)) 1 (64, 32)).texture, (LayerGL.mk (some (Texture2D.mk 130 64 32)) 1 (64, 32)).texture with
            | some s, some t => [ImageCall.loadFromPBO t.id s.id]
            | _, _ => []
          else []) ∧
      (loopCalls ++
          [ImageCall.readBuffer GL_COLOR_ATTACHMENT0,
           ImageCall.drawBuffer GL_COLOR_ATTACHMENT0] ++
          depthCalls ++ pickingCalls).countP ImageCall.isLoadFromPBO =
        depthCalls.length + pickingCalls.length ∧
      (exampleBlitSource.frameBufferObject_.hasDepthAttachment = true →
        exampleBlitSource.frameBufferObject_.hasStencilAttachment = true →
        exampleBlitTarget.frameBufferObject_.hasDepthAttachment = true →
        exampleBlitTarget.frameBufferObject_.hasStencilAttachment = false →
        ImageGL.blitMask exampleBlitSource.frameBufferObject_ exampleBlitTarget.frameBufferObject_ =
          GL_COLOR_BUFFER_BIT ||| GL_DEPTH_BUFFER_BIT ∧
        depthCalls = []) :=
  updateFrom_mask_and_pbo_copies exampleBlitTarget exampleBlitSource exampleContext
    exampleDrawBuffers exampleDrawBuffers
    (LayerGL.mk (some (Texture2D.mk 11 64 32)) 1 (64, 32))
    (LayerGL.mk (some (Texture2D.mk 111 64 32)) 1 (64, 32))
    [LayerGL.mk (some (Texture2D.mk 12 64 32)) 1 (64, 32)]
    [LayerGL.mk (some (Texture2D.mk 112 64 32)) 1 (64, 32)]
    (Texture2D.mk 11 64 32) (Texture2D.mk 111 64 32)
    (LayerGL.mk (some (Texture2D.mk 20 64 32)) 2 (64, 32))
    (LayerGL.mk (some (Texture2D.mk 120 64 32)) 2 (64, 32))
    (LayerGL.mk (some (Texture2D.mk 30 64 32)) 1 (64, 32))
    (LayerGL.mk (some (Texture2D.mk 130 64 32)) 1 (64, 32))
    (by decide) (by rfl) (by decide) (by rfl) (by decide) (by decide) (by decide) (by decide)
    (by decide) (by decide) (by decide) (by decide)

/-- Counterexample to C19 as stated: the example source has depth and
stencil attachments, the example target has a depth attachment only, and the
mask is color+depth (16640).  With the picking attachment in both draw-buffer
arrays the blits of the loop copy it and no pixel-buffer copy is made at all;
with a target array of `GL_NONE` entries exactly one pixel-buffer copy is
made, and it copies the picking texture 30 into 130, not a stencil entry. -/
theorem updateFrom_makes_no_stencil_pbo_copy :
    exampleBlitSource.frameBufferObject_.hasDepthAttachment = true ∧
    exampleBlitSource.frameBufferObject_.hasStencilAttachment = true ∧
    exampleBlitTarget.frameBufferObject_.hasDepthAttachment = true ∧
    exampleBlitTarget.frameBufferObject_.hasStencilAttachment = false ∧
    (ImageGL.updateFrom exampleBlitTarget exampleBlitSource exampleContext exampleDrawBuffers
        exampleDrawBuffers).calls =
      [.blitFramebuffer 64 32 64 32 16640,
       .readBuffer 36065, .drawBuffer 36065, .blitFramebuffer 64 32 64 32 16384,
       .readBuffer 36071, .drawBuffer 36071, .blitFramebuffer 64 32 64 32 16384,
       .readBuffer 36064, .drawBuffer 36064] ∧
    (ImageGL.updateFrom exampleBlitTarget exampleBlitSource exampleContext exampleDrawBuffers
        exampleDrawBuffers).calls.countP ImageCall.isLoadFromPBO = 0 ∧
    (ImageGL.updateFrom exampleBlitTarget exampleBlitSource exampleContext exampleDrawBuffers
        (List.replicate 8 GL_NONE)).calls =
      [.blitFramebuffer 64 32 64 32 16640, .readBuffer 36064, .drawBuffer 36064,
       .loadFromPBO 130 30] ∧
    exampleBlitSource.pickingLayerGL_.map LayerGL.textureId = some 30 ∧
    exampleBlitTarget.pickingLayerGL_.map LayerGL.textureId = some 130 := by
  decide

/-- C20: for positive source and target dimensions, with the aspect ratios
`width / height` taken as exact rationals, the scale of
`copyAndResizeRepresentation` is `(1, targetAspect / sourceAspect, 1)` when
`targetAspect < sourceAspect` and `(sourceAspect / targetAspect, 1, 1)`
otherwise.  In both cases only that one axis is scaled, its factor lies in
`(0, 1]`, and the scaled quad `(x * targetWidth, y * targetHeight)` lies
inside the target and has the aspect ratio of the source. -/
theorem copyAndResizeScale_fits (sw sh tw th : Nat)
    (hsw : 0 < sw) (hsh : 0 < sh) (htw : 0 < tw) (hth : 0 < th) :
    ((tw : ℚ) / th < (sw : ℚ) / sh →
      ImageGL.copyAndResizeScale (sw, sh) (tw, th) =
        (1, ((tw : ℚ) / th) / ((sw : ℚ) / sh), 1) ∧
      0 < ((tw : ℚ) / th) / ((sw : ℚ) / sh) ∧ ((tw : ℚ) / th) / ((sw : ℚ) / sh) < 1) ∧
    (¬ ((tw : ℚ) / th < (sw : ℚ) / sh) →
      ImageGL.copyAndResizeScale (sw, sh) (tw, th) =
        (((sw : ℚ) / sh) / ((tw : ℚ) / th), 1, 1) ∧
      0 < ((sw : ℚ) / sh) / ((tw : ℚ) / th) ∧ ((sw : ℚ) / sh) / ((tw : ℚ) / th) ≤ 1) ∧
    (ImageGL.copyAndResizeScale (sw, sh) (tw, th)).2.2 = 1 ∧
    ((ImageGL.copyAndResizeScale (sw, sh) (tw, th)).1 = 1 ∨
      (ImageGL.copyAndResizeScale (sw, sh) (tw, th)).2.1 = 1) ∧
    0 < (ImageGL.copyAndResizeScale (sw, sh) (tw, th)).1 ∧
    (ImageGL.copyAndResizeScale (sw, sh) (tw, th)).1 ≤ 1 ∧
    0 < (ImageGL.copyAndResizeScale (sw, sh) (tw, th)).2.1 ∧
    (ImageGL.copyAndResizeScale (sw, sh) (tw, th)).2.1 ≤ 1 ∧
    (ImageGL.copyAndResizeScale (sw, sh) (tw, th)).1 * tw ≤ tw ∧
    (ImageGL.copyAndResizeScale (sw, sh) (tw, th)).2.1 * th ≤ th ∧
    ((ImageGL.copyAndResizeScale (sw, sh) (tw, th)).1 * tw) /
        ((ImageGL.copyAndResizeScale (sw, sh) (tw, th)).2.1 * th) = (sw : ℚ) / sh := by
  have hsw1 : (0 : ℚ) < sw := by exact_mod_cast hsw
  have hsh1 : (0 : ℚ) < sh := by exact_mod_cast hsh
  have htw1 : (0 : ℚ) < tw := by exact_mod_cast htw
  have hth1 : (0 : ℚ) < th := by exact_mod_cast hth
  have hrs : (0 : ℚ) < (sw : ℚ) / sh := div_pos hsw1 hsh1
  have hrt : (0 : ℚ) < (tw : ℚ) / th := div_pos htw1 hth1
  by_cases hlt : (tw : ℚ) / th < (sw : ℚ) / sh
  · have hval : ImageGL.copyAndResizeScale (sw, sh) (tw, th) =
        (1, ((tw : ℚ) / th) / ((sw : ℚ) / sh), 1) := by
      unfold ImageGL.copyAndResizeScale
      simp only
      rw [if_pos hlt]
    have hpos : 0 < ((tw : ℚ) / th) / ((sw : ℚ) / sh) := div_pos hrt hrs
    have hlt1 : ((tw : ℚ) / th) / ((sw : ℚ) / sh) < 1 := (div_lt_one hrs).2 hlt
    rw [hval]
    refine ⟨fun _ => ⟨rfl, hpos, hlt1⟩, fun h => absurd hlt h, rfl, Or.inl rfl, one_pos,
      le_refl _, hpos, le_of_lt hlt1, ?_, ?_, ?_⟩
    · simp
    · exact mul_le_of_le_one_left (le_of_lt hth1) (le_of_lt hlt1)
    · simp only
      field_simp
      ring
  · have hval : ImageGL.copyAndResizeScale (sw, sh) (tw, th) =
        (((sw : ℚ) / sh) / ((tw : ℚ) / th), 1, 1) := by
      unfold ImageGL.copyAndResizeScale
      simp only
      rw [if_neg hlt]
    have hpos : 0 < ((sw : ℚ) / sh) / ((tw : ℚ) / th) := div_pos hrs hrt
    have hle1 : ((sw : ℚ) / sh) / ((tw : ℚ) / th) ≤ 1 := (div_le_one hrt).2 (not_lt.1 hlt)
    rw [hval]
    refine ⟨fun h => absurd h hlt, fun _ => ⟨rfl, hpos, hle1⟩, rfl, Or.inr rfl, hpos, hle1,
      one_pos, le_refl _, ?_, ?_, ?_⟩
    · exact mul_le_of_le_one_left (le_of_lt htw1) hle1
    · simp
    · simp only
      field_simp
      ring

/-- Witness for C20: a 64x32 source copied into a 100x100 target is scaled
by 1/2 along Y. -/
theorem copyAndResizeScale_fits_witness :
    ImageGL.copyAndResizeScale (64, 32) (100, 100) = (1, 1 / 2, 1) ∧
    ((ImageGL.copyAndResizeScale (64, 32) (100, 100)).1 * (100 : Nat)) /
        ((ImageGL.copyAndResizeScale (64, 32) (100, 100)).2.1 * (100 : Nat)) =
      ((64 : Nat) : ℚ) / (32 : Nat) :=
  ⟨by
      rw [((copyAndResizeScale_fits 64 32 100 100 (by decide) (by decide) (by decide)
        (by decide)).1 (by norm_num)).1]
      norm_num,
    (copyAndResizeScale_fits 64 32 100 100 (by decide) (by decide) (by decide)
      (by decide)).2.2.2.2.2.2.2.2.2.2⟩

/-! ## Nested activation -/

/-- C21 (amended): every object keeps its own saved binding.  With `T` bound
(`T` not `A`), after `A.activate()` and `B.activate()` for a different object
`B`, `A` holds `T` and `B` holds `A`; the unwinding `B.deactivate()`,
`A.deactivate()` binds `A` and then `T` again.  The outer target is lost when
`A` is activated again while `B` is bound: that call overwrites the `T` saved
in `A` by `B`, and the unwinding of the three activations ends with `B`
bound. -/
theorem nested_activation_unwinds (A B : FrameBufferObject) (gl : GLContext)
    (hA : A.id_ < 2 ^ 32) (hB : B.id_ < 2 ^ 32) (hT : gl.drawFramebufferBinding < 2 ^ 32)
    (hAB : A.id_ ≠ B.id_) (hTA : gl.drawFramebufferBinding ≠ A.id_)
    (hcA : checkContext A.creationContext_ gl = false)
    (hcB : checkContext B.creationContext_ gl = false) :
    ∃ A1 B1 gl1 gl2 gl3 gl4,
      activate A gl = .done () A1 gl1 ∧
      activate B gl1 = .done () B1 gl2 ∧
      gl2.drawFramebufferBinding = B.id_ ∧
      toGLuint A1.prevFbo_ = gl.drawFramebufferBinding ∧
      toGLuint B1.prevFbo_ = A.id_ ∧
      deactivate B1 gl2 = .done () B1 gl3 ∧
      gl3.drawFramebufferBinding = A.id_ ∧
      deactivate A1 gl3 = .done () A1 gl4 ∧
      gl4.drawFramebufferBinding = gl.drawFramebufferBinding ∧
      gl4.readFramebufferBinding = gl.drawFramebufferBinding ∧
      ∃ A2 gl5 gl6 gl7 gl8,
        activate A1 gl2 = .done () A2 gl5 ∧
        toGLuint A2.prevFbo_ = B.id_ ∧
        deactivate A2 gl5 = .done () A2 gl6 ∧
        deactivate B1 gl6 = .done () B1 gl7 ∧
        deactivate A2 gl7 = .done () A2 gl8 ∧
        gl8.drawFramebufferBinding = B.id_ := by
  have hneA : toGLint A.id_ ≠ toGLint gl.drawFramebufferBinding := by
    intro h
    exact hTA ((toGLint_inj _ _ hA hT).1 h).symm
  have hneB : toGLint B.id_ ≠ toGLint A.id_ := by
    intro h
    exact hAB ((toGLint_inj _ _ hB hA).1 h).symm
  have hneA2 : toGLint A.id_ ≠ toGLint B.id_ := fun h => hneB h.symm
  have hpA : toGLuint (toGLint gl.drawFramebufferBinding) ≠ A.id_ := by
    rw [toGLuint_toGLint _ hT]; exact hTA
  have hpB : toGLuint (toGLint A.id_) ≠ B.id_ := by
    rw [toGLuint_toGLint _ hA]; exact hAB
  have hpA2 : toGLuint (toGLint B.id_) ≠ A.id_ := by
    rw [toGLuint_toGLint _ hB]; exact fun h => hAB h.symm
  refine ⟨{ A with prevFbo_ := toGLint gl.drawFramebufferBinding },
    { B with prevFbo_ := toGLint A.id_ },
    gl.bindFramebuffer A.id_,
    (gl.bindFramebuffer A.id_).bindFramebuffer B.id_,
    ((gl.bindFramebuffer A.id_).bindFramebuffer B.id_).bindFramebuffer
      (toGLuint (toGLint A.id_)),
    (((gl.bindFramebuffer A.id_).bindFramebuffer B.id_).bindFramebuffer
      (toGLuint (toGLint A.id_))).bindFramebuffer
      (toGLuint (toGLint gl.drawFramebufferBinding)),
    activate_unbound A gl hneA hcA, ?_, rfl, toGLuint_toGLint _ hT, toGLuint_toGLint _ hA,
    ?_, toGLuint_toGLint _ hA, ?_, toGLuint_toGLint _ hT, toGLuint_toGLint _ hT, ?_⟩
  · exact activate_unbound B (gl.bindFramebuffer A.id_) hneB hcB
  · exact deactivate_bound _ _ (by exact hpB) (by rfl) (by exact hcB)
  · refine deactivate_bound _ _ (by exact hpA) ?_ (by exact hcA)
    show toGLint A.id_ = toGLint (toGLuint (toGLint A.id_))
    rw [toGLuint_toGLint _ hA]
  · refine ⟨{ A with prevFbo_ := toGLint B.id_ },
      ((gl.bindFramebuffer A.id_).bindFramebuffer B.id_).bindFramebuffer A.id_,
      (((gl.bindFramebuffer A.id_).bindFramebuffer B.id_).bindFramebuffer A.id_).bindFramebuffer
        (toGLuint (toGLint B.id_)),
      ((((gl.bindFramebuffer A.id_).bindFramebuffer B.id_).bindFramebuffer
        A.id_).bindFramebuffer (toGLuint (toGLint B.id_))).bindFramebuffer
        (toGLuint (toGLint A.id_)),
      (((((gl.bindFramebuffer A.id_).bindFramebuffer B.id_).bindFramebuffer
        A.id_).bindFramebuffer (toGLuint (toGLint B.id_))).bindFramebuffer
        (toGLuint (toGLint A.id_))).bindFramebuffer (toGLuint (toGLint B.id_)),
      ?_, toGLuint_toGLint _ hB, ?_, ?_, ?_, toGLuint_toGLint _ hB⟩
    · exact activate_unbound { A with prevFbo_ := toGLint gl.drawFramebufferBinding }
        ((gl.bindFramebuffer A.id_).bindFramebuffer B.id_) hneA2 hcA
    · exact deactivate_bound _ _ (by exact hpA2) (by rfl) (by exact hcA)
    · refine deactivate_bound _ _ (by exact hpB) ?_ (by exact hcB)
      show toGLint B.id_ = toGLint (toGLuint (toGLint B.id_))
      rw [toGLuint_toGLint _ hB]
    · refine deactivate_bound _ _ (by exact hpA2) ?_ (by exact hcA)
      show toGLint A.id_ = toGLint (toGLuint (toGLint A.id_))
      rw [toGLuint_toGLint _ hA]

/-- Witness for C21: objects 3 and 4 activated while framebuffer 5 is bound. -/
theorem nested_activation_unwinds_witness :
    ∃ A1 B1 gl1 gl2 gl3 gl4,
      activate (create 3 8 7) (GLContext.mk 5 5 7 true) = .done () A1 gl1 ∧
      activate (create 4 8 7) gl1 = .done () B1 gl2 ∧
      gl2.drawFramebufferBinding = 4 ∧
      toGLuint A1.prevFbo_ = 5 ∧
      toGLuint B1.prevFbo_ = 3 ∧
      deactivate B1 gl2 = .done () B1 gl3 ∧
      gl3.drawFramebufferBinding = 3 ∧
      deactivate A1 gl3 = .done () A1 gl4 ∧
      gl4.drawFramebufferBinding = 5 ∧
      gl4.readFramebufferBinding = 5 ∧
      ∃ A2 gl5 gl6 gl7 gl8,
        activate A1 gl2 = .done () A2 gl5 ∧
        toGLuint A2.prevFbo_ = 4 ∧
        deactivate A2 gl5 = .done () A2 gl6 ∧
        deactivate B1 gl6 = .done () B1 gl7 ∧
        deactivate A2 gl7 = .done () A2 gl8 ∧
        gl8.drawFramebufferBinding = 4 :=
  nested_activation_unwinds (create 3 8 7) (create 4 8 7) (GLContext.mk 5 5 7 true)
    (by decide) (by decide) (by decide) (by decide) (by decide) (by decide) (by decide)

/-- Counterexample to C21 as stated: with framebuffer 5 bound, object 3 and
then object 4 are activated; `deactivate()` of object 4 and then of object 3
leaves framebuffer 5 bound again. -/
theorem nested_unwinding_restores_outer_target :
    activate (create 3 8 7) (GLContext.mk 5 5 7 true)
      = .done () { create 3 8 7 with prevFbo_ := 5 } (GLContext.mk 3 3 7 true) ∧
    activate (create 4 8 7) (GLContext.mk 3 3 7 true)
      = .done () { create 4 8 7 with prevFbo_ := 3 } (GLContext.mk 4 4 7 true) ∧
    deactivate { create 4 8 7 with prevFbo_ := 3 } (GLContext.mk 4 4 7 true)
      = .done () { create 4 8 7 with prevFbo_ := 3 } (GLContext.mk 3 3 7 true) ∧
    deactivate { create 3 8 7 with prevFbo_ := 5 } (GLContext.mk 3 3 7 true)
      = .done () { create 3 8 7 with prevFbo_ := 5 } (GLContext.mk 5 5 7 true) := by
  decide

/-! ## Attaching to an occupied slot -/

theorem performAttachTexture_occupied (s : FrameBufferObject) (hwf : WellFormed s) (a : GLenum)
    (t u : GLuint) (h0 : GL_COLOR_ATTACHMENT0 ≤ a)
    (h1 : (a : Int) ≤ GL_COLOR_ATTACHMENT0 + s.maxColorattachments_ - 1)
    (hslot : s.attachedColorIds_[a - GL_COLOR_ATTACHMENT0]? = some u) (hu : u ≠ 0) :
    performAttachTexture s a t = .ok () s := by
  obtain ⟨hd, hst, hds, _⟩ := color_range_not_depth s hwf a h0 h1
  have hfirst : arrayAt colorAttachmentEnums_ 0 = some GL_COLOR_ATTACHMENT0 := by decide
  unfold performAttachTexture
  rw [if_neg hd, if_neg hst, if_neg hds, validateAttachmentId_ok s hwf a h0 h1]
  simp only [hfirst, hslot, hu, if_false]

/-- C22: on an object with the constructor's sizes and a duplicate-free
draw-buffer list that is not full, if the slot addressed by `attachmentNumber`
(from the front or from the rear) holds texture `t1`, then
`performAttachColorTexture(t2, attachmentNumber, attachFromRear,
forcedLocation)` returns that slot's attachment id for every `t2` and every
forced location, and the slot table is unchanged (the slot still records
`t1`); at most the draw-buffer list differs, and without a forced location
inside the list the object is unchanged.  `performAttachTexture` with a color
attachment id whose slot is occupied returns the object unchanged. -/
theorem occupied_slot_not_overwritten (s : FrameBufferObject) (hwf : WellFormed s)
    (hnd : s.drawBuffers_.Nodup) (t1 t2 : GLuint) (n : Int) (rear : Bool) (loc : Int)
    (hfull : (s.drawBuffers_.length : Int) ≠ s.maxColorattachments_)
    (h0 : 0 ≤ n) (h1 : n ≤ s.maxColorattachments_ - 1)
    (hslot : s.attachedColorIds_[slotIndex s n rear]? = some t1) (ht1 : t1 ≠ 0) :
    (∃ s1, performAttachColorTextureExplicit s t2 n rear loc =
        .ok (GL_COLOR_ATTACHMENT0 + slotIndex s n rear) s1 ∧
      s1.attachedColorIds_ = s.attachedColorIds_ ∧
      s1.attachedColorIds_[slotIndex s n rear]? = some t1 ∧
      s1 = { s with drawBuffers_ := s1.drawBuffers_ } ∧
      (¬ (loc > -1 ∧ loc < (s.drawBuffers_.length : Int)) → s1 = s)) ∧
    (∀ (a : GLenum) (u : GLuint), GL_COLOR_ATTACHMENT0 ≤ a →
      (a : Int) ≤ GL_COLOR_ATTACHMENT0 + s.maxColorattachments_ - 1 →
      s.attachedColorIds_[a - GL_COLOR_ATTACHMENT0]? = some u → u ≠ 0 →
      performAttachTexture s a t2 = .ok () s) := by
  constructor
  · rw [explicit_occupied s hwf t2 n rear loc hfull h0 h1 t1 hslot ht1]
    by_cases hloc : loc > -1 ∧ loc < (s.drawBuffers_.length : Int)
    · rw [if_pos hloc]
      by_cases hb : s.drawBuffers_[loc.toNat]? ≠
          some (GL_COLOR_ATTACHMENT0 + slotIndex s n rear)
      · rw [if_pos hb]
        have hle := length_le_eraseRemove s.drawBuffers_
          (GL_COLOR_ATTACHMENT0 + slotIndex s n rear) hnd
        have hpos : loc.toNat ≤
            (eraseRemove s.drawBuffers_ (GL_COLOR_ATTACHMENT0 + slotIndex s n rear)).length := by
          omega
        rw [if_pos hpos]
        exact ⟨_, rfl, rfl, hslot, rfl, fun h => absurd hloc h⟩
      · rw [if_neg hb]
        exact ⟨s, rfl, rfl, hslot, rfl, fun _ => rfl⟩
    · rw [if_neg hloc]
      exact ⟨s, rfl, rfl, hslot, rfl, fun _ => rfl⟩
  · intro a u ha0 ha1 hs hu
    exact performAttachTexture_occupied s hwf a t2 u ha0 ha1 hs hu

/-- Witness for C22: slot 2 of an 8-slot object holds texture 11; attaching
texture 12 to slot 2 returns `GL_COLOR_ATTACHMENT2` and the slot still
records 11. -/
theorem occupied_slot_not_overwritten_witness :
    (∃ s1, performAttachColorTextureExplicit
        { create 3 8 7 with
          attachedColorIds_ := [0, 0, 11, 0, 0, 0, 0, 0]
          drawBuffers_ := [GL_COLOR_ATTACHMENT0 + 2] } 12 2 false (-1) =
        .ok (GL_COLOR_ATTACHMENT0 + 2) s1 ∧
      s1.attachedColorIds_ = [0, 0, 11, 0, 0, 0, 0, 0]) ∧
    performAttachTexture
        { create 3 8 7 with
          attachedColorIds_ := [0, 0, 11, 0, 0, 0, 0, 0]
          drawBuffers_ := [GL_COLOR_ATTACHMENT0 + 2] } (GL_COLOR_ATTACHMENT0 + 2) 12 =
      .ok ()
        { create 3 8 7 with
          attachedColorIds_ := [0, 0, 11, 0, 0, 0, 0, 0]
          drawBuffers_ := [GL_COLOR_ATTACHMENT0 + 2] } := by
  have h := occupied_slot_not_overwritten
    { create 3 8 7 with
      attachedColorIds_ := [0, 0, 11, 0, 0, 0, 0, 0]
      drawBuffers_ := [GL_COLOR_ATTACHMENT0 + 2] } (by decide) (by decide) 11 12 2 false (-1)
    (by decide) (by decide) (by decide) (by decide) (by decide)
  obtain ⟨⟨s1, h1, h2, _⟩, h3⟩ := h
  exact ⟨⟨s1, h1, h2⟩, h3 (GL_COLOR_ATTACHMENT0 + 2) 11 (by decide) (by decide) (by decide)
    (by decide)⟩

end inviwo
